import Mathlib

/-!
# DataGenerator.go: the retail fixture generator

A shallow embedding of `src/DataGenerator.go`.

* Go `int` record fields are `Int`; loop indices and the results of `rand.Intn`
  are `Nat` (they are never negative).  With the counts of the source no
  arithmetic leaves the 64-bit range, so no wrap-around is modelled.
* A `float64` is a rational, read as the float64 nearest to it (`arredondar`:
  53 significant bits, a tie going to the even neighbour).  Every float64
  operation rounds its exact result that way (`fadd`, `fmul`, `fdiv`), one
  operation at a time: products and sums are not fused (the compiler does not
  fuse them on amd64).  The exponent is not bounded: the amounts of the
  program stay far from overflow and underflow.  The idiom
  `float64(int(x*100)) / 100` is `duasCasas`; its result is kept as the
  decimal `k / 100`.
* `math/rand` is an arbitrary stream of naturals, one element for each call:
  `Intn n` reduces the element modulo `n` (every value of `[0, n)` can come
  out) and panics for `n = 0`; `Float64` is `float64(k) / (1 << 63)` for the
  `Int63` value `k` the library accepts.  A panic is the result `none`.
* `time.Now()` is an input of the generators that call it, and `AddDate` is kept
  symbolic (the list of shifts applied to the clock reading).
* The two sinks are external: a write is an event of the trace, and whether it
  fails is decided by an arbitrary oracle `Falhas`.
* Goroutines of a stage share the global random source and interleave freely.
  The stage functions give every record index a random stream (and a clock
  reading) of its own, which covers every interleaving, and list the events
  worker by worker.
-/

namespace DataGenerator

/-! ## Configuration (the `const` block) -/

/-- The counts of the `const` block. -/
structure Config where
  numProdutos : Nat
  numLojas : Nat
  numPDVs : Nat
  numCaixas : Nat
  numClientes : Nat
  numFornecedores : Nat
  numCidades : Nat
  numNotasFiscais : Nat
  numItensNotaFiscal : Nat
  numGoroutines : Nat
deriving Repr, DecidableEq

/-- The values of the source. -/
def config : Config where
  numProdutos := 5000
  numLojas := 50
  numPDVs := 500
  numCaixas := 500
  numClientes := 25000
  numFornecedores := 10000
  numCidades := 2000
  numNotasFiscais := 100000
  numItensNotaFiscal := 100000
  numGoroutines := 10

/-! ## Time -/

/-- A `time.Time`: a clock reading and the `AddDate` shifts applied to it, oldest first. -/
structure Time where
  leitura : Int
  ajustes : List (Int × Int × Int)
deriving Repr, DecidableEq

/-- The method `t.AddDate(years, months, days)`, kept symbolic. -/
def Time.AddDate (t : Time) (years months days : Int) : Time :=
  { t with ajustes := t.ajustes ++ [(years, months, days)] }

/-! ## Records (the `type ... struct` block) -/

structure Produto where
  CodProduto : Int
  NomProduto : String
  CodFornecedor : Int
  CodSetor : Int
  CodUnidade : Int
  FlgFracionado : String
  VlrVenda : ℚ
  VlrCusto : ℚ
  VlrMedio : ℚ
  CodPromocao : Int
  VlrPromocao : ℚ
deriving Repr, DecidableEq

structure Loja where
  CodLoja : Int
  NomLoja : String
  CodEndereco : Int
  FlgMatriz : String
deriving Repr, DecidableEq

structure PDV where
  CodPDV : Int
  NumRegistro : ℚ
  DatInicioVigencia : Time
  DatFimVigencia : Time
  NumNotaInicial : ℚ
  NumNotaFinal : ℚ
  CodLoja : Int
  NumPDVLoja : ℚ
deriving Repr, DecidableEq

structure Caixa where
  CodCaixa : Int
  NomCaixa : String
  CodLoja : Int
  FlgFerias : String
deriving Repr, DecidableEq

structure Cidade where
  CodIBGE : Int
  NomCidade : String
  NomEstado : String
  NomRegiao : String
  NomPais : String
deriving Repr, DecidableEq

structure Endereco where
  CodEndereco : Int
  NomLogradouro : String
  NumLogradouro : String
  CodCEP : ℚ
  CodIBGE : Int
  FlgExterior : String
  TipLogradouro : String
deriving Repr, DecidableEq

structure Cliente where
  CodCliente : Int
  NomCliente : String
  FlgFidelizado : String
  CodEndereco : Int
deriving Repr, DecidableEq

structure Fornecedor where
  CodFornecedor : Int
  NomFornecedor : String
  FlgFatura : String
  NumDiasFatura : ℚ
deriving Repr, DecidableEq

structure NotaFiscal where
  SeqNota : Int
  CodPDV : Int
  CodCaixa : Int
  CodCliente : Int
  NumNota : ℚ
  DatNota : Time
  FlgEntrega : String
  VlrNota : ℚ
  VlrDinheiro : ℚ
  VlrTick : ℚ
  VlrCartao : ℚ
deriving Repr, DecidableEq

structure ItemNotaFiscal where
  SeqItemNota : Int
  SeqNota : Int
  CodProduto : Int
  QtdProduto : ℚ
  VlrVenda : ℚ
  VlrCusto : ℚ
  VlrMedio : ℚ
  VlrPromocao : ℚ
deriving Repr, DecidableEq

/-- The `bson.M` document `gerarProdutos` inserts: the keys `cod_promocao` and
`vlr_promocao` are present only for a product on promotion. -/
structure ProdutoDoc where
  CodProduto : Int
  NomProduto : String
  CodFornecedor : Int
  CodSetor : Int
  CodUnidade : Int
  FlgFracionado : String
  VlrVenda : ℚ
  VlrCusto : ℚ
  VlrMedio : ℚ
  CodPromocao : Option Int
  VlrPromocao : Option ℚ
deriving Repr, DecidableEq

/-! ## Vocabularies (the `var` block) -/

def estados : List String :=
  ["AC", "AL", "AP", "AM", "BA", "CE", "DF", "ES", "GO", "MA",
   "MT", "MS", "MG", "PA", "PB", "PR", "PE", "PI", "RJ", "RN",
   "RS", "RO", "RR", "SC", "SP", "SE", "TO"]

def regioes : List String :=
  ["Norte", "Nordeste", "Centro-Oeste", "Sudeste", "Sul"]

def tiposLogradouro : List String :=
  ["R", "AV", "AL", "EST", "ROD", "PRÇ", "VL"]

def setores : List Int := [1, 2, 3, 4, 5, 6, 7, 8, 9, 10]

def unidades : List Int := [1, 2, 3, 4, 5]

def nomesProdutos : List String :=
  ["Arroz", "Feijão", "Macarrão", "Açúcar", "Café", "Leite", "Óleo",
   "Farinha", "Sal", "Carne", "Frango", "Peixe", "Pão", "Cerveja",
   "Refrigerante", "Suco", "Biscoito", "Chocolate", "Sorvete", "Sabão",
   "Detergente", "Desinfetante", "Papel Higiênico", "Shampoo", "Condicionador"]

def sobrenomesProdutos : List String :=
  ["Tipo 1", "Premium", "Gold", "Silver", "Tradicional", "Especial",
   "Extra", "Super", "Master", "Light", "Integral", "Natural",
   "Original", "Fino", "Clássico", "Orgânico", "Zero", "Plus",
   "Mega", "Ultra", "Soft", "Fresh", "Tropical", "Gourmet"]

def marcasProdutos : List String :=
  ["Nova Era", "Tradição", "Qualidade", "Campo Bom", "Delícia",
   "Saúde Total", "Sabor Perfeito", "MasterFood", "Naturalmente",
   "BomGosto", "AmigoDia", "CasaFeliz", "PuroBem", "DeliciaReal"]

def sobrenomesPessoas : List String :=
  ["Silva", "Santos", "Oliveira", "Souza", "Lima", "Pereira", "Ferreira",
   "Costa", "Rodrigues", "Almeida", "Nascimento", "Carvalho", "Gomes",
   "Martins", "Araújo", "Ribeiro", "Monteiro", "Cardoso", "Correia"]

def nomesPessoas : List String :=
  ["João", "Maria", "José", "Ana", "Pedro", "Paulo", "Carlos", "Marcos",
   "Lucas", "Mateus", "Gabriel", "Rafael", "Daniel", "Antônio", "Fernando",
   "Luiz", "Eduardo", "André", "Adriana", "Amanda", "Bruna", "Camila",
   "Carolina", "Cláudia", "Débora", "Diana", "Eliana", "Fernanda", "Gabriela"]

def nomesLogradouros : List String :=
  ["Flores", "Palmeiras", "Ipê", "Jatobá", "Araçá", "Tucumã", "Brasil",
   "Santos Dumont", "Getúlio Vargas", "JK", "Amazonas", "Rui Barbosa",
   "Marechal Deodoro", "Principal", "Comercial", "Industrial", "Central",
   "Jatoba", "das Araras", "dos Bandeirantes", "Coronel Fawcett"]

/-! ## float64 -/

/-- The integer nearest to `y`, a tie going to the even one. -/
def arredondarInteiro (y : ℚ) : Int :=
  if y - ⌊y⌋ < 1 / 2 then ⌊y⌋
  else if 1 / 2 < y - ⌊y⌋ then ⌊y⌋ + 1
  else if ⌊y⌋ % 2 = 0 then ⌊y⌋ else ⌊y⌋ + 1

/-- The exponent of the unit in the last place of the float64 nearest to `x`: `s` with
`2^(s+52) ≤ |x| < 2^(s+53)`. -/
def expoente (x : ℚ) : Int := Int.log 2 |x| - 52

/-- The float64 nearest to `x` (round to nearest, ties to even): the multiple of
`2^(expoente x)` nearest to `x`. -/
def arredondar (x : ℚ) : ℚ :=
  (arredondarInteiro (x / 2 ^ expoente x) : ℚ) * 2 ^ expoente x

/-- The float64 sum `a + b`. -/
def fadd (a b : ℚ) : ℚ := arredondar (arredondar a + arredondar b)

/-- The float64 product `a * b`. -/
def fmul (a b : ℚ) : ℚ := arredondar (arredondar a * arredondar b)

/-- The float64 quotient `a / b`. -/
def fdiv (a b : ℚ) : ℚ := arredondar (arredondar a / arredondar b)

/-- The conversion `int(x)` of a float: truncation toward zero. -/
def truncar (x : ℚ) : Int := if 0 ≤ x then ⌊x⌋ else ⌈x⌉

/-- The idiom `float64(int(x*100)) / 100`: the float64 product by 100 is truncated to an
integer `k`; the result, the float64 quotient of `k` by 100, is kept as `k / 100`. -/
def duasCasas (x : ℚ) : ℚ := (truncar (fmul x 100) : ℚ) / 100

/-- The function `round2` of the specification, on exact rationals:
`round2(x) = trunc(100 * x) / 100`. -/
def round2 (x : ℚ) : ℚ := (truncar (x * 100) : ℚ) / 100

/-! ## The random source -/

/-- The global source of `math/rand`: a stream and the number of draws made so far. -/
structure Rand where
  src : Nat → Nat
  pos : Nat

/-- A computation that draws from the random source and may panic (`none`). -/
def Gen (α : Type) : Type := Rand → Option (α × Rand)

/-- Return without drawing. -/
def Gen.pure {α : Type} (a : α) : Gen α := fun r => some (a, r)

/-- Sequencing; a panic of the first computation is a panic of the whole. -/
def Gen.bind {α β : Type} (m : Gen α) (f : α → Gen β) : Gen β := fun r =>
  match m r with
  | none => none
  | some (a, r1) => f a r1

instance : Monad Gen where
  pure := Gen.pure
  bind := Gen.bind

/-- The function `rand.Intn(n)`: a value of `[0, n)`; panics when `n <= 0`. -/
def Intn (n : Nat) : Gen Nat := fun r =>
  if n = 0 then none else some (r.src r.pos % n, { r with pos := r.pos + 1 })

/-- The float of `[0, 1)` made from a raw draw: `float64(k) / (1 << 63)` for an `Int63`
value `k`.  The library draws again while the quotient is 1, which is when
`2^63 - 512 ≤ k` (then `float64(k)` is `2^63`), so the `k` it accepts is below
`2^63 - 512`. -/
def unidade (n : Nat) : ℚ := arredondar ((n % (2 ^ 63 - 512) : Nat) : ℚ) / 2 ^ 63

/-- The function `rand.Float64()`: a float64 of `[0, 1)`. -/
def Float64 : Gen ℚ := fun r =>
  some (unidade (r.src r.pos), { r with pos := r.pos + 1 })

/-- Indexing `xs[i]` of a slice; a panic when `i` is out of range. -/
def indexar {α : Type} (xs : List α) (i : Nat) : Gen α := fun r =>
  match xs.get? i with
  | none => none
  | some x => some (x, r)

/-! ## The partitioner (the head of every worker closure) -/

/-- The local `itemsPerGoroutine := N / numGoroutines`. -/
def itemsPerGoroutine (N W : Nat) : Nat := N / W

/-- The local `start := goroutineID * itemsPerGoroutine`. -/
def start (N W goroutineID : Nat) : Nat := goroutineID * itemsPerGoroutine N W

/-- The local `end`: `start + itemsPerGoroutine`, and `N` for the last worker. -/
def end_ (N W goroutineID : Nat) : Nat :=
  if goroutineID = W - 1 then N else start N W goroutineID + itemsPerGoroutine N W

/-- The indices worker `goroutineID` visits: `for i := start; i < end; i++`. -/
def indices (N W goroutineID : Nat) : List Nat :=
  List.range' (start N W goroutineID) (end_ N W goroutineID - start N W goroutineID)

/-- The idiom `xs[rand.Intn(len(xs))]`. -/
def escolher {α : Type} (xs : List α) : Gen α := do
  let k ← Intn xs.length
  indexar xs k

/-! ## Record generation (the bodies of the worker loops, up to the first sink write) -/

/-- The body of the loop of `gerarCidades` for index `i`. -/
def gerarCidade (i : Nat) : Gen Cidade := do
  let codIBGE : Int := (i : Int) + 1000000
  let estado ← escolher estados
  let regiao ← escolher regioes
  let nomCidade := "Cidade " ++ toString (i + 1)
  pure { CodIBGE := codIBGE, NomCidade := nomCidade, NomEstado := estado,
         NomRegiao := regiao, NomPais := "Brasil" }

/-- The body of the loop of `gerarEnderecos` for index `i`. -/
def gerarEndereco (cfg : Config) (i : Nat) : Gen Endereco := do
  let codEndereco : Int := (i : Int) + 1
  let nomLogradouro ← escolher nomesLogradouros
  let n ← Intn 1000
  let numLogradouro := toString (n + 1)
  let c ← Intn 90000000
  let codCEP : ℚ := ((10000000 + c : Nat) : ℚ)
  let k ← Intn cfg.numCidades
  let codIBGE : Int := (k : Int) + 1000000
  let flgExterior := "N"
  let tipLogradouro ← escolher tiposLogradouro
  pure { CodEndereco := codEndereco, NomLogradouro := nomLogradouro,
         NumLogradouro := numLogradouro, CodCEP := codCEP, CodIBGE := codIBGE,
         FlgExterior := flgExterior, TipLogradouro := tipLogradouro }

/-- The body of the loop of `gerarFornecedores` for index `i`. -/
def gerarFornecedor (i : Nat) : Gen Fornecedor := do
  let codFornecedor : Int := (i : Int) + 1
  let nome1 ← escolher nomesPessoas
  let nome2 ← escolher sobrenomesPessoas
  let nomFornecedor := nome1 ++ " " ++ nome2 ++ " Ltda"
  let f ← Intn 2
  if f = 1 then do
    let d ← Intn 30
    pure { CodFornecedor := codFornecedor, NomFornecedor := nomFornecedor,
           FlgFatura := "S", NumDiasFatura := ((d + 1 : Nat) : ℚ) }
  else
    pure { CodFornecedor := codFornecedor, NomFornecedor := nomFornecedor,
           FlgFatura := "N", NumDiasFatura := 0 }

/-- The body of the loop of `gerarProdutos` for index `i`: the document built for MongoDB. -/
def gerarProduto (cfg : Config) (i : Nat) : Gen ProdutoDoc := do
  let codProduto : Int := (i : Int) + 1
  let marca ← escolher marcasProdutos
  let nome ← escolher nomesProdutos
  let sobrenome ← escolher sobrenomesProdutos
  let nomeProduto := marca ++ " " ++ nome ++ " " ++ sobrenome
  let f ← Intn cfg.numFornecedores
  let codFornecedor : Int := (f : Int) + 1
  let codSetor ← escolher setores
  let codUnidade ← escolher unidades
  let u ← Float64
  let vlrCusto : ℚ := duasCasas (fadd 5 (fmul u 95))
  let v ← Float64
  let margem : ℚ := fadd (12 / 10) (fmul v (8 / 10))
  let vlrVenda : ℚ := duasCasas (fmul vlrCusto margem)
  let vlrMedio : ℚ := duasCasas (fdiv (fadd vlrCusto vlrVenda) 2)
  let fr ← Intn 10
  let flgFracionado := if fr < 3 then "S" else "N"
  let pr ← Intn 10
  if pr < 2 then do
    let promo ← Intn 20
    let promoVal : ℚ := duasCasas (fmul vlrVenda (7 / 10))
    pure { CodProduto := codProduto, NomProduto := nomeProduto, CodFornecedor := codFornecedor,
           CodSetor := codSetor, CodUnidade := codUnidade, FlgFracionado := flgFracionado,
           VlrVenda := vlrVenda, VlrCusto := vlrCusto, VlrMedio := vlrMedio,
           CodPromocao := some ((promo : Int) + 1), VlrPromocao := some promoVal }
  else
    pure { CodProduto := codProduto, NomProduto := nomeProduto, CodFornecedor := codFornecedor,
           CodSetor := codSetor, CodUnidade := codUnidade, FlgFracionado := flgFracionado,
           VlrVenda := vlrVenda, VlrCusto := vlrCusto, VlrMedio := vlrMedio,
           CodPromocao := none, VlrPromocao := none }

/-- The values `gerarProdutos` binds in the Cassandra insert: the locals `promocaoCod`
and `promocaoVlr` stay at their zero value for a product without promotion. -/
def linhaProduto (d : ProdutoDoc) : Produto where
  CodProduto := d.CodProduto
  NomProduto := d.NomProduto
  CodFornecedor := d.CodFornecedor
  CodSetor := d.CodSetor
  CodUnidade := d.CodUnidade
  FlgFracionado := d.FlgFracionado
  VlrVenda := d.VlrVenda
  VlrCusto := d.VlrCusto
  VlrMedio := d.VlrMedio
  CodPromocao := d.CodPromocao.getD 0
  VlrPromocao := d.VlrPromocao.getD 0

/-- The body of the loop of `gerarLojas` for index `i` (no random draw). -/
def gerarLoja (i : Nat) : Loja :=
  let codLoja : Int := (i : Int) + 1
  let nomLoja := "Loja " ++ toString codLoja
  let codEndereco : Int := (i : Int) + 1
  let flgMatriz := if i = 0 then "S" else "N"
  { CodLoja := codLoja, NomLoja := nomLoja, CodEndereco := codEndereco, FlgMatriz := flgMatriz }

/-- The body of the loop of `gerarPDVs` for index `i`; `agora` is what `time.Now()` returns. -/
def gerarPDV (cfg : Config) (agora : Time) (i : Nat) : Gen PDV := do
  let codPDV : Int := (i : Int) + 1
  let nr ← Intn 9000
  let numRegistro : ℚ := ((nr + 1000 : Nat) : ℚ)
  let m ← Intn 12
  let d ← Intn 30
  let dataInicio := agora.AddDate (-1) (-(m : Int)) (-(d : Int))
  let dataFim := dataInicio.AddDate 5 0 0
  let ni ← Intn 1000
  let numNotaInicial : ℚ := ((ni + 1 : Nat) : ℚ)
  let nf ← Intn 9000
  let numNotaFinal : ℚ := numNotaInicial + ((nf + 1000 : Nat) : ℚ)
  let l ← Intn cfg.numLojas
  let codLoja : Int := (l : Int) + 1
  let np ← Intn 20
  let numPDVLoja : ℚ := ((np + 1 : Nat) : ℚ)
  pure { CodPDV := codPDV, NumRegistro := numRegistro, DatInicioVigencia := dataInicio,
         DatFimVigencia := dataFim, NumNotaInicial := numNotaInicial,
         NumNotaFinal := numNotaFinal, CodLoja := codLoja, NumPDVLoja := numPDVLoja }

/-- The body of the loop of `gerarCaixas` for index `i`. -/
def gerarCaixa (cfg : Config) (i : Nat) : Gen Caixa := do
  let codCaixa : Int := (i : Int) + 1
  let nome ← escolher nomesPessoas
  let sobrenome ← escolher sobrenomesPessoas
  let nomCaixa := nome ++ " " ++ sobrenome
  let l ← Intn cfg.numLojas
  let codLoja : Int := (l : Int) + 1
  let fe ← Intn 10
  let flgFerias := if fe < 1 then "S" else "N"
  pure { CodCaixa := codCaixa, NomCaixa := nomCaixa, CodLoja := codLoja, FlgFerias := flgFerias }

/-- The body of the loop of `gerarClientes` for index `i`. -/
def gerarCliente (cfg : Config) (i : Nat) : Gen Cliente := do
  let codCliente : Int := (i : Int) + 1
  let nome ← escolher nomesPessoas
  let sobrenome ← escolher sobrenomesPessoas
  let nomCliente := nome ++ " " ++ sobrenome
  let fi ← Intn 10
  let flgFidelizado := if fi < 4 then "S" else "N"
  let codEndereco : Int := (cfg.numLojas : Int) + (i : Int) + 1
  pure { CodCliente := codCliente, NomCliente := nomCliente, FlgFidelizado := flgFidelizado,
         CodEndereco := codEndereco }

/-- One pass of the inner loop `for j := 0; j < numItens; j++` of
`gerarNotasFiscaisEItens`: the line built from a random product of the catalog.  The
quantity of a product sold by fraction, the float64 sum of `n` and the float64 quotient
`k / 10`, is kept as the decimal `n + k / 10`, which reads as that float64. -/
def gerarItem (produtos : List Produto) (seqNota : Int) (j : Nat) : Gen ItemNotaFiscal := do
  let produtoIdx ← Intn produtos.length
  let produto ← indexar produtos produtoIdx
  let q ← Intn 10
  let qtdInteira : ℚ := ((q + 1 : Nat) : ℚ)
  let qtdProduto ← (if produto.FlgFracionado = "S" then do
      let k ← Intn 10
      pure (qtdInteira + (k : ℚ) / 10)
    else pure qtdInteira : Gen ℚ)
  let vlrVenda : ℚ := if produto.VlrPromocao > 0 then produto.VlrPromocao else produto.VlrVenda
  pure { SeqItemNota := (j : Int) + 1, SeqNota := seqNota, CodProduto := produto.CodProduto,
         QtdProduto := qtdProduto, VlrVenda := vlrVenda, VlrCusto := produto.VlrCusto,
         VlrMedio := produto.VlrMedio, VlrPromocao := produto.VlrPromocao }

/-- The inner loop of `gerarNotasFiscaisEItens` with `restantes` passes left, the next
being pass `j`: every line is appended to `itensNota` and the float64 product
`vlrVenda * qtdProduto` is added to the running `notaFiscal.VlrNota`. -/
def gerarItens (produtos : List Produto) (seqNota : Int) :
    (restantes j : Nat) → List ItemNotaFiscal → ℚ → Gen (List ItemNotaFiscal × ℚ)
  | 0, _, itensNota, vlrNota => pure (itensNota, vlrNota)
  | n + 1, j, itensNota, vlrNota => do
    let item ← gerarItem produtos seqNota j
    gerarItens produtos seqNota n (j + 1) (itensNota ++ [item])
      (fadd vlrNota (fmul item.VlrVenda item.QtdProduto))

/-- The body of the outer loop of `gerarNotasFiscaisEItens` for index `i`, up to the
payment switch: the invoice and its lines.  `agora` is what `time.Now()` returns. -/
def gerarNota (cfg : Config) (produtos : List Produto) (agora : Time) (i : Nat) :
    Gen (NotaFiscal × List ItemNotaFiscal) := do
  let seqNota : Int := (i : Int) + 1
  let p ← Intn cfg.numPDVs
  let codPDV : Int := (p : Int) + 1
  let c ← Intn cfg.numCaixas
  let codCaixa : Int := (c : Int) + 1
  let cl ← Intn cfg.numClientes
  let codCliente : Int := (cl : Int) + 1
  let nn ← Intn 900000
  let numNota : ℚ := ((100000 + nn : Nat) : ℚ)
  let m ← Intn 12
  let d ← Intn 30
  let datNota := agora.AddDate 0 (-(m : Int)) (-(d : Int))
  let e ← Intn 10
  let flgEntrega := if e < 2 then "S" else "N"
  let ni ← Intn 15
  let numItens := ni + 1
  let (itensNota, soma) ← gerarItens produtos seqNota numItens 0 [] 0
  let vlrNota : ℚ := duasCasas soma
  let formaPgto ← Intn 3
  let notaFiscal : NotaFiscal :=
    { SeqNota := seqNota, CodPDV := codPDV, CodCaixa := codCaixa, CodCliente := codCliente,
      NumNota := numNota, DatNota := datNota, FlgEntrega := flgEntrega, VlrNota := vlrNota,
      VlrDinheiro := 0, VlrTick := 0, VlrCartao := 0 }
  match formaPgto with
  | 0 => pure ({ notaFiscal with VlrDinheiro := notaFiscal.VlrNota }, itensNota)
  | 1 => pure ({ notaFiscal with VlrTick := notaFiscal.VlrNota }, itensNota)
  | 2 => pure ({ notaFiscal with VlrCartao := notaFiscal.VlrNota }, itensNota)
  | _ => pure (notaFiscal, itensNota)

/-! ## The two sinks and the event trace -/

/-- The two data stores. -/
inductive Sink where
  | MongoDB
  | Cassandra
deriving Repr, DecidableEq

/-- What a write hands to a sink. -/
inductive Registro where
  | cidade (c : Cidade)
  | endereco (e : Endereco)
  | fornecedor (f : Fornecedor)
  | produtoDoc (d : ProdutoDoc)
  | produto (p : Produto)
  | loja (l : Loja)
  | pdv (p : PDV)
  | caixa (c : Caixa)
  | cliente (c : Cliente)
  | notaFiscal (n : NotaFiscal)
  | itemNotaFiscal (it : ItemNotaFiscal)
deriving Repr, DecidableEq

/-- What a stage does that can be observed from outside. -/
inductive Evento where
  | insercao (s : Sink) (r : Registro)
  | log (msg : String)
  | print (msg : String)
deriving Repr, DecidableEq

/-- The writes that return an error. -/
def Falhas : Type := Sink → Registro → Bool

/-- The pair of writes every loop body ends with: `collection.InsertOne`, a log line if
it failed, then `cassandraSession.Query(...).Exec()`, a log line if it failed. -/
def gravar (falha : Falhas) (nome : String) (paraMongo paraCassandra : Registro) :
    List Evento :=
  [Evento.insercao Sink.MongoDB paraMongo]
    ++ (if falha Sink.MongoDB paraMongo
        then [Evento.log ("Erro ao inserir " ++ nome ++ " no MongoDB")] else [])
    ++ [Evento.insercao Sink.Cassandra paraCassandra]
    ++ (if falha Sink.Cassandra paraCassandra
        then [Evento.log ("Erro ao inserir " ++ nome ++ " no Cassandra")] else [])

/-- The writes of one pass of the outer loop of `gerarNotasFiscaisEItens`: the invoice
goes to MongoDB; if that fails the pass ends (`continue`); otherwise the invoice goes to
Cassandra, every line goes to both sinks, and a milestone is printed every 1000 passes. -/
def gravarNota (falha : Falhas) (i : Nat) (notaFiscal : NotaFiscal)
    (itensNota : List ItemNotaFiscal) : List Evento :=
  [Evento.insercao Sink.MongoDB (Registro.notaFiscal notaFiscal)]
    ++ (if falha Sink.MongoDB (Registro.notaFiscal notaFiscal)
        then [Evento.log "Erro ao inserir nota fiscal no MongoDB"]
        else
          [Evento.insercao Sink.Cassandra (Registro.notaFiscal notaFiscal)]
            ++ (if falha Sink.Cassandra (Registro.notaFiscal notaFiscal)
                then [Evento.log "Erro ao inserir nota fiscal no Cassandra"] else [])
            ++ (itensNota.map (fun item =>
                  gravar falha "item de nota fiscal"
                    (Registro.itemNotaFiscal item) (Registro.itemNotaFiscal item))).flatten
            ++ (if i % 1000 = 0 ∧ 0 < i
                then [Evento.print ("Geradas " ++ toString i ++ " notas fiscais...")] else []))

/-- A loop over a list of indices: the traces of the passes in order; a pass that
panics ends the program. -/
def laco (corpo : Nat → Option (List Evento)) : List Nat → Option (List Evento)
  | [] => some []
  | i :: resto =>
    match corpo i with
    | none => none
    | some t =>
      match laco corpo resto with
      | none => none
      | some ts => some (t ++ ts)

/-- The worker pool of a stage: `numGoroutines` workers, worker `g` looping over
`indices N W g`, joined by `wg.Wait()`. -/
def estagio (N W : Nat) (corpo : Nat → Option (List Evento)) : Option (List Evento) :=
  laco (fun g => laco corpo (indices N W g)) (List.range W)

/-- A loop body: generate the record of index `i` from its random stream, then write it. -/
def passo {α : Type} (gerar : Nat → Gen α) (escrever : Nat → α → List Evento)
    (aleat : Nat → Rand) (i : Nat) : Option (List Evento) :=
  match gerar i (aleat i) with
  | none => none
  | some (x, _) => some (escrever i x)

/-- The function `gerarCidades`. -/
def gerarCidades (cfg : Config) (falha : Falhas) (aleat : Nat → Rand) : Option (List Evento) :=
  (estagio cfg.numCidades cfg.numGoroutines
    (passo gerarCidade
      (fun _ c => gravar falha "cidade" (Registro.cidade c) (Registro.cidade c)) aleat)).map
    (fun t => t ++ [Evento.print ("Geradas " ++ toString cfg.numCidades ++ " cidades")])

/-- The function `gerarEnderecos`. -/
def gerarEnderecos (cfg : Config) (falha : Falhas) (aleat : Nat → Rand) :
    Option (List Evento) :=
  let totalEnderecos := cfg.numClientes + cfg.numLojas
  (estagio totalEnderecos cfg.numGoroutines
    (passo (gerarEndereco cfg)
      (fun _ e => gravar falha "endereço" (Registro.endereco e) (Registro.endereco e)) aleat)).map
    (fun t => t ++ [Evento.print ("Gerados " ++ toString totalEnderecos ++ " endereços")])

/-- The function `gerarFornecedores`. -/
def gerarFornecedores (cfg : Config) (falha : Falhas) (aleat : Nat → Rand) :
    Option (List Evento) :=
  (estagio cfg.numFornecedores cfg.numGoroutines
    (passo gerarFornecedor
      (fun _ f => gravar falha "fornecedor" (Registro.fornecedor f) (Registro.fornecedor f))
      aleat)).map
    (fun t => t ++ [Evento.print ("Gerados " ++ toString cfg.numFornecedores ++ " fornecedores")])

/-- The function `gerarProdutos`. -/
def gerarProdutos (cfg : Config) (falha : Falhas) (aleat : Nat → Rand) :
    Option (List Evento) :=
  (estagio cfg.numProdutos cfg.numGoroutines
    (passo (gerarProduto cfg)
      (fun _ d => gravar falha "produto" (Registro.produtoDoc d)
        (Registro.produto (linhaProduto d))) aleat)).map
    (fun t => t ++ [Evento.print ("Gerados " ++ toString cfg.numProdutos ++ " produtos")])

/-- The function `gerarLojas`: one sequential loop, no worker pool. -/
def gerarLojas (cfg : Config) (falha : Falhas) : Option (List Evento) :=
  (laco (fun i => some (gravar falha "loja" (Registro.loja (gerarLoja i))
      (Registro.loja (gerarLoja i)))) (List.range cfg.numLojas)).map
    (fun t => t ++ [Evento.print ("Geradas " ++ toString cfg.numLojas ++ " lojas")])

/-- The function `gerarPDVs`; `agora i` is the clock reading of pass `i`. -/
def gerarPDVs (cfg : Config) (falha : Falhas) (aleat : Nat → Rand) (agora : Nat → Time) :
    Option (List Evento) :=
  (estagio cfg.numPDVs cfg.numGoroutines
    (passo (fun i => gerarPDV cfg (agora i) i)
      (fun _ p => gravar falha "PDV" (Registro.pdv p) (Registro.pdv p)) aleat)).map
    (fun t => t ++ [Evento.print ("Gerados " ++ toString cfg.numPDVs ++ " PDVs")])

/-- The function `gerarCaixas`. -/
def gerarCaixas (cfg : Config) (falha : Falhas) (aleat : Nat → Rand) : Option (List Evento) :=
  (estagio cfg.numCaixas cfg.numGoroutines
    (passo (gerarCaixa cfg)
      (fun _ c => gravar falha "caixa" (Registro.caixa c) (Registro.caixa c)) aleat)).map
    (fun t => t ++ [Evento.print ("Gerados " ++ toString cfg.numCaixas ++ " caixas")])

/-- The function `gerarClientes`. -/
def gerarClientes (cfg : Config) (falha : Falhas) (aleat : Nat → Rand) :
    Option (List Evento) :=
  (estagio cfg.numClientes cfg.numGoroutines
    (passo (gerarCliente cfg)
      (fun _ c => gravar falha "cliente" (Registro.cliente c) (Registro.cliente c)) aleat)).map
    (fun t => t ++ [Evento.print ("Gerados " ++ toString cfg.numClientes ++ " clientes")])

/-- The outcome of the read-back `Find` followed by `cursor.All` on the collection
`produto`. -/
inductive Leitura where
  | erroBusca
  | erroDecodificacao
  | ok (produtos : List Produto)
deriving Repr, DecidableEq

/-- The function `gerarNotasFiscaisEItens`; `agora i` is the clock reading of pass `i`. -/
def gerarNotasFiscaisEItens (cfg : Config) (falha : Falhas) (leitura : Leitura)
    (aleat : Nat → Rand) (agora : Nat → Time) : Option (List Evento) :=
  match leitura with
  | Leitura.erroBusca => some [Evento.log "Erro ao buscar produtos"]
  | Leitura.erroDecodificacao => some [Evento.log "Erro ao decodificar produtos"]
  | Leitura.ok produtos =>
    (estagio cfg.numNotasFiscais cfg.numGoroutines
      (passo (fun i => gerarNota cfg produtos (agora i) i)
        (fun i x => gravarNota falha i x.1 x.2) aleat)).map
      (fun t => t ++ [Evento.print
        ("Geradas " ++ toString cfg.numNotasFiscais ++ " notas fiscais com itens")])

/-! ## The orchestrator (`main`) -/

/-- What the run gets from outside: whether the two connections succeed, which writes
fail, what the read-back of the product catalog returns, and for every stage (numbered
in the order of the calls of `main`) the random stream and the clock reading of every
index. -/
structure Ambiente where
  mongoConecta : Bool
  cassandraConecta : Bool
  falha : Falhas
  leitura : Leitura
  aleat : Nat → Nat → Rand
  agora : Nat → Nat → Time

/-- The last line `main` prints. -/
def mensagemSucesso : Evento := Evento.print "Geração de dados concluída com sucesso!"

/-- The function `main`: the two connections (`log.Fatalf` ends the run when one fails),
then the nine stage functions called one after the other, each returning before the
next is called, then the final message.  A panic in a stage ends the program. -/
def main (cfg : Config) (amb : Ambiente) : Option (List Evento) :=
  if amb.mongoConecta = false then
    some [Evento.log "Erro ao conectar ao MongoDB"]
  else if amb.cassandraConecta = false then
    some [Evento.print "Conectado ao MongoDB com sucesso!",
          Evento.log "Erro ao conectar ao Cassandra"]
  else
    match gerarCidades cfg amb.falha (amb.aleat 0) with
    | none => none
    | some cidades =>
    match gerarEnderecos cfg amb.falha (amb.aleat 1) with
    | none => none
    | some enderecos =>
    match gerarFornecedores cfg amb.falha (amb.aleat 2) with
    | none => none
    | some fornecedores =>
    match gerarProdutos cfg amb.falha (amb.aleat 3) with
    | none => none
    | some produtos =>
    match gerarLojas cfg amb.falha with
    | none => none
    | some lojas =>
    match gerarPDVs cfg amb.falha (amb.aleat 5) (amb.agora 5) with
    | none => none
    | some pdvs =>
    match gerarCaixas cfg amb.falha (amb.aleat 6) with
    | none => none
    | some caixas =>
    match gerarClientes cfg amb.falha (amb.aleat 7) with
    | none => none
    | some clientes =>
    match gerarNotasFiscaisEItens cfg amb.falha amb.leitura (amb.aleat 8) (amb.agora 8) with
    | none => none
    | some notas =>
      some ([Evento.print "Conectado ao MongoDB com sucesso!",
             Evento.print "Conectado ao Cassandra com sucesso!",
             Evento.print "Iniciando geração de dados...",
             Evento.print "Gerando cidades..."] ++ cidades
        ++ [Evento.print "Gerando endereços..."] ++ enderecos
        ++ [Evento.print "Gerando fornecedores..."] ++ fornecedores
        ++ [Evento.print "Gerando produtos..."] ++ produtos
        ++ [Evento.print "Gerando lojas..."] ++ lojas
        ++ [Evento.print "Gerando PDVs..."] ++ pdvs
        ++ [Evento.print "Gerando caixas..."] ++ caixas
        ++ [Evento.print "Gerando clientes..."] ++ clientes
        ++ [Evento.print "Gerando notas fiscais e itens..."] ++ notas
        ++ [mensagemSucesso])

/-! ## Reading the trace -/

/-- The content of sink `s` after the events `t`, starting from `inicial`: a write that
does not fail adds its record, and nothing else changes the content. -/
def conteudo (falha : Falhas) (s : Sink) : List Registro → List Evento → List Registro
  | inicial, [] => inicial
  | inicial, Evento.insercao s2 r :: t =>
    if s2 = s ∧ falha s2 r = false then conteudo falha s (inicial ++ [r]) t
    else conteudo falha s inicial t
  | inicial, Evento.log _ :: t => conteudo falha s inicial t
  | inicial, Evento.print _ :: t => conteudo falha s inicial t

/-- The record a pass of a stage loop hands to MongoDB, if the event is such a write:
every MongoDB insert but those of invoice lines (a pass of the invoice loop writes one
invoice and then its lines). -/
def registroDoPasso : Evento → Option Registro
  | Evento.insercao Sink.MongoDB (Registro.itemNotaFiscal _) => none
  | Evento.insercao Sink.MongoDB r => some r
  | _ => none

/-- The records of the passes of the stage loops submitted to the document store, in the
order of the trace. -/
def principaisMongo (t : List Evento) : List Registro := t.filterMap registroDoPasso

/-- The stage that writes a record, numbered in the order of the calls of `main`:
cities 0, addresses 1, suppliers 2, products 3, stores 4, terminals 5, registers 6,
customers 7, invoices and their lines 8. -/
def Registro.estagio : Registro → Nat
  | Registro.cidade _ => 0
  | Registro.endereco _ => 1
  | Registro.fornecedor _ => 2
  | Registro.produtoDoc _ => 3
  | Registro.produto _ => 3
  | Registro.loja _ => 4
  | Registro.pdv _ => 5
  | Registro.caixa _ => 6
  | Registro.cliente _ => 7
  | Registro.notaFiscal _ => 8
  | Registro.itemNotaFiscal _ => 8

/-- The stage of the record of a write event. -/
def estagioDaEscrita : Evento → Option Nat
  | Evento.insercao _ r => some r.estagio
  | _ => none

/-- The stages of the writes of a trace, in the order of the trace. -/
def estagiosDasEscritas (t : List Evento) : List Nat := t.filterMap estagioDaEscrita

/-- The decoding of a document of the collection `produto` into the struct `Produto`
(what `cursor.All` does with every document read back): a key absent from the document
leaves the zero value in the field. -/
def decodificar (d : ProdutoDoc) : Produto where
  CodProduto := d.CodProduto
  NomProduto := d.NomProduto
  CodFornecedor := d.CodFornecedor
  CodSetor := d.CodSetor
  CodUnidade := d.CodUnidade
  FlgFracionado := d.FlgFracionado
  VlrVenda := d.VlrVenda
  VlrCusto := d.VlrCusto
  VlrMedio := d.VlrMedio
  CodPromocao := d.CodPromocao.getD 0
  VlrPromocao := d.VlrPromocao.getD 0

/-- The catalog the invoice stage reads back when the collection `produto` holds the
documents `docs`: every product document decoded, in the order of the collection. -/
def catalogo (docs : List Registro) : List Produto :=
  docs.filterMap (fun r =>
    match r with
    | Registro.produtoDoc d => some (decodificar d)
    | _ => none)

/-- A catalog made of products the product stage writes, read back: every entry is the
decoding of a document `gerarProduto` yields for some counts, index and draws. -/
def catalogoGerado (produtos : List Produto) : Prop :=
  ∀ p, p ∈ produtos →
    ∃ (cfg : Config) (i : Nat) (r : Rand) (d : ProdutoDoc) (r1 : Rand),
      gerarProduto cfg i r = some (d, r1) ∧ p = decodificar d

/-- What it means for the loop of a stage not to be aborted by a failing write.  The stage
has `N` items and `W` workers, `gerar i` is the record generated for index `i`, `R` turns
it into what is written, and `rodar falha` is the trace of the stage under the failing
writes `falha`.  Under every `falha` the stage runs to its end; its trace is the traces
of the `W` workers followed by events that submit nothing, worker `g` submits to MongoDB
exactly the records generated for the indices of its range, in order; `N` records are
submitted in all; and under any other failing writes the stage submits the same
records. -/
def naoAborta {α : Type} (N W : Nat) (gerar : Nat → Option α) (R : α → Registro)
    (rodar : Falhas → Option (List Evento)) : Prop :=
  ∀ falha, ∃ t, rodar falha = some t ∧
    (∃ (ts : List (List Evento)) (fim : List Evento),
      ts.length = W ∧ t = ts.flatten ++ fim ∧ principaisMongo fim = [] ∧
      ∀ g, g < W →
        List.Forall₂ (fun i reg => ∃ x, gerar i = some x ∧ reg = R x)
          (indices N W g) (principaisMongo (ts.getD g []))) ∧
    (principaisMongo t).length = N ∧
    ∀ falha2, ∃ t2, rodar falha2 = some t2 ∧ principaisMongo t2 = principaisMongo t

/-! ## Example data -/

/-- A catalog entry on promotion, sold by fraction. -/
def produtoExemplo : Produto where
  CodProduto := 1
  NomProduto := "Nova Era Arroz Tipo 1"
  CodFornecedor := 1
  CodSetor := 1
  CodUnidade := 1
  FlgFracionado := "S"
  VlrVenda := 10
  VlrCusto := 8
  VlrMedio := 9
  CodPromocao := 3
  VlrPromocao := 7

/-- The random source whose first draws are `xs` and whose later draws are 0. -/
def sequencia (xs : List Nat) : Rand := ⟨fun n => xs.getD n 0, 0⟩

/-- A clock reading. -/
def instante : Time := ⟨0, []⟩

/-- The line generated from `produtoExemplo` when every draw is 0. -/
def itemExemplo : ItemNotaFiscal where
  SeqItemNota := 1
  SeqNota := 1
  CodProduto := 1
  QtdProduto := 1
  VlrVenda := 7
  VlrCusto := 8
  VlrMedio := 9
  VlrPromocao := 7

/-- The invoice generated from `produtoExemplo` when every draw is 0. -/
def notaExemplo : NotaFiscal where
  SeqNota := 1
  CodPDV := 1
  CodCaixa := 1
  CodCliente := 1
  NumNota := 100000
  DatNota := ⟨0, [(0, 0, 0)]⟩
  FlgEntrega := "S"
  VlrNota := 7
  VlrDinheiro := 7
  VlrTick := 0
  VlrCartao := 0

/-- A small configuration: one store, one customer, ten cities. -/
def configMinima : Config where
  numProdutos := 10
  numLojas := 1
  numPDVs := 10
  numCaixas := 10
  numClientes := 1
  numFornecedores := 10
  numCidades := 10
  numNotasFiscais := 10
  numItensNotaFiscal := 10
  numGoroutines := 10

/-- The address generated for index 0 when every draw is 0. -/
def enderecoExemplo : Endereco where
  CodEndereco := 1
  NomLogradouro := "Flores"
  NumLogradouro := "1"
  CodCEP := 10000000
  CodIBGE := 1000000
  FlgExterior := "N"
  TipLogradouro := "R"

/-- The address generated for index 1 when every draw is 0. -/
def enderecoExemplo2 : Endereco where
  CodEndereco := 2
  NomLogradouro := "Flores"
  NumLogradouro := "1"
  CodCEP := 10000000
  CodIBGE := 1000000
  FlgExterior := "N"
  TipLogradouro := "R"

/-- The customer generated for index 0 under `configMinima` when every draw is 0. -/
def clienteExemplo : Cliente where
  CodCliente := 1
  NomCliente := "João Silva"
  FlgFidelizado := "S"
  CodEndereco := 2

/-- The terminal generated for index 0 when every draw is 0. -/
def pdvExemplo : PDV where
  CodPDV := 1
  NumRegistro := 1000
  DatInicioVigencia := ⟨0, [(-1, 0, 0)]⟩
  DatFimVigencia := ⟨0, [(-1, 0, 0), (5, 0, 0)]⟩
  NumNotaInicial := 1
  NumNotaFinal := 1001
  CodLoja := 1
  NumPDVLoja := 1

/-- The register generated for index 0 when every draw is 0. -/
def caixaExemplo : Caixa where
  CodCaixa := 1
  NomCaixa := "João Silva"
  CodLoja := 1
  FlgFerias := "S"

/-- The product document generated for index 0 when every draw is 0. -/
def produtoDocExemplo : ProdutoDoc where
  CodProduto := 1
  NomProduto := "Nova Era Arroz Tipo 1"
  CodFornecedor := 1
  CodSetor := 1
  CodUnidade := 1
  FlgFracionado := "S"
  VlrVenda := 6
  VlrCusto := 5
  VlrMedio := 11 / 2
  CodPromocao := some 1
  VlrPromocao := some (419 / 100)

/-- The draws of a product of cost 10.00 and margin 1.5: the seventh draw is `27/512` of
`2^63`, which makes the raw cost fall in `[10.00, 10.01)`, and the eighth is `3/8` of
`2^63`. -/
def sorteioCenario : Rand :=
  sequencia [0, 0, 0, 0, 0, 0, 486388759756013568, 3458764513820540928, 5, 5]

/-- The product document generated for index 0 from `sorteioCenario`. -/
def produtoDocCenario : ProdutoDoc where
  CodProduto := 1
  NomProduto := "Nova Era Arroz Tipo 1"
  CodFornecedor := 1
  CodSetor := 1
  CodUnidade := 1
  FlgFracionado := "N"
  VlrVenda := 15
  VlrCusto := 10
  VlrMedio := 25 / 2
  CodPromocao := none
  VlrPromocao := none

/-- The draws of an invoice of one line with quantity `5 + 5/10`, paid by voucher. -/
def sorteioFracionado : Rand := sequencia [0, 0, 0, 0, 0, 0, 0, 0, 0, 4, 5, 1]

/-- The line generated from `produtoExemplo` with the draws `sorteioFracionado`. -/
def itemFracionado : ItemNotaFiscal where
  SeqItemNota := 1
  SeqNota := 1
  CodProduto := 1
  QtdProduto := 5 + 5 / 10
  VlrVenda := 7
  VlrCusto := 8
  VlrMedio := 9
  VlrPromocao := 7

/-- The invoice generated from `produtoExemplo` with the draws `sorteioFracionado`. -/
def notaFracionada : NotaFiscal where
  SeqNota := 1
  CodPDV := 1
  CodCaixa := 1
  CodCliente := 1
  NumNota := 100000
  DatNota := ⟨0, [(0, 0, 0)]⟩
  FlgEntrega := "S"
  VlrNota := 77 / 2
  VlrDinheiro := 0
  VlrTick := 77 / 2
  VlrCartao := 0

/-- A configuration with one record of every entity and one worker. -/
def configUnitaria : Config where
  numProdutos := 1
  numLojas := 1
  numPDVs := 1
  numCaixas := 1
  numClientes := 1
  numFornecedores := 1
  numCidades := 1
  numNotasFiscais := 1
  numItensNotaFiscal := 1
  numGoroutines := 1

/-- The sinks when every MongoDB write fails and every Cassandra write succeeds. -/
def falhaMongo : Falhas := fun s _ => decide (s = Sink.MongoDB)

/-- The city generated for index 0 when every draw is 0. -/
def cidadeExemplo : Cidade where
  CodIBGE := 1000000
  NomCidade := "Cidade 1"
  NomEstado := "AC"
  NomRegiao := "Norte"
  NomPais := "Brasil"

/-- The customer generated for index 0 with the counts of the source when every draw
is 0. -/
def clienteGrande : Cliente where
  CodCliente := 1
  NomCliente := "João Silva"
  FlgFidelizado := "S"
  CodEndereco := 51

/-- The trace of the city stage under `configUnitaria` when every draw is 0 and every
MongoDB write fails. -/
def tracoCidades : List Evento :=
  [Evento.insercao Sink.MongoDB (Registro.cidade cidadeExemplo),
   Evento.log "Erro ao inserir cidade no MongoDB",
   Evento.insercao Sink.Cassandra (Registro.cidade cidadeExemplo),
   Evento.print "Geradas 1 cidades"]

/-- The sinks when no write fails. -/
def semFalhas : Falhas := fun _ _ => false

/-- A run with the counts of the source in which both connections succeed, no write
fails, every draw is 0, and the read-back of the product catalog (the `Find`) fails. -/
def ambLeituraFalha : Ambiente where
  mongoConecta := true
  cassandraConecta := true
  falha := semFalhas
  leitura := Leitura.erroBusca
  aleat := fun _ _ => sequencia []
  agora := fun _ _ => instante

/-- A later clock reading. -/
def instanteDepois : Time := ⟨1000000000000000000, []⟩

/-- The terminal generated for index 0 at the clock reading `instanteDepois` when every
draw is 0. -/
def pdvDepois : PDV where
  CodPDV := 1
  NumRegistro := 1000
  DatInicioVigencia := ⟨1000000000000000000, [(-1, 0, 0)]⟩
  DatFimVigencia := ⟨1000000000000000000, [(-1, 0, 0), (5, 0, 0)]⟩
  NumNotaInicial := 1
  NumNotaFinal := 1001
  CodLoja := 1
  NumPDVLoja := 1

/-- The draws of a product of cost 5.02 and margin 1.5: the seventh draw is `2^-12` of
`2^63` and the eighth is `3/8` of `2^63`. -/
def sorteioCentavo : Rand :=
  sequencia [0, 0, 0, 0, 0, 0, 2251799813685248, 3458764513820540928, 5, 5]

/-- The product document generated for index 0 from `sorteioCentavo`: the sale price is
7.52, a cent below `5.02 * 1.5 = 7.53`. -/
def produtoDocCentavo : ProdutoDoc where
  CodProduto := 1
  NomProduto := "Nova Era Arroz Tipo 1"
  CodFornecedor := 1
  CodSetor := 1
  CodUnidade := 1
  FlgFracionado := "N"
  VlrVenda := 752 / 100
  VlrCusto := 502 / 100
  VlrMedio := 627 / 100
  CodPromocao := none
  VlrPromocao := none

/-- The draws of the product `produtoExemplo`: cost 8.00 (the seventh draw is `259/8192`
of `2^63`), margin 1.25 (the eighth is `1/16` of `2^63`), sold by fraction, on promotion
with code 3. -/
def sorteioProduto : Rand :=
  sequencia [0, 0, 0, 0, 0, 0, 291608075872239616, 576460752303423488, 0, 0, 2]

/-- The product document generated for index 0 from `sorteioProduto`; read back it is
`produtoExemplo`. -/
def produtoDocGerado : ProdutoDoc where
  CodProduto := 1
  NomProduto := "Nova Era Arroz Tipo 1"
  CodFornecedor := 1
  CodSetor := 1
  CodUnidade := 1
  FlgFracionado := "S"
  VlrVenda := 10
  VlrCusto := 8
  VlrMedio := 9
  CodPromocao := some 3
  VlrPromocao := some 7

/-- The draws of an invoice of one line with quantity `1 + 4/10`, paid in cash. -/
def sorteioQuilo : Rand := sequencia [0, 0, 0, 0, 0, 0, 0, 0, 0, 0, 4]

/-- The line generated from `produtoExemplo` with the draws `sorteioQuilo`. -/
def itemQuilo : ItemNotaFiscal where
  SeqItemNota := 1
  SeqNota := 1
  CodProduto := 1
  QtdProduto := 1 + 4 / 10
  VlrVenda := 7
  VlrCusto := 8
  VlrMedio := 9
  VlrPromocao := 7

/-- The invoice generated from `produtoExemplo` with the draws `sorteioQuilo`: its total
is 9.79, a cent below `7 * 1.4 = 9.80`. -/
def notaQuilo : NotaFiscal where
  SeqNota := 1
  CodPDV := 1
  CodCaixa := 1
  CodCliente := 1
  NumNota := 100000
  DatNota := ⟨0, [(0, 0, 0)]⟩
  FlgEntrega := "S"
  VlrNota := 979 / 100
  VlrDinheiro := 979 / 100
  VlrTick := 0
  VlrCartao := 0

/-- A small configuration: three cities, three invoices, two workers. -/
def configPequena : Config where
  numProdutos := 3
  numLojas := 2
  numPDVs := 2
  numCaixas := 2
  numClientes := 3
  numFornecedores := 2
  numCidades := 3
  numNotasFiscais := 3
  numItensNotaFiscal := 3
  numGoroutines := 2

/-- The city generated for index 1 when every draw is 0. -/
def cidadeExemplo2 : Cidade where
  CodIBGE := 1000001
  NomCidade := "Cidade 2"
  NomEstado := "AC"
  NomRegiao := "Norte"
  NomPais := "Brasil"

/-- The city generated for index 2 when every draw is 0. -/
def cidadeExemplo3 : Cidade where
  CodIBGE := 1000002
  NomCidade := "Cidade 3"
  NomEstado := "AC"
  NomRegiao := "Norte"
  NomPais := "Brasil"

/-- The trace of the city stage under `configPequena` when every draw is 0 and every
MongoDB write fails: worker 0 has index 0, worker 1 has indices 1 and 2. -/
def tracoPequeno : List Evento :=
  [Evento.insercao Sink.MongoDB (Registro.cidade cidadeExemplo),
   Evento.log "Erro ao inserir cidade no MongoDB",
   Evento.insercao Sink.Cassandra (Registro.cidade cidadeExemplo),
   Evento.insercao Sink.MongoDB (Registro.cidade cidadeExemplo2),
   Evento.log "Erro ao inserir cidade no MongoDB",
   Evento.insercao Sink.Cassandra (Registro.cidade cidadeExemplo2),
   Evento.insercao Sink.MongoDB (Registro.cidade cidadeExemplo3),
   Evento.log "Erro ao inserir cidade no MongoDB",
   Evento.insercao Sink.Cassandra (Registro.cidade cidadeExemplo3),
   Evento.print "Geradas 3 cidades"]

/-! # Theorems -/

/-! ## float64 rounding -/

theorem int_le_of_cast_lt (a b : Int) (h : (a : ℚ) < (b : ℚ) + 1) : a ≤ b := by
  have h1 : (a : ℚ) < ((b + 1 : Int) : ℚ) := by push_cast; exact h
  have h2 := Int.cast_lt.mp h1
  omega

theorem arredondarInteiro_eq (y : ℚ) (m : Int) (hlo : (m : ℚ) - 1 / 2 ≤ y)
    (hhi : y ≤ (m : ℚ) + 1 / 2)
    (hpar : m % 2 = 0 ∨ ((m : ℚ) - 1 / 2 < y ∧ y < (m : ℚ) + 1 / 2)) :
    arredondarInteiro y = m := by
  unfold arredondarInteiro
  have hf1 : (⌊y⌋ : ℚ) ≤ y := Int.floor_le y
  have hf2 : y < (⌊y⌋ : ℚ) + 1 := Int.lt_floor_add_one y
  have hm1 : m - 1 ≤ ⌊y⌋ := by
    apply int_le_of_cast_lt
    push_cast
    linarith
  have hm2 : ⌊y⌋ ≤ m := by
    apply int_le_of_cast_lt
    linarith
  have hcases : ⌊y⌋ = m ∨ ⌊y⌋ = m - 1 := by omega
  rcases hcases with hc | hc
  · have hc2 : (⌊y⌋ : ℚ) = m := by rw [hc]
    split_ifs with h1 h2 h3
    · exact hc
    · exfalso
      rw [hc2] at h2
      rcases hpar with hp | ⟨-, hp⟩
      · linarith
      · linarith
    · exact hc
    · exfalso
      rw [hc2] at h1 h2
      rcases hpar with hp | ⟨-, hp⟩
      · rw [hc] at h3
        exact h3 hp
      · linarith
  · have hc2 : (⌊y⌋ : ℚ) = (m : ℚ) - 1 := by rw [hc]; push_cast; ring
    split_ifs with h1 h2 h3
    · exfalso
      rw [hc2] at h1
      rcases hpar with hp | ⟨hp, -⟩
      · have : y = (m : ℚ) - 1 / 2 := by linarith
        linarith
      · linarith
    · omega
    · exfalso
      rw [hc2] at h1 h2
      rcases hpar with hp | ⟨hp, -⟩
      · rw [hc] at h3
        omega
      · linarith
    · omega

theorem arredondarInteiro_spec (y : ℚ) :
    (arredondarInteiro y : ℚ) - 1 / 2 ≤ y ∧ y ≤ (arredondarInteiro y : ℚ) + 1 / 2 ∧
    (arredondarInteiro y % 2 = 0 ∨
      ((arredondarInteiro y : ℚ) - 1 / 2 < y ∧ y < (arredondarInteiro y : ℚ) + 1 / 2)) := by
  unfold arredondarInteiro
  have hf1 : (⌊y⌋ : ℚ) ≤ y := Int.floor_le y
  have hf2 : y < (⌊y⌋ : ℚ) + 1 := Int.lt_floor_add_one y
  split_ifs with h1 h2 h3
  · exact ⟨by linarith, by linarith, Or.inr ⟨by linarith, by linarith⟩⟩
  · push_cast
    exact ⟨by linarith, by linarith, Or.inr ⟨by linarith, by linarith⟩⟩
  · exact ⟨by linarith, by linarith, Or.inl h3⟩
  · push_cast
    exact ⟨by linarith, by linarith, Or.inl (by omega)⟩

theorem arredondarInteiro_intCast (n : Int) : arredondarInteiro (n : ℚ) = n :=
  arredondarInteiro_eq _ n (by linarith) (by linarith) (Or.inr ⟨by linarith, by linarith⟩)

theorem arredondarInteiro_neg (y : ℚ) : arredondarInteiro (-y) = -arredondarInteiro y := by
  obtain ⟨h1, h2, h3⟩ := arredondarInteiro_spec y
  apply arredondarInteiro_eq
  · push_cast
    linarith
  · push_cast
    linarith
  · rcases h3 with h | ⟨ha, hb⟩
    · exact Or.inl (by omega)
    · refine Or.inr ⟨?_, ?_⟩
      · push_cast
        linarith
      · push_cast
        linarith

theorem arredondarInteiro_mono (a b : ℚ) (h : a ≤ b) :
    arredondarInteiro a ≤ arredondarInteiro b := by
  obtain ⟨a1, a2, a3⟩ := arredondarInteiro_spec a
  obtain ⟨b1, b2, b3⟩ := arredondarInteiro_spec b
  by_contra hlt
  have hlt2 : arredondarInteiro b + 1 ≤ arredondarInteiro a := by omega
  have hlt3 : (arredondarInteiro b : ℚ) + 1 ≤ (arredondarInteiro a : ℚ) := by exact_mod_cast hlt2
  have e1 : (arredondarInteiro a : ℚ) = (arredondarInteiro b : ℚ) + 1 := by linarith
  have e2 : arredondarInteiro a = arredondarInteiro b + 1 := by exact_mod_cast e1
  rcases a3 with ha | ⟨ha, -⟩
  · rcases b3 with hb | ⟨-, hb⟩
    · omega
    · linarith
  · linarith

theorem le_arredondarInteiro (y : ℚ) (n : Int) (h : (n : ℚ) ≤ y) : n ≤ arredondarInteiro y := by
  have := arredondarInteiro_mono _ _ h
  rwa [arredondarInteiro_intCast] at this

theorem arredondarInteiro_le (y : ℚ) (n : Int) (h : y ≤ (n : ℚ)) : arredondarInteiro y ≤ n := by
  have := arredondarInteiro_mono _ _ h
  rwa [arredondarInteiro_intCast] at this

theorem expoente_spec (x : ℚ) (hx : 0 < x) :
    (2 : ℚ) ^ (expoente x + 52) ≤ x ∧ x < (2 : ℚ) ^ (expoente x + 53) := by
  unfold expoente
  rw [abs_of_pos hx]
  have h1 := Int.zpow_log_le_self (b := 2) (by norm_num) hx
  have h2 := Int.lt_zpow_succ_log_self (b := 2) (by norm_num) x
  constructor
  · have e : Int.log 2 x - 52 + 52 = Int.log 2 x := by ring
    rw [e]
    simpa using h1
  · have e : Int.log 2 x - 52 + 53 = Int.log 2 x + 1 := by ring
    rw [e]
    simpa using h2

theorem expoente_eq (x : ℚ) (s : Int) (h1 : (2 : ℚ) ^ (s + 52) ≤ x)
    (h2 : x < (2 : ℚ) ^ (s + 53)) : expoente x = s := by
  have hpos : 0 < x := lt_of_lt_of_le (by positivity) h1
  have h3 : s + 52 ≤ Int.log 2 x := by
    rw [← Int.zpow_le_iff_le_log (by norm_num) hpos]
    simpa using h1
  have h4 : Int.log 2 x < s + 53 := by
    rw [← Int.lt_zpow_iff_log_lt (by norm_num) hpos]
    simpa using h2
  unfold expoente
  rw [abs_of_pos hpos]
  omega

theorem expoente_mono (x y : ℚ) (hx : 0 < x) (h : x ≤ y) : expoente x ≤ expoente y := by
  unfold expoente
  rw [abs_of_pos hx, abs_of_pos (lt_of_lt_of_le hx h)]
  have := Int.log_mono_right (b := 2) hx h
  omega

theorem expoente_neg (x : ℚ) : expoente (-x) = expoente x := by
  unfold expoente
  rw [abs_neg]

theorem arredondar_zero : arredondar 0 = 0 := by
  unfold arredondar
  have h : arredondarInteiro (0 : ℚ) = 0 := by
    have := arredondarInteiro_intCast 0
    simpa using this
  simp [h]

theorem arredondar_neg (x : ℚ) : arredondar (-x) = -arredondar x := by
  unfold arredondar
  rw [expoente_neg, neg_div, arredondarInteiro_neg]
  push_cast
  ring

/-- The certificate of a rounding: `m * 2^s` is the float64 nearest to `x`. -/
theorem arredondar_eq (x : ℚ) (s m : Int) (h1 : (2 : ℚ) ^ (s + 52) ≤ x)
    (h2 : x < (2 : ℚ) ^ (s + 53))
    (hlo : (m : ℚ) - 1 / 2 ≤ x / 2 ^ s) (hhi : x / 2 ^ s ≤ (m : ℚ) + 1 / 2)
    (hpar : m % 2 = 0 ∨ ((m : ℚ) - 1 / 2 < x / 2 ^ s ∧ x / 2 ^ s < (m : ℚ) + 1 / 2)) :
    arredondar x = (m : ℚ) * 2 ^ s := by
  unfold arredondar
  rw [expoente_eq x s h1 h2, arredondarInteiro_eq _ m hlo hhi hpar]

theorem escala (x : ℚ) (hx : 0 < x) :
    (2 : ℚ) ^ (52 : Int) ≤ x / 2 ^ expoente x ∧ x / 2 ^ expoente x < (2 : ℚ) ^ (53 : Int) := by
  obtain ⟨h1, h2⟩ := expoente_spec x hx
  have hp : (0 : ℚ) < 2 ^ expoente x := by positivity
  rw [zpow_add₀ (by norm_num)] at h1 h2
  constructor
  · rw [le_div_iff₀ hp]
    linarith
  · rw [div_lt_iff₀ hp]
    linarith

theorem mantissa (x : ℚ) (hx : 0 < x) :
    (2 : Int) ^ 52 ≤ arredondarInteiro (x / 2 ^ expoente x) ∧
    arredondarInteiro (x / 2 ^ expoente x) ≤ (2 : Int) ^ 53 := by
  obtain ⟨h1, h2⟩ := escala x hx
  constructor
  · apply le_arredondarInteiro
    push_cast
    exact_mod_cast h1
  · apply arredondarInteiro_le
    push_cast
    have : x / 2 ^ expoente x ≤ (2 : ℚ) ^ (53 : Int) := le_of_lt h2
    exact_mod_cast this

theorem arredondar_bounds (x : ℚ) (hx : 0 < x) :
    (2 : ℚ) ^ (expoente x + 52) ≤ arredondar x ∧ arredondar x ≤ (2 : ℚ) ^ (expoente x + 53) := by
  obtain ⟨h1, h2⟩ := mantissa x hx
  have hp : (0 : ℚ) < 2 ^ expoente x := by positivity
  have c1 : ((2 : ℚ) ^ (52 : Int)) ≤ (arredondarInteiro (x / 2 ^ expoente x) : ℚ) := by
    exact_mod_cast h1
  have c2 : (arredondarInteiro (x / 2 ^ expoente x) : ℚ) ≤ ((2 : ℚ) ^ (53 : Int)) := by
    exact_mod_cast h2
  unfold arredondar
  rw [zpow_add₀ (by norm_num), zpow_add₀ (by norm_num), mul_comm ((2 : ℚ) ^ expoente x),
    mul_comm ((2 : ℚ) ^ expoente x)]
  exact ⟨mul_le_mul_of_nonneg_right c1 hp.le, mul_le_mul_of_nonneg_right c2 hp.le⟩

theorem arredondar_pos (x : ℚ) (hx : 0 < x) : 0 < arredondar x :=
  lt_of_lt_of_le (by positivity) (arredondar_bounds x hx).1

theorem arredondar_nonneg (x : ℚ) (hx : 0 ≤ x) : 0 ≤ arredondar x := by
  rcases eq_or_lt_of_le hx with h | h
  · rw [← h, arredondar_zero]
  · exact (arredondar_pos x h).le

/-- Rounding is monotone. -/
theorem arredondar_mono_pos (x y : ℚ) (hx : 0 < x) (h : x ≤ y) :
    arredondar x ≤ arredondar y := by
  have hy : 0 < y := lt_of_lt_of_le hx h
  have hs := expoente_mono x y hx h
  rcases eq_or_lt_of_le hs with he | hl
  · unfold arredondar
    rw [← he]
    have hp : (0 : ℚ) < 2 ^ expoente x := by positivity
    apply mul_le_mul_of_nonneg_right _ hp.le
    have : x / 2 ^ expoente x ≤ y / 2 ^ expoente x := div_le_div_of_nonneg_right h hp.le
    exact_mod_cast arredondarInteiro_mono _ _ this
  · have h1 := (arredondar_bounds x hx).2
    have h2 := (arredondar_bounds y hy).1
    have h3 : (2 : ℚ) ^ (expoente x + 53) ≤ (2 : ℚ) ^ (expoente y + 52) :=
      zpow_le_zpow_right₀ (by norm_num) (by omega)
    linarith

theorem arredondar_mono (x y : ℚ) (h : x ≤ y) : arredondar x ≤ arredondar y := by
  rcases lt_trichotomy 0 x with hx | hx | hx
  · exact arredondar_mono_pos x y hx h
  · rw [← hx, arredondar_zero]
    exact arredondar_nonneg y (by linarith)
  · rcases lt_trichotomy 0 y with hy | hy | hy
    · have h1 := arredondar_pos y hy
      have h2 := arredondar_pos (-x) (by linarith)
      rw [arredondar_neg] at h2
      linarith
    · rw [← hy, arredondar_zero]
      have h2 := arredondar_pos (-x) (by linarith)
      rw [arredondar_neg] at h2
      linarith
    · have := arredondar_mono_pos (-y) (-x) (by linarith) (by linarith)
      rw [arredondar_neg, arredondar_neg] at this
      linarith

/-- The rounding error is at most half a unit in the last place. -/
theorem arredondar_erro (x : ℚ) (hx : 0 < x) :
    |arredondar x - x| ≤ x / 2 ^ 53 := by
  obtain ⟨a1, a2, -⟩ := arredondarInteiro_spec (x / 2 ^ expoente x)
  obtain ⟨e1, -⟩ := expoente_spec x hx
  have hp : (0 : ℚ) < 2 ^ expoente x := by positivity
  rw [zpow_add₀ (by norm_num)] at e1
  have hx2 : x = x / 2 ^ expoente x * 2 ^ expoente x := by field_simp
  have hd : arredondar x - x
      = ((arredondarInteiro (x / 2 ^ expoente x) : ℚ) - x / 2 ^ expoente x) * 2 ^ expoente x := by
    unfold arredondar
    rw [sub_mul, ← hx2]
  have h52 : (2 : ℚ) ^ (52 : Int) = 2 ^ 52 := by norm_num
  rw [h52] at e1
  rw [hd, abs_le]
  constructor
  · have : -(1 / 2 : ℚ) ≤ (arredondarInteiro (x / 2 ^ expoente x) : ℚ) - x / 2 ^ expoente x := by
      linarith
    have := mul_le_mul_of_nonneg_right this hp.le
    have e3 : x / 2 ^ 53 = x / 2 ^ 52 / 2 := by ring
    rw [e3]
    have e4 : (2 : ℚ) ^ expoente x ≤ x / 2 ^ 52 := by
      rw [le_div_iff₀ (by positivity)]
      linarith
    linarith
  · have : (arredondarInteiro (x / 2 ^ expoente x) : ℚ) - x / 2 ^ expoente x ≤ 1 / 2 := by
      linarith
    have := mul_le_mul_of_nonneg_right this hp.le
    have e3 : x / 2 ^ 53 = x / 2 ^ 52 / 2 := by ring
    rw [e3]
    have e4 : (2 : ℚ) ^ expoente x ≤ x / 2 ^ 52 := by
      rw [le_div_iff₀ (by positivity)]
      linarith
    linarith

/-- A rational `m * 2^t` with `0 < m < 2^53` is a float64. -/
theorem arredondar_diadico_pos (m t : Int) (h0 : 0 < m) (hm : m < 2 ^ 53) :
    arredondar ((m : ℚ) * 2 ^ t) = (m : ℚ) * 2 ^ t := by
  have hx : (0 : ℚ) < (m : ℚ) * 2 ^ t := by
    have : (0 : ℚ) < m := by exact_mod_cast h0
    positivity
  obtain ⟨e1, -⟩ := expoente_spec _ hx
  set s := expoente ((m : ℚ) * 2 ^ t) with hs
  have hlt : ((m : ℚ) * 2 ^ t) < (2 : ℚ) ^ (t + 53) := by
    rw [zpow_add₀ (by norm_num), mul_comm ((2 : ℚ) ^ t)]
    have : (m : ℚ) < (2 : ℚ) ^ (53 : Int) := by exact_mod_cast hm
    exact mul_lt_mul_of_pos_right this (by positivity)
  have hst : s + 52 < t + 53 := by
    have := lt_of_le_of_lt e1 hlt
    exact (zpow_lt_zpow_iff_right₀ (by norm_num : (1 : ℚ) < 2)).mp this
  have hts : 0 ≤ t - s := by omega
  obtain ⟨k, hk⟩ := Int.eq_ofNat_of_zero_le hts
  have hdiv : (m : ℚ) * 2 ^ t / 2 ^ s = ((m * 2 ^ k : Int) : ℚ) := by
    rw [mul_div_assoc, ← zpow_sub₀ (by norm_num), hk]
    push_cast
    rw [zpow_natCast]
  unfold arredondar
  rw [← hs, hdiv, arredondarInteiro_intCast]
  push_cast
  rw [mul_assoc, ← zpow_natCast, ← hk, ← zpow_add₀ (by norm_num)]
  congr 2
  ring

theorem arredondar_diadico (m t : Int) (hm : |m| < 2 ^ 53) :
    arredondar ((m : ℚ) * 2 ^ t) = (m : ℚ) * 2 ^ t := by
  rcases lt_trichotomy 0 m with h | h | h
  · exact arredondar_diadico_pos m t h (lt_of_le_of_lt (le_abs_self m) hm)
  · rw [← h]
    simp [arredondar_zero]
  · have h1 : -m < 2 ^ 53 := lt_of_le_of_lt (neg_le_abs m) hm
    have := arredondar_diadico_pos (-m) t (by omega) h1
    have e : (((-m : Int) : ℚ)) * 2 ^ t = -((m : ℚ) * 2 ^ t) := by push_cast; ring
    rw [e, arredondar_neg] at this
    linarith

theorem arredondar_intCast (n : Int) (hn : |n| < 2 ^ 53) : arredondar (n : ℚ) = n := by
  have := arredondar_diadico n 0 hn
  simpa using this

theorem arredondar_natCast (n : Nat) (hn : n < 2 ^ 53) : arredondar (n : ℚ) = n := by
  have := arredondar_intCast (n : Int) (by rw [abs_of_nonneg (by positivity)]; exact_mod_cast hn)
  simpa using this

/-- A natural number below `2^53` written as a numeral is a float64. -/
theorem arredondar_ofNat (n : Nat) [n.AtLeastTwo] (h : n < 2 ^ 53) :
    arredondar (no_index (OfNat.ofNat n) : ℚ) = OfNat.ofNat n := by
  have := arredondar_natCast n h
  simpa using this

theorem arredondar_one : arredondar 1 = 1 := by
  have := arredondar_natCast 1 (by norm_num)
  simpa using this

/-- Rounding leaves a float64 as it is. -/
theorem arredondar_idem (x : ℚ) : arredondar (arredondar x) = arredondar x := by
  have hpos : ∀ y : ℚ, 0 < y → arredondar (arredondar y) = arredondar y := by
    intro y hy
    obtain ⟨h1, h2⟩ := mantissa y hy
    rcases eq_or_lt_of_le h2 with he | hl
    · have e : arredondar y = ((1 : Int) : ℚ) * 2 ^ (expoente y + 53) := by
        unfold arredondar
        rw [he, zpow_add₀ (by norm_num)]
        push_cast
        norm_num
        ring
      rw [e]
      exact arredondar_diadico_pos 1 _ (by norm_num) (by norm_num)
    · unfold arredondar
      exact arredondar_diadico_pos _ _ (by omega) hl
  rcases lt_trichotomy 0 x with h | h | h
  · exact hpos x h
  · rw [← h, arredondar_zero, arredondar_zero]
  · have := hpos (-x) (by linarith)
    rw [arredondar_neg, arredondar_neg] at this
    linarith

/-! ## The partitioner and the worker pool -/

theorem mem_indices (N W g i : Nat) :
    i ∈ indices N W g ↔ start N W g ≤ i ∧ i < end_ N W g := by
  unfold indices
  rw [List.mem_range'_1]
  omega

theorem start_le_end (N W g : Nat) (hg : g < W) : start N W g ≤ end_ N W g := by
  unfold end_ start itemsPerGoroutine
  split
  · next h =>
    subst h
    calc (W - 1) * (N / W) ≤ W * (N / W) := Nat.mul_le_mul_right _ (Nat.sub_le _ _)
      _ ≤ N := Nat.mul_div_le N W
  · exact Nat.le_add_right _ _

theorem end_le_start (N W g h : Nat) (hgh : g < h) (hh : h < W) :
    end_ N W g ≤ start N W h := by
  unfold end_ start itemsPerGoroutine
  have hne : g ≠ W - 1 := by omega
  rw [if_neg hne]
  calc g * (N / W) + N / W = (g + 1) * (N / W) := by ring
    _ ≤ h * (N / W) := Nat.mul_le_mul_right _ hgh

theorem end_le_total (N W g : Nat) (hg : g < W) : end_ N W g ≤ N := by
  unfold end_ start itemsPerGoroutine
  split
  · exact le_refl _
  · next h =>
    calc g * (N / W) + N / W = (g + 1) * (N / W) := by ring
      _ ≤ W * (N / W) := Nat.mul_le_mul_right _ hg
      _ ≤ N := Nat.mul_div_le N W

theorem existe_worker (N W i : Nat) (hW : 1 ≤ W) (hi : i < N) :
    ∃ g, g < W ∧ start N W g ≤ i ∧ i < end_ N W g := by
  by_cases hlast : (W - 1) * (N / W) ≤ i
  · refine ⟨W - 1, by omega, ?_, ?_⟩
    · simpa [start, itemsPerGoroutine] using hlast
    · simp [end_, hi]
  · have hq : 0 < N / W := by
      rcases Nat.eq_zero_or_pos (N / W) with h0 | h0
      · rw [h0] at hlast; simp at hlast
      · exact h0
    have hdiv : i / (N / W) < W - 1 := by
      rw [Nat.div_lt_iff_lt_mul hq]; omega
    refine ⟨i / (N / W), by omega, ?_, ?_⟩
    · simpa [start, itemsPerGoroutine] using Nat.div_mul_le_self i (N / W)
    · have hne : i / (N / W) ≠ W - 1 := by omega
      simp only [end_, start, itemsPerGoroutine, if_neg hne]
      have := Nat.lt_succ_iff.mpr (le_refl (i / (N / W)))
      have h2 : i < (i / (N / W) + 1) * (N / W) := by
        rw [← Nat.div_lt_iff_lt_mul hq]; omega
      calc i < (i / (N / W) + 1) * (N / W) := h2
        _ = i / (N / W) * (N / W) + N / W := by ring

/-- A stage of one item and one worker runs its loop body once, for index 0. -/
theorem estagio_unitario (corpo : Nat → Option (List Evento)) (t : List Evento)
    (h : corpo 0 = some t) : estagio 1 1 corpo = some t := by
  have hi : indices 1 1 0 = [0] := by decide
  simp [estagio, laco, hi, h, List.range_succ, start, itemsPerGoroutine]

/-! ## The random source -/

theorem genBind_apply {α β : Type} (m : Gen α) (f : α → Gen β) (r : Rand) :
    (m >>= f) r = match m r with
      | none => none
      | some (a, r1) => f a r1 := rfl

theorem genPure_apply {α : Type} (a : α) (r : Rand) : (pure a : Gen α) r = some (a, r) := rfl

theorem genBind_eq_some {α β : Type} (m : Gen α) (f : α → Gen β) (r : Rand) (y : β × Rand) :
    (m >>= f) r = some y ↔ ∃ a r1, m r = some (a, r1) ∧ f a r1 = some y := by
  rw [genBind_apply]
  cases h : m r with
  | none => simp
  | some x =>
    obtain ⟨a, r1⟩ := x
    constructor
    · intro hf
      exact ⟨a, r1, rfl, hf⟩
    · rintro ⟨a2, r2, h2, hf⟩
      obtain ⟨rfl, rfl⟩ := Prod.mk.inj (Option.some.inj h2)
      exact hf

theorem genPure_eq_some {α : Type} (a b : α) (r r1 : Rand) :
    (Pure.pure a : Gen α) r = some (b, r1) ↔ b = a ∧ r1 = r := by
  rw [genPure_apply]
  constructor
  · intro h
    obtain ⟨rfl, rfl⟩ := Prod.mk.inj (Option.some.inj h)
    exact ⟨rfl, rfl⟩
  · rintro ⟨rfl, rfl⟩
    rfl

theorem Intn_eq_some (n k : Nat) (r r1 : Rand) :
    Intn n r = some (k, r1) ↔
      0 < n ∧ k = r.src r.pos % n ∧ r1 = { r with pos := r.pos + 1 } := by
  unfold Intn
  by_cases h : n = 0
  · simp [h]
  · simp [h, Nat.pos_of_ne_zero h, eq_comm]

theorem indexar_eq_some {α : Type} (xs : List α) (i : Nat) (r r1 : Rand) (x : α) :
    indexar xs i r = some (x, r1) ↔ xs.get? i = some x ∧ r1 = r := by
  unfold indexar
  cases h : xs.get? i with
  | none => simp
  | some x => simp [eq_comm]

theorem escolher_eq_some {α : Type} (xs : List α) (r r1 : Rand) (x : α) :
    escolher xs r = some (x, r1) ↔
      0 < xs.length ∧ xs.get? (r.src r.pos % xs.length) = some x ∧
        r1 = { r with pos := r.pos + 1 } := by
  unfold escolher
  simp only [genBind_eq_some, Intn_eq_some, indexar_eq_some]
  constructor
  · rintro ⟨k, r2, ⟨hlen, rfl, rfl⟩, hx, rfl⟩
    exact ⟨hlen, hx, rfl⟩
  · rintro ⟨hlen, hx, rfl⟩
    exact ⟨_, _, ⟨hlen, rfl, rfl⟩, hx, rfl⟩

theorem Float64_eq_some (r r1 : Rand) (u : ℚ) :
    Float64 r = some (u, r1) ↔
      u = unidade (r.src r.pos) ∧ r1 = { r with pos := r.pos + 1 } := by
  unfold Float64
  simp [eq_comm]

/-- The float64 of the largest `Int63` value the library accepts. -/
theorem arredondar_maior_aceito :
    arredondar (((2 ^ 63 - 513 : Nat) : ℚ)) = 2 ^ 63 - 1024 := by
  rw [arredondar_eq _ 10 (2 ^ 53 - 1) (by norm_num) (by norm_num) (by norm_num) (by norm_num)
    (by norm_num)]
  norm_num

/-- The float64 of the smallest `Int63` value the library draws again. -/
theorem arredondar_menor_recusado :
    arredondar (((2 ^ 63 - 512 : Nat) : ℚ)) = 2 ^ 63 := by
  rw [arredondar_eq _ 10 (2 ^ 53) (by norm_num) (by norm_num) (by norm_num) (by norm_num)
    (by norm_num)]
  norm_num

/-- The `Int63` values for which `float64(k) / (1 << 63)` is 1, the ones `rand.Float64`
draws again, are those from `2^63 - 512` on. -/
theorem Float64_recusa (k : Nat) (hk : k < 2 ^ 63) :
    arredondar (k : ℚ) / 2 ^ 63 = 1 ↔ 2 ^ 63 - 512 ≤ k := by
  constructor
  · intro h
    by_contra hlt
    have h1 : k ≤ 2 ^ 63 - 513 := by omega
    have h2 : (k : ℚ) ≤ ((2 ^ 63 - 513 : Nat) : ℚ) := by exact_mod_cast h1
    have h3 := arredondar_mono _ _ h2
    rw [arredondar_maior_aceito] at h3
    rw [div_eq_one_iff_eq (by positivity)] at h
    rw [h] at h3
    norm_num at h3
  · intro h
    have h2 : (((2 ^ 63 - 512 : Nat) : ℚ)) ≤ (k : ℚ) := by exact_mod_cast h
    have h3 := arredondar_mono _ _ h2
    rw [arredondar_menor_recusado] at h3
    have h6 : (((1 : Int) : ℚ)) * 2 ^ (63 : Int) = 2 ^ 63 := by norm_num
    have h4 : (k : ℚ) ≤ (((1 : Int) : ℚ)) * 2 ^ (63 : Int) := by
      rw [h6]
      exact_mod_cast hk.le
    have h5 := arredondar_mono _ _ h4
    rw [arredondar_diadico_pos 1 63 (by norm_num) (by norm_num)] at h5
    rw [div_eq_one_iff_eq (by positivity)]
    rw [h6] at h5
    linarith

theorem unidade_range (n : Nat) : 0 ≤ unidade n ∧ unidade n < 1 := by
  unfold unidade
  have hk : n % (2 ^ 63 - 512) ≤ 2 ^ 63 - 513 := by
    have := Nat.mod_lt n (show 0 < 2 ^ 63 - 512 by norm_num)
    omega
  have h2 : ((n % (2 ^ 63 - 512) : Nat) : ℚ) ≤ ((2 ^ 63 - 513 : Nat) : ℚ) := by
    exact_mod_cast hk
  have h3 := arredondar_mono _ _ h2
  rw [arredondar_maior_aceito] at h3
  have h0 : (0 : ℚ) ≤ arredondar ((n % (2 ^ 63 - 512) : Nat) : ℚ) :=
    arredondar_nonneg _ (by positivity)
  constructor
  · positivity
  · rw [div_lt_one (by positivity)]
    linarith

/-! ## What the loop bodies yield -/

theorem gerarCidade_spec (i : Nat) (r r1 : Rand) (c : Cidade)
    (h : gerarCidade i r = some (c, r1)) : c.CodIBGE = (i : Int) + 1000000 := by
  unfold gerarCidade at h
  simp only [genBind_eq_some, escolher_eq_some, genPure_eq_some] at h
  obtain ⟨_, _, -, _, _, -, rfl, -⟩ := h
  rfl

theorem gerarEndereco_spec (cfg : Config) (i : Nat) (r r1 : Rand) (e : Endereco)
    (h : gerarEndereco cfg i r = some (e, r1)) :
    e.CodEndereco = (i : Int) + 1 ∧ ∃ k : Nat, k < cfg.numCidades ∧ e.CodIBGE = (k : Int) + 1000000 := by
  unfold gerarEndereco at h
  simp only [genBind_eq_some, escolher_eq_some, Intn_eq_some, genPure_eq_some] at h
  obtain ⟨_, _, -, _, _, -, _, _, -, k, _, ⟨hpos, hk, -⟩, _, _, -, rfl, -⟩ := h
  exact ⟨rfl, k, by rw [hk]; exact Nat.mod_lt _ hpos, rfl⟩

theorem gerarFornecedor_spec (i : Nat) (r r1 : Rand) (f : Fornecedor)
    (h : gerarFornecedor i r = some (f, r1)) : f.CodFornecedor = (i : Int) + 1 := by
  unfold gerarFornecedor at h
  simp only [genBind_eq_some, escolher_eq_some, Intn_eq_some] at h
  obtain ⟨_, _, -, _, _, -, fl, _, -, hfim⟩ := h
  by_cases h1 : fl = 1
  · simp only [h1, if_true, genBind_eq_some, Intn_eq_some, genPure_eq_some] at hfim
    obtain ⟨_, _, -, rfl, -⟩ := hfim
    rfl
  · simp only [h1, if_false, genPure_eq_some] at hfim
    obtain ⟨rfl, -⟩ := hfim
    rfl

/-- What the body of the product loop yields. -/
theorem gerarProduto_spec (cfg : Config) (i : Nat) (r r1 : Rand) (d : ProdutoDoc)
    (h : gerarProduto cfg i r = some (d, r1)) :
    d.CodProduto = (i : Int) + 1 ∧
    (∃ f : Nat, f < cfg.numFornecedores ∧ d.CodFornecedor = (f : Int) + 1) ∧
    (∃ u v : ℚ, 0 ≤ u ∧ u < 1 ∧ 0 ≤ v ∧ v < 1 ∧
      d.VlrCusto = duasCasas (fadd 5 (fmul u 95)) ∧
      d.VlrVenda = duasCasas (fmul d.VlrCusto (fadd (12 / 10) (fmul v (8 / 10)))) ∧
      d.VlrMedio = duasCasas (fdiv (fadd d.VlrCusto d.VlrVenda) 2)) ∧
    ((d.CodPromocao = none ∧ d.VlrPromocao = none) ∨
     ((∃ c : Nat, c < 20 ∧ d.CodPromocao = some ((c : Int) + 1)) ∧
      d.VlrPromocao = some (duasCasas (fmul d.VlrVenda (7 / 10))))) := by
  unfold gerarProduto at h
  simp only [genBind_eq_some, escolher_eq_some, Intn_eq_some, Float64_eq_some] at h
  obtain ⟨_, _, -, _, _, -, _, _, -, f, _, ⟨hpos, hf, -⟩, _, _, -, _, _, -, u, ru, ⟨hu, -⟩,
    v, rv, ⟨hv, -⟩, fr, _, -, pr, _, -, hfim⟩ := h
  have hf2 : f < cfg.numFornecedores := by rw [hf]; exact Nat.mod_lt _ hpos
  have hur : 0 ≤ u ∧ u < 1 := by rw [hu]; exact unidade_range _
  have hvr : 0 ≤ v ∧ v < 1 := by rw [hv]; exact unidade_range _
  clear hu hv hf
  by_cases h2 : pr < 2
  · simp only [h2, if_true, genBind_eq_some, Intn_eq_some, genPure_eq_some] at hfim
    obtain ⟨c, _, ⟨-, hc, -⟩, rfl, -⟩ := hfim
    have hc2 : c < 20 := by rw [hc]; exact Nat.mod_lt _ (by decide)
    exact ⟨rfl, ⟨f, hf2, rfl⟩, ⟨u, v, hur.1, hur.2, hvr.1, hvr.2, rfl, rfl, rfl⟩,
      Or.inr ⟨⟨c, hc2, rfl⟩, rfl⟩⟩
  · simp only [h2, if_false, genPure_eq_some] at hfim
    obtain ⟨rfl, -⟩ := hfim
    exact ⟨rfl, ⟨f, hf2, rfl⟩, ⟨u, v, hur.1, hur.2, hvr.1, hvr.2, rfl, rfl, rfl⟩,
      Or.inl ⟨rfl, rfl⟩⟩

/-- The prices of a generated product in terms of the two `rand.Float64()` draws, the
seventh and the eighth draw of the loop body. -/
theorem gerarProduto_precos (cfg : Config) (i : Nat) (r r1 : Rand) (d : ProdutoDoc)
    (h : gerarProduto cfg i r = some (d, r1)) :
    d.VlrCusto = duasCasas (fadd 5 (fmul (unidade (r.src (r.pos + 6))) 95)) ∧
    d.VlrVenda
      = duasCasas (fmul d.VlrCusto
          (fadd (12 / 10) (fmul (unidade (r.src (r.pos + 7))) (8 / 10)))) ∧
    d.VlrMedio = duasCasas (fdiv (fadd d.VlrCusto d.VlrVenda) 2) := by
  unfold gerarProduto at h
  simp only [genBind_eq_some, escolher_eq_some, Intn_eq_some, Float64_eq_some] at h
  obtain ⟨_, _, ⟨-, -, rfl⟩, _, _, ⟨-, -, rfl⟩, _, _, ⟨-, -, rfl⟩, f, _, ⟨-, -, rfl⟩, _, _,
    ⟨-, -, rfl⟩, _, _, ⟨-, -, rfl⟩, u, _, ⟨rfl, rfl⟩, v, _, ⟨rfl, rfl⟩, fr, _, -, pr, _, -,
    hfim⟩ := h
  by_cases h2 : pr < 2
  · simp only [h2, if_true, genBind_eq_some, Intn_eq_some, genPure_eq_some] at hfim
    obtain ⟨c, _, -, rfl, -⟩ := hfim
    exact ⟨rfl, rfl, rfl⟩
  · simp only [h2, if_false, genPure_eq_some] at hfim
    obtain ⟨rfl, -⟩ := hfim
    exact ⟨rfl, rfl, rfl⟩

theorem gerarPDV_spec (cfg : Config) (agora : Time) (i : Nat) (r r1 : Rand) (p : PDV)
    (h : gerarPDV cfg agora i r = some (p, r1)) :
    p.CodPDV = (i : Int) + 1 ∧ ∃ l : Nat, l < cfg.numLojas ∧ p.CodLoja = (l : Int) + 1 := by
  unfold gerarPDV at h
  simp only [genBind_eq_some, Intn_eq_some, genPure_eq_some] at h
  obtain ⟨_, _, -, _, _, -, _, _, -, _, _, -, _, _, -, l, _, ⟨hpos, hl, -⟩, _, _, -, rfl, -⟩ := h
  exact ⟨rfl, l, by rw [hl]; exact Nat.mod_lt _ hpos, rfl⟩

theorem gerarCaixa_spec (cfg : Config) (i : Nat) (r r1 : Rand) (c : Caixa)
    (h : gerarCaixa cfg i r = some (c, r1)) :
    c.CodCaixa = (i : Int) + 1 ∧ ∃ l : Nat, l < cfg.numLojas ∧ c.CodLoja = (l : Int) + 1 := by
  unfold gerarCaixa at h
  simp only [genBind_eq_some, escolher_eq_some, Intn_eq_some, genPure_eq_some] at h
  obtain ⟨_, _, -, _, _, -, l, _, ⟨hpos, hl, -⟩, _, _, -, rfl, -⟩ := h
  exact ⟨rfl, l, by rw [hl]; exact Nat.mod_lt _ hpos, rfl⟩

theorem gerarCliente_spec (cfg : Config) (i : Nat) (r r1 : Rand) (c : Cliente)
    (h : gerarCliente cfg i r = some (c, r1)) :
    c.CodCliente = (i : Int) + 1 ∧ c.CodEndereco = (cfg.numLojas : Int) + (i : Int) + 1 := by
  unfold gerarCliente at h
  simp only [genBind_eq_some, escolher_eq_some, Intn_eq_some, genPure_eq_some] at h
  obtain ⟨_, _, -, _, _, -, _, _, -, rfl, -⟩ := h
  exact ⟨rfl, rfl⟩

/-- What one pass of the item loop yields: a line built from a product of the catalog. -/
theorem gerarItem_spec (produtos : List Produto) (seqNota : Int) (j : Nat) (r : Rand)
    (item : ItemNotaFiscal) (r1 : Rand) (h : gerarItem produtos seqNota j r = some (item, r1)) :
    ∃ p, p ∈ produtos ∧ ∃ q k : Nat, q < 10 ∧ k < 10 ∧
      item.SeqItemNota = (j : Int) + 1 ∧ item.SeqNota = seqNota ∧
      item.CodProduto = p.CodProduto ∧
      item.QtdProduto
        = (if p.FlgFracionado = "S" then ((q + 1 : Nat) : ℚ) + (k : ℚ) / 10
           else ((q + 1 : Nat) : ℚ)) ∧
      item.VlrVenda = (if p.VlrPromocao > 0 then p.VlrPromocao else p.VlrVenda) ∧
      item.VlrCusto = p.VlrCusto ∧ item.VlrMedio = p.VlrMedio ∧
      item.VlrPromocao = p.VlrPromocao := by
  unfold gerarItem at h
  simp only [genBind_eq_some, Intn_eq_some, indexar_eq_some, genPure_eq_some] at h
  obtain ⟨idx, r2, ⟨hlen, rfl, rfl⟩, p, r3, ⟨hp, rfl⟩, q, r4, ⟨-, rfl, rfl⟩, qtd, r5, hqtd,
    rfl, rfl⟩ := h
  have hpm : p ∈ produtos := List.get?_mem hp
  refine ⟨p, hpm, r.src (r.pos + 1) % 10, r.src (r.pos + 1 + 1) % 10, Nat.mod_lt _ (by decide),
    Nat.mod_lt _ (by decide), rfl, rfl, rfl, ?_, rfl, rfl, rfl, rfl⟩
  by_cases hS : p.FlgFracionado = "S"
  · simp only [hS, if_true, genBind_eq_some, Intn_eq_some, genPure_eq_some] at hqtd ⊢
    obtain ⟨k, r6, ⟨-, rfl, rfl⟩, rfl, rfl⟩ := hqtd
    rfl
  · simp only [hS, if_false, genPure_eq_some] at hqtd ⊢
    obtain ⟨rfl, rfl⟩ := hqtd
    rfl

/-- What the item loop yields: the lines appended, numbered from `j + 1`, each built from
a product of the catalog, and the running total to which the float64 amounts of the
lines were added one after the other. -/
theorem gerarItens_spec (produtos : List Produto) (seqNota : Int) :
    ∀ (n j : Nat) (itens : List ItemNotaFiscal) (vlr : ℚ) (r : Rand)
      (saida : List ItemNotaFiscal) (total : ℚ) (r1 : Rand),
      gerarItens produtos seqNota n j itens vlr r = some ((saida, total), r1) →
      ∃ novos : List ItemNotaFiscal, saida = itens ++ novos ∧ novos.length = n ∧
        total = novos.foldl (fun acc it => fadd acc (fmul it.VlrVenda it.QtdProduto)) vlr ∧
        novos.map (fun it => it.SeqItemNota)
          = (List.range' (j + 1) n).map (fun (k : Nat) => (k : Int)) ∧
        ∀ it, it ∈ novos → ∃ r2 r3, ∃ k, gerarItem produtos seqNota k r2 = some (it, r3) := by
  intro n
  induction n with
  | zero =>
    intro j itens vlr r saida total r1 h
    simp only [gerarItens, genPure_eq_some, Prod.mk.injEq] at h
    obtain ⟨⟨rfl, rfl⟩, -⟩ := h
    exact ⟨[], by simp⟩
  | succ n ih =>
    intro j itens vlr r saida total r1 h
    simp only [gerarItens, genBind_eq_some] at h
    obtain ⟨item, r2, hitem, hresto⟩ := h
    obtain ⟨novos, rfl, hlen, rfl, hseq, hall⟩ := ih _ _ _ _ _ _ _ hresto
    have hs := gerarItem_spec produtos seqNota j r item r2 hitem
    obtain ⟨p, -, q, k, -, -, hsi, -⟩ := hs
    refine ⟨item :: novos, by simp, by simp [hlen], ?_, ?_, ?_⟩
    · rfl
    · simp only [List.map_cons, List.range'_succ, hseq, hsi]
      push_cast
      rfl
    · intro it hit
      rcases List.mem_cons.mp hit with rfl | hmem
      · exact ⟨r, r2, j, hitem⟩
      · exact hall it hmem

/-- What the body of the invoice loop yields. -/
theorem gerarNota_spec (cfg : Config) (produtos : List Produto) (agora : Time) (i : Nat)
    (r : Rand) (nf : NotaFiscal) (itens : List ItemNotaFiscal) (r1 : Rand)
    (h : gerarNota cfg produtos agora i r = some ((nf, itens), r1)) :
    ∃ (p c cl ni fp : Nat) (soma : ℚ) (r2 r3 : Rand),
      p < cfg.numPDVs ∧ c < cfg.numCaixas ∧ cl < cfg.numClientes ∧ ni < 15 ∧ fp < 3 ∧
      gerarItens produtos ((i : Int) + 1) (ni + 1) 0 [] 0 r2 = some ((itens, soma), r3) ∧
      nf.SeqNota = (i : Int) + 1 ∧ nf.CodPDV = (p : Int) + 1 ∧ nf.CodCaixa = (c : Int) + 1 ∧
      nf.CodCliente = (cl : Int) + 1 ∧ nf.VlrNota = duasCasas soma ∧
      nf.VlrDinheiro = (if fp = 0 then duasCasas soma else 0) ∧
      nf.VlrTick = (if fp = 1 then duasCasas soma else 0) ∧
      nf.VlrCartao = (if fp = 2 then duasCasas soma else 0) := by
  unfold gerarNota at h
  simp only [genBind_eq_some, Intn_eq_some] at h
  obtain ⟨p, _, ⟨hp, hp2, rfl⟩, c, _, ⟨hc, hc2, rfl⟩, cl, _, ⟨hcl, hcl2, rfl⟩, nn, _,
    ⟨-, rfl, rfl⟩, m, _, ⟨-, rfl, rfl⟩, d, _, ⟨-, rfl, rfl⟩, e, _, ⟨-, rfl, rfl⟩, ni, r2,
    ⟨-, hni, hr2⟩, ⟨itens2, soma⟩, r3, hitens, fp, r4, ⟨-, hfp, rfl⟩, hfim⟩ := h
  have hfp3 : fp < 3 := by rw [hfp]; exact Nat.mod_lt _ (by decide)
  have hp3 : p < cfg.numPDVs := by rw [hp2]; exact Nat.mod_lt _ hp
  have hc3 : c < cfg.numCaixas := by rw [hc2]; exact Nat.mod_lt _ hc
  have hcl3 : cl < cfg.numClientes := by rw [hcl2]; exact Nat.mod_lt _ hcl
  have hni3 : ni < 15 := by rw [hni]; exact Nat.mod_lt _ (by decide)
  clear hfp hp2 hc2 hcl2 hni hr2
  refine ⟨p, c, cl, ni, fp, soma, r2, r3, hp3, hc3, hcl3, hni3, hfp3, ?_⟩
  interval_cases fp
  all_goals
    simp only [genPure_eq_some, Prod.mk.injEq] at hfim
    obtain ⟨⟨rfl, rfl⟩, rfl⟩ := hfim
    exact ⟨hitens, by simp⟩

/-- The lines of a generated invoice: each is built from a product of the catalog. -/
theorem itens_da_nota (cfg : Config) (produtos : List Produto) (agora : Time) (i : Nat)
    (r : Rand) (nf : NotaFiscal) (itens : List ItemNotaFiscal) (r1 : Rand)
    (h : gerarNota cfg produtos agora i r = some ((nf, itens), r1)) :
    ∀ item, item ∈ itens → ∃ p, p ∈ produtos ∧ ∃ q k : Nat, q < 10 ∧ k < 10 ∧
      item.SeqNota = nf.SeqNota ∧ item.CodProduto = p.CodProduto ∧
      item.QtdProduto
        = (if p.FlgFracionado = "S" then ((q + 1 : Nat) : ℚ) + (k : ℚ) / 10
           else ((q + 1 : Nat) : ℚ)) ∧
      item.VlrVenda = (if p.VlrPromocao > 0 then p.VlrPromocao else p.VlrVenda) := by
  obtain ⟨p, c, cl, ni, fp, soma, r2, r3, -, -, -, -, -, hit, hseq, -⟩ :=
    gerarNota_spec cfg produtos agora i r nf itens r1 h
  obtain ⟨novos, hn, -, -, -, hall⟩ := gerarItens_spec produtos _ _ _ _ _ _ _ _ _ hit
  intro item hmem
  rw [hn, List.nil_append] at hmem
  obtain ⟨r4, r5, j, hj⟩ := hall item hmem
  obtain ⟨p, hp, q, k, hq, hk, -, hs, hc, hqt, hv, -⟩ := gerarItem_spec _ _ _ _ _ _ hj
  exact ⟨p, hp, q, k, hq, hk, by rw [hs, hseq], hc, hqt, hv⟩

/-! ## Loops and stages -/

theorem laco_nil (corpo : Nat → Option (List Evento)) : laco corpo [] = some [] := rfl

theorem laco_cons (corpo : Nat → Option (List Evento)) (i : Nat) (xs : List Nat) :
    laco corpo (i :: xs) = match corpo i with
      | none => none
      | some t =>
        match laco corpo xs with
        | none => none
        | some ts => some (t ++ ts) := rfl

theorem laco_cons_eq_some (corpo : Nat → Option (List Evento)) (i : Nat) (xs : List Nat)
    (t : List Evento) :
    laco corpo (i :: xs) = some t ↔
      ∃ a b, corpo i = some a ∧ laco corpo xs = some b ∧ t = a ++ b := by
  rw [laco_cons]
  cases h1 : corpo i with
  | none => simp
  | some a =>
    cases h2 : laco corpo xs with
    | none => simp
    | some b => simp [eq_comm]

theorem laco_append_eq_some (corpo : Nat → Option (List Evento)) (xs ys : List Nat)
    (t : List Evento) :
    laco corpo (xs ++ ys) = some t ↔
      ∃ a b, laco corpo xs = some a ∧ laco corpo ys = some b ∧ t = a ++ b := by
  induction xs generalizing t with
  | nil => simp [laco_nil]
  | cons i xs ih =>
    simp only [List.cons_append, laco_cons_eq_some, ih]
    constructor
    · rintro ⟨a, b, h1, ⟨c, d, h2, h3, rfl⟩, rfl⟩
      exact ⟨a ++ c, d, ⟨a, c, h1, h2, rfl⟩, h3, by simp⟩
    · rintro ⟨a, b, ⟨c, d, h1, h2, rfl⟩, h3, rfl⟩
      exact ⟨c, d ++ b, h1, ⟨d, b, h2, h3, rfl⟩, by simp⟩

/-- A loop runs to its end exactly when every pass does. -/
theorem laco_isSome (corpo : Nat → Option (List Evento)) (xs : List Nat) :
    (∃ t, laco corpo xs = some t) ↔ ∀ i, i ∈ xs → ∃ a, corpo i = some a := by
  induction xs with
  | nil => simp [laco_nil]
  | cons i xs ih =>
    simp only [laco_cons_eq_some, List.mem_cons]
    constructor
    · rintro ⟨t, a, b, h1, h2, -⟩ j hj
      rcases hj with rfl | hj
      · exact ⟨a, h1⟩
      · exact ih.mp ⟨b, h2⟩ j hj
    · intro h
      obtain ⟨a, ha⟩ := h i (Or.inl rfl)
      obtain ⟨b, hb⟩ := ih.mpr (fun j hj => h j (Or.inr hj))
      exact ⟨a ++ b, a, b, ha, hb, rfl⟩

/-- The indices the workers visit, worker after worker, are `0, 1, ..., N - 1`. -/
theorem indices_flatMap (N W : Nat) (hW : 1 ≤ W) :
    (List.range W).flatMap (indices N W) = List.range N := by
  have hcat : ∀ a b : Nat, List.range' 0 a ++ List.range' a b = List.range' 0 (a + b) := by
    intro a b
    have h := List.range'_append_1 0 a b
    rw [Nat.zero_add] at h
    rw [h, Nat.add_comm]
  have hpre : ∀ k, k ≤ W - 1 →
      (List.range k).flatMap (indices N W) = List.range (k * (N / W)) := by
    intro k
    induction k with
    | zero => intro _; simp
    | succ k ih =>
      intro hk
      have hne : k ≠ W - 1 := by omega
      have hik : indices N W k = List.range' (k * (N / W)) (N / W) := by
        simp [indices, end_, start, itemsPerGoroutine, if_neg hne]
      rw [List.range_succ k, List.flatMap_append, ih (by omega)]
      simp only [List.flatMap_cons, List.flatMap_nil, List.append_nil, hik]
      rw [List.range_eq_range', List.range_eq_range', hcat]
      congr 1
      ring
  have hlast : indices N W (W - 1)
      = List.range' ((W - 1) * (N / W)) (N - (W - 1) * (N / W)) := by
    simp [indices, end_, start, itemsPerGoroutine]
  have hle : (W - 1) * (N / W) ≤ N :=
    calc (W - 1) * (N / W) ≤ W * (N / W) := Nat.mul_le_mul_right _ (Nat.sub_le _ _)
      _ ≤ N := Nat.mul_div_le N W
  have hr : List.range W = List.range (W - 1) ++ [W - 1] := by
    have hW2 : W = (W - 1) + 1 := by omega
    calc List.range W = List.range ((W - 1) + 1) := by rw [← hW2]
      _ = List.range (W - 1) ++ [W - 1] := List.range_succ (W - 1)
  rw [hr, List.flatMap_append, hpre (W - 1) (le_refl _)]
  simp only [List.flatMap_cons, List.flatMap_nil, List.append_nil]
  rw [hlast, List.range_eq_range', List.range_eq_range', hcat]
  congr 1
  omega

theorem laco_flatMap (corpo : Nat → Option (List Evento)) (f : Nat → List Nat)
    (gs : List Nat) :
    laco (fun g => laco corpo (f g)) gs = laco corpo (gs.flatMap f) := by
  induction gs with
  | nil => rfl
  | cons g gs ih =>
    rw [laco_cons, List.flatMap_cons, ih]
    cases h1 : laco corpo (f g) with
    | none =>
      cases h2 : laco corpo (f g ++ gs.flatMap f) with
      | none => rfl
      | some t =>
        obtain ⟨a, b, ha, -, -⟩ := (laco_append_eq_some _ _ _ _).mp h2
        rw [h1] at ha
        exact absurd ha (by simp)
    | some a =>
      cases h2 : laco corpo (gs.flatMap f) with
      | none =>
        cases h3 : laco corpo (f g ++ gs.flatMap f) with
        | none => rfl
        | some t =>
          obtain ⟨c, d, -, hd, -⟩ := (laco_append_eq_some _ _ _ _).mp h3
          rw [h2] at hd
          exact absurd hd (by simp)
      | some b =>
        exact ((laco_append_eq_some _ _ _ _).mpr ⟨a, b, h1, h2, rfl⟩).symm

/-- A stage runs its loop body once for every index `0, 1, ..., N - 1`. -/
theorem estagio_eq_laco (N W : Nat) (hW : 1 ≤ W) (corpo : Nat → Option (List Evento)) :
    estagio N W corpo = laco corpo (List.range N) := by
  unfold estagio
  rw [laco_flatMap, indices_flatMap N W hW]

/-! ## Reading the trace of a stage -/

theorem principaisMongo_append (a b : List Evento) :
    principaisMongo (a ++ b) = principaisMongo a ++ principaisMongo b := by
  simp [principaisMongo]

theorem principaisMongo_gravar (falha : Falhas) (nome : String) (a b : Registro)
    (ha : ∀ it, a ≠ Registro.itemNotaFiscal it) :
    principaisMongo (gravar falha nome a b) = [a] := by
  have h1 : registroDoPasso (Evento.insercao Sink.MongoDB a) = some a := by
    cases a <;> first | rfl | exact absurd rfl (ha _)
  unfold gravar
  by_cases hm : falha Sink.MongoDB a = true <;> by_cases hc : falha Sink.Cassandra b = true <;>
    simp [principaisMongo, hm, hc, h1, registroDoPasso]

theorem principaisMongo_itens (falha : Falhas) (itens : List ItemNotaFiscal) :
    principaisMongo ((itens.map (fun item =>
      gravar falha "item de nota fiscal"
        (Registro.itemNotaFiscal item) (Registro.itemNotaFiscal item))).flatten) = [] := by
  induction itens with
  | nil => rfl
  | cons it resto ih =>
    rw [List.map_cons, List.flatten_cons, principaisMongo_append, ih]
    unfold gravar
    by_cases hm : falha Sink.MongoDB (Registro.itemNotaFiscal it) = true <;>
      by_cases hc : falha Sink.Cassandra (Registro.itemNotaFiscal it) = true <;>
      simp [principaisMongo, hm, hc, registroDoPasso]

theorem principaisMongo_gravarNota (falha : Falhas) (i : Nat) (nf : NotaFiscal)
    (itens : List ItemNotaFiscal) :
    principaisMongo (gravarNota falha i nf itens) = [Registro.notaFiscal nf] := by
  unfold gravarNota
  by_cases hm : falha Sink.MongoDB (Registro.notaFiscal nf) = true
  · simp [principaisMongo, hm, registroDoPasso]
  · have h1 : principaisMongo [Evento.insercao Sink.MongoDB (Registro.notaFiscal nf)]
        = [Registro.notaFiscal nf] := rfl
    have h2 : principaisMongo [Evento.insercao Sink.Cassandra (Registro.notaFiscal nf)]
        = [] := rfl
    have h3 : principaisMongo (if falha Sink.Cassandra (Registro.notaFiscal nf) = true
        then [Evento.log "Erro ao inserir nota fiscal no Cassandra"] else []) = [] := by
      split <;> rfl
    have h4 : principaisMongo (if i % 1000 = 0 ∧ 0 < i
        then [Evento.print ("Geradas " ++ toString i ++ " notas fiscais...")] else [])
        = [] := by
      split <;> rfl
    rw [if_neg hm]
    simp only [principaisMongo_append, principaisMongo_itens, h1, h2, h3, h4]
    rfl

theorem passo_eq_some {α : Type} (gerar : Nat → Gen α) (escrever : Nat → α → List Evento)
    (aleat : Nat → Rand) (i : Nat) (t : List Evento) :
    passo gerar escrever aleat i = some t ↔
      ∃ x, (gerar i (aleat i)).map Prod.fst = some x ∧ t = escrever i x := by
  unfold passo
  cases h : gerar i (aleat i) with
  | none => simp
  | some y =>
    obtain ⟨x, r⟩ := y
    simp [eq_comm]

/-- The records a loop submits to MongoDB are the records generated for its indices, one
for each index and in order. -/
theorem laco_principais {α : Type} (gerar : Nat → Gen α) (escrever : Nat → α → List Evento)
    (R : α → Registro) (aleat : Nat → Rand)
    (hR : ∀ i x, principaisMongo (escrever i x) = [R x]) :
    ∀ (xs : List Nat) (t : List Evento), laco (passo gerar escrever aleat) xs = some t →
      List.Forall₂ (fun i reg => ∃ x, (gerar i (aleat i)).map Prod.fst = some x ∧ reg = R x)
        xs (principaisMongo t) := by
  intro xs
  induction xs with
  | nil =>
    intro t h
    rw [laco_nil] at h
    obtain rfl := Option.some.inj h
    exact List.Forall₂.nil
  | cons i xs ih =>
    intro t h
    obtain ⟨a, b, ha, hb, rfl⟩ := (laco_cons_eq_some _ _ _ _).mp h
    obtain ⟨x, hx, rfl⟩ := (passo_eq_some _ _ _ _ _).mp ha
    rw [principaisMongo_append, hR]
    exact List.Forall₂.cons ⟨x, hx, rfl⟩ (ih b hb)

/-- Whether a loop runs to its end does not depend on what its passes write. -/
theorem laco_passo_isSome {α : Type} (gerar : Nat → Gen α)
    (e1 e2 : Nat → α → List Evento) (aleat : Nat → Rand) (xs : List Nat) (t : List Evento)
    (h : laco (passo gerar e1 aleat) xs = some t) :
    ∃ t2, laco (passo gerar e2 aleat) xs = some t2 := by
  rw [laco_isSome]
  intro i hi
  obtain ⟨a, ha⟩ := (laco_isSome _ _).mp ⟨t, h⟩ i hi
  obtain ⟨x, hx, -⟩ := (passo_eq_some _ _ _ _ _).mp ha
  exact ⟨e2 i x, (passo_eq_some _ _ _ _ _).mpr ⟨x, hx, rfl⟩⟩

theorem forall₂_gerado_unico {α : Type} (gerar : Nat → Option α) (R : α → Registro)
    (xs : List Nat) (l1 l2 : List Registro)
    (h1 : List.Forall₂ (fun i reg => ∃ x, gerar i = some x ∧ reg = R x) xs l1)
    (h2 : List.Forall₂ (fun i reg => ∃ x, gerar i = some x ∧ reg = R x) xs l2) : l1 = l2 := by
  induction h1 generalizing l2 with
  | nil => exact (List.forall₂_nil_left_iff.mp h2).symm
  | cons hab _ ih =>
    obtain ⟨b, l, hb, hl, rfl⟩ := List.forall₂_cons_left_iff.mp h2
    obtain ⟨x, hx, rfl⟩ := hab
    obtain ⟨y, hy, rfl⟩ := hb
    rw [hx] at hy
    obtain rfl := Option.some.inj hy
    rw [ih l hl]

/-- A loop over a list of workers: the trace is the traces of the workers, one after the
other. -/
theorem laco_workers (c : Nat → Option (List Evento)) :
    ∀ (gs : List Nat) (t : List Evento), laco c gs = some t →
      ∃ ts : List (List Evento), ts.length = gs.length ∧ t = ts.flatten ∧
        ∀ k, k < gs.length → c (gs.getD k 0) = some (ts.getD k []) := by
  intro gs
  induction gs with
  | nil =>
    intro t h
    rw [laco_nil] at h
    obtain rfl := Option.some.inj h
    exact ⟨[], rfl, rfl, fun k hk => absurd hk (by simp)⟩
  | cons g gs ih =>
    intro t h
    obtain ⟨a, b, ha, hb, rfl⟩ := (laco_cons_eq_some _ _ _ _).mp h
    obtain ⟨ts, hlen, rfl, hts⟩ := ih b hb
    refine ⟨a :: ts, by simp [hlen], by simp, ?_⟩
    intro k hk
    cases k with
    | zero => simpa using ha
    | succ k =>
      have hk2 : k < gs.length := by simpa using hk
      simpa using hts k hk2

/-- A stage whose passes cannot panic runs to its end. -/
theorem estagio_total {α : Type} (N W : Nat) (hW : 1 ≤ W) (gerar : Nat → Gen α)
    (escrever : Nat → α → List Evento) (aleat : Nat → Rand)
    (hg : ∀ i r, ∃ y, gerar i r = some y) :
    ∃ t, estagio N W (passo gerar escrever aleat) = some t := by
  rw [estagio_eq_laco N W hW, laco_isSome]
  intro i _
  obtain ⟨⟨x, r1⟩, hx⟩ := hg i (aleat i)
  exact ⟨escrever i x, (passo_eq_some _ _ _ _ _).mpr ⟨x, by rw [hx]; rfl, rfl⟩⟩

/-- The generic form of `naoAborta`: a stage whose passes cannot panic and submit exactly
one record to MongoDB whatever the failing writes. -/
theorem naoAborta_estagio {α : Type} (N W : Nat) (hW : 1 ≤ W) (gerar : Nat → Gen α)
    (R : α → Registro) (escrever : Falhas → Nat → α → List Evento)
    (hR : ∀ falha i x, principaisMongo (escrever falha i x) = [R x])
    (aleat : Nat → Rand) (fim : List Evento) (hfim : principaisMongo fim = [])
    (hg : ∀ i r, ∃ y, gerar i r = some y) :
    naoAborta N W (fun i => (gerar i (aleat i)).map Prod.fst) R
      (fun falha => (estagio N W (passo gerar (escrever falha) aleat)).map
        (fun t => t ++ fim)) := by
  intro falha
  obtain ⟨t0, ht0⟩ := estagio_total N W hW gerar (escrever falha) aleat hg
  refine ⟨t0 ++ fim, by simp only [ht0, Option.map_some'], ?_⟩
  have hl := ht0
  rw [estagio_eq_laco N W hW] at hl
  have hall := laco_principais gerar (escrever falha) R aleat (hR falha) _ _ hl
  refine ⟨?_, ?_, ?_⟩
  · obtain ⟨ts, hlen, rfl, hts⟩ := laco_workers _ _ _ ht0
    refine ⟨ts, fim, by simpa using hlen, rfl, hfim, ?_⟩
    intro g hg
    have hg2 : g < (List.range W).length := by simpa using hg
    have h1 := hts g hg2
    have h2 : (List.range W).getD g 0 = g := by
      simp [List.getD, List.getElem?_range hg]
    rw [h2] at h1
    exact laco_principais gerar (escrever falha) R aleat (hR falha) _ _ h1
  · rw [principaisMongo_append, hfim, List.append_nil, ← hall.length_eq, List.length_range]
  · intro falha2
    obtain ⟨t2, ht2⟩ := laco_passo_isSome gerar (escrever falha) (escrever falha2) aleat _ _ hl
    have hall2 := laco_principais gerar (escrever falha2) R aleat (hR falha2) _ _ ht2
    refine ⟨t2 ++ fim, ?_, ?_⟩
    · show (estagio N W (passo gerar (escrever falha2) aleat)).map (fun t => t ++ fim)
        = some (t2 ++ fim)
      rw [estagio_eq_laco N W hW, ht2]
      rfl
    · rw [principaisMongo_append, principaisMongo_append,
        forall₂_gerado_unico _ R _ _ _ hall2 hall]

theorem principaisMongo_print (msg : String) : principaisMongo [Evento.print msg] = [] := rfl

theorem gerarLojas_eq_estagio (cfg : Config) (falha : Falhas) (aleat : Nat → Rand) :
    gerarLojas cfg falha
      = (estagio cfg.numLojas 1
          (passo (fun i => (Pure.pure (gerarLoja i) : Gen Loja))
            (fun _ l => gravar falha "loja" (Registro.loja l) (Registro.loja l)) aleat)).map
          (fun t => t ++ [Evento.print ("Geradas " ++ toString cfg.numLojas ++ " lojas")]) := by
  rw [estagio_eq_laco _ 1 (le_refl 1)]
  rfl

/-! ## Generation that cannot panic -/

theorem total_pure {α : Type} (a : α) : ∀ r, ∃ y, (Pure.pure a : Gen α) r = some y :=
  fun r => ⟨(a, r), rfl⟩

theorem total_bind {α β : Type} (m : Gen α) (f : α → Gen β)
    (hm : ∀ r, ∃ y, m r = some y) (hf : ∀ a r, ∃ y, f a r = some y) :
    ∀ r, ∃ y, (m >>= f) r = some y := by
  intro r
  obtain ⟨⟨a, r1⟩, h1⟩ := hm r
  obtain ⟨y, h2⟩ := hf a r1
  exact ⟨y, (genBind_eq_some m f r y).mpr ⟨a, r1, h1, h2⟩⟩

theorem total_Intn (n : Nat) (h : 0 < n) : ∀ r, ∃ y, Intn n r = some y :=
  fun r => ⟨_, (Intn_eq_some n _ r _).mpr ⟨h, rfl, rfl⟩⟩

theorem total_Float64 : ∀ r, ∃ y, Float64 r = some y :=
  fun _ => ⟨_, rfl⟩

theorem total_escolher {α : Type} (xs : List α) (h : 0 < xs.length) :
    ∀ r, ∃ y, escolher xs r = some y := by
  intro r
  have hk : r.src r.pos % xs.length < xs.length := Nat.mod_lt _ h
  exact ⟨(xs.get ⟨_, hk⟩, _),
    (escolher_eq_some xs r _ _).mpr ⟨h, by simp [List.getElem?_eq_getElem hk], rfl⟩⟩

/-- The pick `produtos[rand.Intn(len(produtos))]` on a catalog that is not empty. -/
theorem total_sorteio {α β : Type} (xs : List α) (h : xs ≠ []) (f : α → Gen β)
    (hf : ∀ a r, ∃ y, f a r = some y) :
    ∀ r, ∃ y, (Intn xs.length >>= fun k => indexar xs k >>= f) r = some y := by
  intro r
  have hl : 0 < xs.length := List.length_pos.mpr h
  have hk : r.src r.pos % xs.length < xs.length := Nat.mod_lt _ hl
  obtain ⟨y, hy⟩ := hf (xs.get ⟨_, hk⟩) { r with pos := r.pos + 1 }
  refine ⟨y, ?_⟩
  rw [genBind_eq_some]
  refine ⟨_, _, (Intn_eq_some _ _ r _).mpr ⟨hl, rfl, rfl⟩, ?_⟩
  rw [genBind_eq_some]
  exact ⟨_, _, (indexar_eq_some xs _ _ _ _).mpr ⟨by simp [List.getElem?_eq_getElem hk], rfl⟩, hy⟩

theorem gerarCidade_total (i : Nat) : ∀ r, ∃ y, gerarCidade i r = some y := by
  unfold gerarCidade
  refine total_bind _ _ (total_escolher _ (by decide)) (fun _ => ?_)
  refine total_bind _ _ (total_escolher _ (by decide)) (fun _ => ?_)
  exact total_pure _

theorem gerarEndereco_total (cfg : Config) (h : 0 < cfg.numCidades) (i : Nat) :
    ∀ r, ∃ y, gerarEndereco cfg i r = some y := by
  unfold gerarEndereco
  refine total_bind _ _ (total_escolher _ (by decide)) (fun _ => ?_)
  refine total_bind _ _ (total_Intn _ (by decide)) (fun _ => ?_)
  refine total_bind _ _ (total_Intn _ (by decide)) (fun _ => ?_)
  refine total_bind _ _ (total_Intn _ h) (fun _ => ?_)
  refine total_bind _ _ (total_escolher _ (by decide)) (fun _ => ?_)
  exact total_pure _

theorem gerarFornecedor_total (i : Nat) : ∀ r, ∃ y, gerarFornecedor i r = some y := by
  unfold gerarFornecedor
  refine total_bind _ _ (total_escolher _ (by decide)) (fun _ => ?_)
  refine total_bind _ _ (total_escolher _ (by decide)) (fun _ => ?_)
  refine total_bind _ _ (total_Intn _ (by decide)) (fun f => ?_)
  by_cases hf : f = 1
  · simp only [hf, if_true]
    refine total_bind _ _ (total_Intn _ (by decide)) (fun _ => ?_)
    exact total_pure _
  · simp only [hf, if_false]
    exact total_pure _

theorem gerarProduto_total (cfg : Config) (h : 0 < cfg.numFornecedores) (i : Nat) :
    ∀ r, ∃ y, gerarProduto cfg i r = some y := by
  unfold gerarProduto
  refine total_bind _ _ (total_escolher _ (by decide)) (fun _ => ?_)
  refine total_bind _ _ (total_escolher _ (by decide)) (fun _ => ?_)
  refine total_bind _ _ (total_escolher _ (by decide)) (fun _ => ?_)
  refine total_bind _ _ (total_Intn _ h) (fun _ => ?_)
  refine total_bind _ _ (total_escolher _ (by decide)) (fun _ => ?_)
  refine total_bind _ _ (total_escolher _ (by decide)) (fun _ => ?_)
  refine total_bind _ _ total_Float64 (fun _ => ?_)
  refine total_bind _ _ total_Float64 (fun _ => ?_)
  refine total_bind _ _ (total_Intn _ (by decide)) (fun _ => ?_)
  refine total_bind _ _ (total_Intn _ (by decide)) (fun pr => ?_)
  by_cases hp : pr < 2
  · simp only [hp, if_true]
    refine total_bind _ _ (total_Intn _ (by decide)) (fun _ => ?_)
    exact total_pure _
  · simp only [hp, if_false]
    exact total_pure _

theorem gerarPDV_total (cfg : Config) (h : 0 < cfg.numLojas) (agora : Time) (i : Nat) :
    ∀ r, ∃ y, gerarPDV cfg agora i r = some y := by
  unfold gerarPDV
  refine total_bind _ _ (total_Intn _ (by decide)) (fun _ => ?_)
  refine total_bind _ _ (total_Intn _ (by decide)) (fun _ => ?_)
  refine total_bind _ _ (total_Intn _ (by decide)) (fun _ => ?_)
  refine total_bind _ _ (total_Intn _ (by decide)) (fun _ => ?_)
  refine total_bind _ _ (total_Intn _ (by decide)) (fun _ => ?_)
  refine total_bind _ _ (total_Intn _ h) (fun _ => ?_)
  refine total_bind _ _ (total_Intn _ (by decide)) (fun _ => ?_)
  exact total_pure _

theorem gerarCaixa_total (cfg : Config) (h : 0 < cfg.numLojas) (i : Nat) :
    ∀ r, ∃ y, gerarCaixa cfg i r = some y := by
  unfold gerarCaixa
  refine total_bind _ _ (total_escolher _ (by decide)) (fun _ => ?_)
  refine total_bind _ _ (total_escolher _ (by decide)) (fun _ => ?_)
  refine total_bind _ _ (total_Intn _ h) (fun _ => ?_)
  refine total_bind _ _ (total_Intn _ (by decide)) (fun _ => ?_)
  exact total_pure _

theorem gerarCliente_total (cfg : Config) (i : Nat) :
    ∀ r, ∃ y, gerarCliente cfg i r = some y := by
  unfold gerarCliente
  refine total_bind _ _ (total_escolher _ (by decide)) (fun _ => ?_)
  refine total_bind _ _ (total_escolher _ (by decide)) (fun _ => ?_)
  refine total_bind _ _ (total_Intn _ (by decide)) (fun _ => ?_)
  exact total_pure _

theorem gerarItem_total (produtos : List Produto) (h : produtos ≠ []) (seqNota : Int)
    (j : Nat) : ∀ r, ∃ y, gerarItem produtos seqNota j r = some y := by
  unfold gerarItem
  refine total_sorteio produtos h _ (fun produto => ?_)
  refine total_bind _ _ (total_Intn _ (by decide)) (fun _ => ?_)
  refine total_bind _ _ ?_ (fun _ => total_pure _)
  by_cases hS : produto.FlgFracionado = "S"
  · simp only [hS, if_true]
    refine total_bind _ _ (total_Intn _ (by decide)) (fun _ => ?_)
    exact total_pure _
  · simp only [hS, if_false]
    exact total_pure _

theorem gerarItens_total (produtos : List Produto) (h : produtos ≠ []) (seqNota : Int) :
    ∀ (n j : Nat) (itens : List ItemNotaFiscal) (vlr : ℚ) (r : Rand),
      ∃ y, gerarItens produtos seqNota n j itens vlr r = some y := by
  intro n
  induction n with
  | zero =>
    intro j itens vlr r
    exact ⟨_, rfl⟩
  | succ n ih =>
    intro j itens vlr
    unfold gerarItens
    exact total_bind _ _ (gerarItem_total produtos h seqNota j) (fun item => ih _ _ _)

/-- With a catalog that is not empty and terminals, registers and customers to draw from,
the body of the invoice loop always yields an invoice. -/
theorem gerarNota_total (cfg : Config) (produtos : List Produto) (h : produtos ≠ [])
    (hp : 0 < cfg.numPDVs) (hc : 0 < cfg.numCaixas) (hcl : 0 < cfg.numClientes)
    (agora : Time) (i : Nat) : ∀ r, ∃ y, gerarNota cfg produtos agora i r = some y := by
  unfold gerarNota
  refine total_bind _ _ (total_Intn _ hp) (fun _ => ?_)
  refine total_bind _ _ (total_Intn _ hc) (fun _ => ?_)
  refine total_bind _ _ (total_Intn _ hcl) (fun _ => ?_)
  refine total_bind _ _ (total_Intn _ (by decide)) (fun _ => ?_)
  refine total_bind _ _ (total_Intn _ (by decide)) (fun _ => ?_)
  refine total_bind _ _ (total_Intn _ (by decide)) (fun _ => ?_)
  refine total_bind _ _ (total_Intn _ (by decide)) (fun _ => ?_)
  refine total_bind _ _ (total_Intn _ (by decide)) (fun _ => ?_)
  refine total_bind _ _ (gerarItens_total produtos h _ _ _ _ _) (fun x => ?_)
  obtain ⟨itensNota, soma⟩ := x
  refine total_bind _ _ (total_Intn _ (by decide)) (fun fp => ?_)
  intro r
  split <;> exact ⟨_, rfl⟩

/-- With an empty catalog the body of the invoice loop panics at the first product
pick, `rand.Intn(0)`. -/
theorem gerarNota_vazio (cfg : Config) (agora : Time) (i : Nat) (r : Rand) :
    gerarNota cfg [] agora i r = none := by
  cases h : gerarNota cfg [] agora i r with
  | none => rfl
  | some y =>
    obtain ⟨⟨nf, itens⟩, r1⟩ := y
    obtain ⟨p, c, cl, ni, fp, soma, r2, r3, -, -, -, -, -, hit, -⟩ :=
      gerarNota_spec cfg [] agora i r nf itens r1 h
    unfold gerarItens at hit
    obtain ⟨item, r4, hitem, -⟩ := (genBind_eq_some _ _ _ _).mp hit
    obtain ⟨q, hq, -⟩ := gerarItem_spec [] _ _ _ _ _ hitem
    exact absurd hq (by simp)

/-! ## The orchestrator -/

/-- The trace of a run in which both connections succeed: the traces of the nine stage
functions in the order of the calls, each after the line that announces it, then the
final message. -/
theorem main_eq_some (cfg : Config) (amb : Ambiente) (t : List Evento)
    (hm : amb.mongoConecta = true) (hc : amb.cassandraConecta = true) :
    main cfg amb = some t ↔
      ∃ cidades enderecos fornecedores produtos lojas pdvs caixas clientes notas,
        gerarCidades cfg amb.falha (amb.aleat 0) = some cidades ∧
        gerarEnderecos cfg amb.falha (amb.aleat 1) = some enderecos ∧
        gerarFornecedores cfg amb.falha (amb.aleat 2) = some fornecedores ∧
        gerarProdutos cfg amb.falha (amb.aleat 3) = some produtos ∧
        gerarLojas cfg amb.falha = some lojas ∧
        gerarPDVs cfg amb.falha (amb.aleat 5) (amb.agora 5) = some pdvs ∧
        gerarCaixas cfg amb.falha (amb.aleat 6) = some caixas ∧
        gerarClientes cfg amb.falha (amb.aleat 7) = some clientes ∧
        gerarNotasFiscaisEItens cfg amb.falha amb.leitura (amb.aleat 8) (amb.agora 8)
          = some notas ∧
        t = [Evento.print "Conectado ao MongoDB com sucesso!",
             Evento.print "Conectado ao Cassandra com sucesso!",
             Evento.print "Iniciando geração de dados...",
             Evento.print "Gerando cidades..."] ++ cidades
          ++ [Evento.print "Gerando endereços..."] ++ enderecos
          ++ [Evento.print "Gerando fornecedores..."] ++ fornecedores
          ++ [Evento.print "Gerando produtos..."] ++ produtos
          ++ [Evento.print "Gerando lojas..."] ++ lojas
          ++ [Evento.print "Gerando PDVs..."] ++ pdvs
          ++ [Evento.print "Gerando caixas..."] ++ caixas
          ++ [Evento.print "Gerando clientes..."] ++ clientes
          ++ [Evento.print "Gerando notas fiscais e itens..."] ++ notas
          ++ [mensagemSucesso] := by
  unfold main
  rw [if_neg (by simp [hm]), if_neg (by simp [hc])]
  cases h1 : gerarCidades cfg amb.falha (amb.aleat 0) with
  | none => simp
  | some a1 =>
  cases h2 : gerarEnderecos cfg amb.falha (amb.aleat 1) with
  | none => simp
  | some a2 =>
  cases h3 : gerarFornecedores cfg amb.falha (amb.aleat 2) with
  | none => simp
  | some a3 =>
  cases h4 : gerarProdutos cfg amb.falha (amb.aleat 3) with
  | none => simp
  | some a4 =>
  cases h5 : gerarLojas cfg amb.falha with
  | none => simp
  | some a5 =>
  cases h6 : gerarPDVs cfg amb.falha (amb.aleat 5) (amb.agora 5) with
  | none => simp
  | some a6 =>
  cases h7 : gerarCaixas cfg amb.falha (amb.aleat 6) with
  | none => simp
  | some a7 =>
  cases h8 : gerarClientes cfg amb.falha (amb.aleat 7) with
  | none => simp
  | some a8 =>
  cases h9 : gerarNotasFiscaisEItens cfg amb.falha amb.leitura (amb.aleat 8) (amb.agora 8) with
  | none => simp
  | some a9 =>
    constructor
    · intro h
      exact ⟨a1, a2, a3, a4, a5, a6, a7, a8, a9, rfl, rfl, rfl, rfl, rfl, rfl, rfl, rfl, rfl,
        (Option.some.inj h).symm⟩
    · rintro ⟨b1, b2, b3, b4, b5, b6, b7, b8, b9, e1, e2, e3, e4, e5, e6, e7, e8, e9, ht⟩
      obtain rfl := Option.some.inj e1
      obtain rfl := Option.some.inj e2
      obtain rfl := Option.some.inj e3
      obtain rfl := Option.some.inj e4
      obtain rfl := Option.some.inj e5
      obtain rfl := Option.some.inj e6
      obtain rfl := Option.some.inj e7
      obtain rfl := Option.some.inj e8
      obtain rfl := Option.some.inj e9
      rw [ht]

theorem mapa_total {α β : Type} (o : Option α) (f : α → β) (h : ∃ t, o = some t) :
    ∃ t, o.map f = some t := by
  obtain ⟨t, rfl⟩ := h
  exact ⟨f t, rfl⟩

/-- With the counts of the source the eight stages before the invoice stage run to their
end, and the invoice stage whose read-back fails returns after its log line: the run
reaches the end of `main`. -/
theorem main_leitura_falha : ∃ t, main config ambLeituraFalha = some t := by
  have hW : 1 ≤ config.numGoroutines := by decide
  obtain ⟨a1, h1⟩ := mapa_total _
    (fun t => t ++ [Evento.print ("Geradas " ++ toString config.numCidades ++ " cidades")])
    (estagio_total config.numCidades _ hW gerarCidade
      (fun _ c => gravar semFalhas "cidade" (Registro.cidade c) (Registro.cidade c))
      (fun _ => sequencia []) gerarCidade_total)
  obtain ⟨a2, h2⟩ := mapa_total _
    (fun t => t ++ [Evento.print
      ("Gerados " ++ toString (config.numClientes + config.numLojas) ++ " endereços")])
    (estagio_total (config.numClientes + config.numLojas) _ hW (gerarEndereco config)
      (fun _ e => gravar semFalhas "endereço" (Registro.endereco e) (Registro.endereco e))
      (fun _ => sequencia []) (gerarEndereco_total config (by decide)))
  obtain ⟨a3, h3⟩ := mapa_total _
    (fun t => t ++ [Evento.print
      ("Gerados " ++ toString config.numFornecedores ++ " fornecedores")])
    (estagio_total config.numFornecedores _ hW gerarFornecedor
      (fun _ f => gravar semFalhas "fornecedor" (Registro.fornecedor f)
        (Registro.fornecedor f))
      (fun _ => sequencia []) gerarFornecedor_total)
  obtain ⟨a4, h4⟩ := mapa_total _
    (fun t => t ++ [Evento.print ("Gerados " ++ toString config.numProdutos ++ " produtos")])
    (estagio_total config.numProdutos _ hW (gerarProduto config)
      (fun _ d => gravar semFalhas "produto" (Registro.produtoDoc d)
        (Registro.produto (linhaProduto d)))
      (fun _ => sequencia []) (gerarProduto_total config (by decide)))
  obtain ⟨a5, h5⟩ : ∃ t, gerarLojas config semFalhas = some t := by
    rw [gerarLojas_eq_estagio config semFalhas (fun _ => sequencia [])]
    exact mapa_total _ _ (estagio_total _ 1 (le_refl 1) _ _ _ (fun i => total_pure _))
  obtain ⟨a6, h6⟩ := mapa_total _
    (fun t => t ++ [Evento.print ("Gerados " ++ toString config.numPDVs ++ " PDVs")])
    (estagio_total config.numPDVs _ hW (fun i => gerarPDV config instante i)
      (fun _ p => gravar semFalhas "PDV" (Registro.pdv p) (Registro.pdv p))
      (fun _ => sequencia []) (fun i => gerarPDV_total config (by decide) instante i))
  obtain ⟨a7, h7⟩ := mapa_total _
    (fun t => t ++ [Evento.print ("Gerados " ++ toString config.numCaixas ++ " caixas")])
    (estagio_total config.numCaixas _ hW (gerarCaixa config)
      (fun _ c => gravar semFalhas "caixa" (Registro.caixa c) (Registro.caixa c))
      (fun _ => sequencia []) (gerarCaixa_total config (by decide)))
  obtain ⟨a8, h8⟩ := mapa_total _
    (fun t => t ++ [Evento.print ("Gerados " ++ toString config.numClientes ++ " clientes")])
    (estagio_total config.numClientes _ hW (gerarCliente config)
      (fun _ c => gravar semFalhas "cliente" (Registro.cliente c) (Registro.cliente c))
      (fun _ => sequencia []) (gerarCliente_total config))
  exact ⟨_, (main_eq_some config ambLeituraFalha _ rfl rfl).mpr
    ⟨a1, a2, a3, a4, a5, a6, a7, a8, [Evento.log "Erro ao buscar produtos"],
      h1, h2, h3, h4, h5, h6, h7, h8, rfl, rfl⟩⟩

/-! ## The order of the writes -/

theorem laco_mem (corpo : Nat → Option (List Evento)) :
    ∀ (xs : List Nat) (t : List Evento), laco corpo xs = some t →
      ∀ ev, ev ∈ t → ∃ i a, corpo i = some a ∧ ev ∈ a := by
  intro xs
  induction xs with
  | nil =>
    intro t h ev hev
    rw [laco_nil] at h
    obtain rfl := Option.some.inj h
    exact absurd hev (by simp)
  | cons i xs ih =>
    intro t h ev hev
    obtain ⟨a, b, ha, hb, rfl⟩ := (laco_cons_eq_some _ _ _ _).mp h
    rcases List.mem_append.mp hev with h1 | h1
    · exact ⟨i, a, ha, h1⟩
    · exact ih b hb ev h1

theorem escrita_de_gravar (falha : Falhas) (nome : String) (a b : Registro) (ev : Evento)
    (n : Nat) (hev : ev ∈ gravar falha nome a b) (hn : estagioDaEscrita ev = some n) :
    n = a.estagio ∨ n = b.estagio := by
  unfold gravar at hev
  simp only [List.mem_append, List.mem_singleton] at hev
  rcases hev with ((h | h) | h) | h
  · subst h
    exact Or.inl (Option.some.inj hn).symm
  · split at h
    · obtain rfl := List.mem_singleton.mp h
      exact absurd hn (by simp [estagioDaEscrita])
    · exact absurd h (by simp)
  · subst h
    exact Or.inr (Option.some.inj hn).symm
  · split at h
    · obtain rfl := List.mem_singleton.mp h
      exact absurd hn (by simp [estagioDaEscrita])
    · exact absurd h (by simp)

theorem escrita_de_gravarNota (falha : Falhas) (i : Nat) (nf : NotaFiscal)
    (itens : List ItemNotaFiscal) (ev : Evento) (n : Nat)
    (hev : ev ∈ gravarNota falha i nf itens) (hn : estagioDaEscrita ev = some n) : n = 8 := by
  unfold gravarNota at hev
  rcases List.mem_append.mp hev with h | h
  · obtain rfl := List.mem_singleton.mp h
    exact (Option.some.inj hn).symm
  · split at h
    · obtain rfl := List.mem_singleton.mp h
      exact absurd hn (by simp [estagioDaEscrita])
    · simp only [List.mem_append, List.mem_singleton, List.mem_flatten, List.mem_map] at h
      rcases h with ((h | h) | h) | h
      · subst h
        exact (Option.some.inj hn).symm
      · split at h
        · obtain rfl := List.mem_singleton.mp h
          exact absurd hn (by simp [estagioDaEscrita])
        · exact absurd h (by simp)
      · obtain ⟨l, ⟨item, -, rfl⟩, hl⟩ := h
        rcases escrita_de_gravar _ _ _ _ _ _ hl hn with h1 | h1 <;> exact h1
      · split at h
        · obtain rfl := List.mem_singleton.mp h
          exact absurd hn (by simp [estagioDaEscrita])
        · exact absurd h (by simp)

/-- The writes of a stage all carry the number of the stage. -/
theorem escritas_do_estagio {α : Type} (N W : Nat) (gerar : Nat → Gen α)
    (escrever : Nat → α → List Evento) (aleat : Nat → Rand) (msg : String) (k : Nat)
    (hE : ∀ i x ev n, ev ∈ escrever i x → estagioDaEscrita ev = some n → n = k)
    (t : List Evento)
    (h : (estagio N W (passo gerar escrever aleat)).map (fun t => t ++ [Evento.print msg])
      = some t) :
    ∀ n, n ∈ estagiosDasEscritas t → n = k := by
  intro n hn
  obtain ⟨ev, hev, hf⟩ := List.mem_filterMap.mp hn
  obtain ⟨t0, ht0, rfl⟩ := Option.map_eq_some'.mp h
  rcases List.mem_append.mp hev with h1 | h1
  · obtain ⟨g, a, ha, hga⟩ := laco_mem _ _ _ ht0 ev h1
    obtain ⟨i, b, hb, hib⟩ := laco_mem _ _ _ ha ev hga
    unfold passo at hb
    split at hb
    · exact absurd hb (by simp)
    · obtain rfl := Option.some.inj hb
      exact hE _ _ ev n hib hf
  · obtain rfl := List.mem_singleton.mp h1
    exact absurd hf (by simp [estagioDaEscrita])

theorem escritas_lojas (cfg : Config) (falha : Falhas) (t : List Evento)
    (h : gerarLojas cfg falha = some t) : ∀ n, n ∈ estagiosDasEscritas t → n = 4 := by
  intro n hn
  obtain ⟨ev, hev, hf⟩ := List.mem_filterMap.mp hn
  obtain ⟨t0, ht0, rfl⟩ := Option.map_eq_some'.mp h
  rcases List.mem_append.mp hev with h1 | h1
  · obtain ⟨i, a, ha, hia⟩ := laco_mem _ _ _ ht0 ev h1
    obtain rfl := Option.some.inj ha
    rcases escrita_de_gravar _ _ _ _ _ _ hia hf with h2 | h2 <;> exact h2
  · obtain rfl := List.mem_singleton.mp h1
    exact absurd hf (by simp [estagioDaEscrita])

theorem escritas_notas (cfg : Config) (falha : Falhas) (leitura : Leitura)
    (aleat : Nat → Rand) (agora : Nat → Time) (t : List Evento)
    (h : gerarNotasFiscaisEItens cfg falha leitura aleat agora = some t) :
    ∀ n, n ∈ estagiosDasEscritas t → n = 8 := by
  cases leitura with
  | erroBusca =>
    obtain rfl : [Evento.log "Erro ao buscar produtos"] = t := Option.some.inj h
    intro n hn
    exact absurd hn (by simp [estagiosDasEscritas, estagioDaEscrita])
  | erroDecodificacao =>
    obtain rfl : [Evento.log "Erro ao decodificar produtos"] = t := Option.some.inj h
    intro n hn
    exact absurd hn (by simp [estagiosDasEscritas, estagioDaEscrita])
  | ok produtos =>
    exact escritas_do_estagio _ _ (fun i => gerarNota cfg produtos (agora i) i)
      (fun i x => gravarNota falha i x.1 x.2) aleat _ 8
      (fun i x ev n hev hn => escrita_de_gravarNota falha i x.1 x.2 ev n hev hn) t h

theorem pairwise_bloco (k : Nat) (l L : List Nat) (hl : ∀ n, n ∈ l → n = k)
    (hL : L.Pairwise (fun a b => a ≤ b)) (hk : ∀ m, m ∈ L → k ≤ m) :
    (l ++ L).Pairwise (fun a b => a ≤ b) ∧ ∀ m, m ∈ l ++ L → k ≤ m := by
  constructor
  · rw [List.pairwise_append]
    refine ⟨?_, hL, ?_⟩
    · rw [List.pairwise_iff_forall_sublist]
      intro a b hab
      have ha := hl a (hab.subset (by simp))
      have hb := hl b (hab.subset (by simp))
      omega
    · intro a ha b hb
      rw [hl a ha]
      exact hk b hb
  · intro m hm
    rcases List.mem_append.mp hm with h | h
    · rw [hl m h]
    · exact hk m h

theorem estagiosDasEscritas_append (a b : List Evento) :
    estagiosDasEscritas (a ++ b) = estagiosDasEscritas a ++ estagiosDasEscritas b := by
  simp [estagiosDasEscritas]

theorem estagiosDasEscritas_print (msgs : List String) (t : List Evento) :
    estagiosDasEscritas (msgs.map Evento.print ++ t) = estagiosDasEscritas t := by
  induction msgs with
  | nil => rfl
  | cons m ms ih =>
    rw [List.map_cons, List.cons_append]
    exact ih

/-! ## Rounding -/

theorem round2_le_self (x : ℚ) (h : 0 ≤ x) : round2 x ≤ x := by
  unfold round2 truncar
  have h100 : (0 : ℚ) ≤ x * 100 := by positivity
  rw [if_pos h100, div_le_iff₀ (by norm_num)]
  exact Int.floor_le _

theorem le_round2 (k : Int) (x : ℚ) (h : 0 ≤ x) (hk : (k : ℚ) ≤ x * 100) :
    (k : ℚ) / 100 ≤ round2 x := by
  unfold round2 truncar
  have h100 : (0 : ℚ) ≤ x * 100 := by positivity
  rw [if_pos h100]
  have hfl : k ≤ ⌊x * 100⌋ := Int.le_floor.mpr hk
  have hq : (k : ℚ) ≤ ((⌊x * 100⌋ : Int) : ℚ) := by exact_mod_cast hfl
  exact div_le_div_of_nonneg_right hq (by norm_num)

/-! ## Bounds on float64 amounts -/

theorem fmul_nonneg (a b : ℚ) (ha : 0 ≤ a) (hb : 0 ≤ b) : 0 ≤ fmul a b :=
  arredondar_nonneg _ (mul_nonneg (arredondar_nonneg a ha) (arredondar_nonneg b hb))

theorem fadd_nonneg (a b : ℚ) (ha : 0 ≤ a) (hb : 0 ≤ b) : 0 ≤ fadd a b :=
  arredondar_nonneg _ (add_nonneg (arredondar_nonneg a ha) (arredondar_nonneg b hb))

/-- The float64 product is monotone on non-negative factors. -/
theorem fmul_mono (a b c d : ℚ) (ha : 0 ≤ a) (hb : 0 ≤ b) (hac : a ≤ c) (hbd : b ≤ d) :
    fmul a b ≤ fmul c d := by
  unfold fmul
  apply arredondar_mono
  exact mul_le_mul (arredondar_mono _ _ hac) (arredondar_mono _ _ hbd) (arredondar_nonneg b hb)
    (arredondar_nonneg c (le_trans ha hac))

/-- The float64 sum is monotone. -/
theorem fadd_mono (a b c d : ℚ) (hac : a ≤ c) (hbd : b ≤ d) : fadd a b ≤ fadd c d := by
  unfold fadd
  apply arredondar_mono
  exact add_le_add (arredondar_mono _ _ hac) (arredondar_mono _ _ hbd)

theorem truncar_mono (x y : ℚ) (h : x ≤ y) : truncar x ≤ truncar y := by
  unfold truncar
  split_ifs with h1 h2 h2
  · exact Int.floor_le_floor h
  · exact absurd (le_trans h1 h) h2
  · have a1 : ⌈x⌉ ≤ 0 := Int.ceil_le.mpr (by push_cast; linarith)
    have a2 : 0 ≤ ⌊y⌋ := Int.floor_nonneg.mpr h2
    omega
  · exact Int.ceil_le_ceil h

theorem truncar_intCast (k : Int) : truncar (k : ℚ) = k := by
  unfold truncar
  split_ifs
  · exact Int.floor_intCast k
  · exact Int.ceil_intCast k

/-- The truncation to cents is monotone. -/
theorem duasCasas_mono (x y : ℚ) (hx : 0 ≤ x) (h : x ≤ y) : duasCasas x ≤ duasCasas y := by
  unfold duasCasas
  have h1 := fmul_mono x 100 y 100 hx (by norm_num) h (le_refl _)
  have h2 := truncar_mono _ _ h1
  have h3 : ((truncar (fmul x 100) : Int) : ℚ) ≤ ((truncar (fmul y 100) : Int) : ℚ) := by
    exact_mod_cast h2
  exact div_le_div_of_nonneg_right h3 (by norm_num)

/-- The truncation to cents of a non-negative amount is at most its float64 product by
100, divided by 100. -/
theorem duasCasas_le (x : ℚ) (hx : 0 ≤ x) : duasCasas x ≤ fmul x 100 / 100 := by
  unfold duasCasas truncar
  have h0 : 0 ≤ fmul x 100 := fmul_nonneg x 100 hx (by norm_num)
  rw [if_pos h0]
  exact div_le_div_of_nonneg_right (Int.floor_le _) (by norm_num)

/-- A whole number of cents below `2^53` is kept by the truncation to cents. -/
theorem duasCasas_inteiro (n : Nat) (h : n * 100 < 2 ^ 53) : duasCasas (n : ℚ) = n := by
  unfold duasCasas fmul
  have h1 : arredondar (n : ℚ) = n := arredondar_natCast n (by omega)
  have h2 : arredondar (100 : ℚ) = 100 := arredondar_ofNat 100 (by norm_num)
  have h3 : arredondar (((n * 100 : Nat) : ℚ)) = ((n * 100 : Nat) : ℚ) :=
    arredondar_natCast _ h
  have h4 : (n : ℚ) * 100 = ((n * 100 : Nat) : ℚ) := by push_cast; ring
  rw [h1, h2, h4, h3]
  have h5 : (((n * 100 : Nat) : ℚ)) = (((n * 100 : Nat) : Int) : ℚ) := by push_cast; ring
  rw [h5, truncar_intCast]
  push_cast
  field_simp

/-- The relative error of a rounding, in the form used for the price bounds. -/
theorem arredondar_le_mul (x : ℚ) (hx : 0 < x) : arredondar x ≤ x * (1001 / 1000) := by
  have h := arredondar_erro x hx
  rw [abs_le] at h
  have h2 : x / 2 ^ 53 ≤ x * (1 / 1000) := by
    rw [div_eq_mul_one_div]
    apply mul_le_mul_of_nonneg_left _ hx.le
    norm_num
  linarith [h.2]

theorem arredondar_le_mul_nonneg (x : ℚ) (hx : 0 ≤ x) : arredondar x ≤ x * (1001 / 1000) := by
  rcases eq_or_lt_of_le hx with h | h
  · rw [← h, arredondar_zero]
    norm_num
  · exact arredondar_le_mul x h

/-! ## The quantity of a line and the payment draw -/

theorem Intn_src (n : Nat) (r r1 : Rand) (k : Nat) (h : Intn n r = some (k, r1)) :
    r1.src = r.src := by
  obtain ⟨-, -, rfl⟩ := (Intn_eq_some _ _ _ _).mp h
  rfl

theorem gerarItem_src (produtos : List Produto) (seqNota : Int) (j : Nat) (r : Rand)
    (item : ItemNotaFiscal) (r1 : Rand) (h : gerarItem produtos seqNota j r = some (item, r1)) :
    r1.src = r.src := by
  unfold gerarItem at h
  simp only [genBind_eq_some, Intn_eq_some, indexar_eq_some, genPure_eq_some] at h
  obtain ⟨idx, r2, ⟨hlen, rfl, rfl⟩, p, r3, ⟨hp, rfl⟩, q, r4, ⟨-, rfl, rfl⟩, qtd, r5, hqtd,
    rfl, rfl⟩ := h
  by_cases hS : p.FlgFracionado = "S"
  · simp only [hS, if_true, genBind_eq_some, Intn_eq_some, genPure_eq_some] at hqtd
    obtain ⟨k, r6, ⟨-, rfl, rfl⟩, rfl, rfl⟩ := hqtd
    rfl
  · simp only [hS, if_false, genPure_eq_some] at hqtd
    obtain ⟨rfl, rfl⟩ := hqtd
    rfl

theorem gerarItens_src (produtos : List Produto) (seqNota : Int) :
    ∀ (n j : Nat) (itens : List ItemNotaFiscal) (vlr : ℚ) (r : Rand)
      (x : List ItemNotaFiscal × ℚ) (r1 : Rand),
      gerarItens produtos seqNota n j itens vlr r = some (x, r1) → r1.src = r.src := by
  intro n
  induction n with
  | zero =>
    intro j itens vlr r x r1 h
    simp only [gerarItens, genPure_eq_some] at h
    obtain ⟨-, rfl⟩ := h
    rfl
  | succ n ih =>
    intro j itens vlr r x r1 h
    simp only [gerarItens, genBind_eq_some] at h
    obtain ⟨item, r2, hitem, hresto⟩ := h
    rw [ih _ _ _ _ _ _ hresto, gerarItem_src _ _ _ _ _ _ hitem]

/-- The payment of a generated invoice: the last draw of the loop body is the
`rand.Intn(3)` of the payment method, made on the stream the body started with, and the
field it selects holds the total while the other two stay 0. -/
theorem gerarNota_sorteio (cfg : Config) (produtos : List Produto) (agora : Time) (i : Nat)
    (r : Rand) (nf : NotaFiscal) (itens : List ItemNotaFiscal) (r1 : Rand)
    (h : gerarNota cfg produtos agora i r = some ((nf, itens), r1)) :
    ∃ (formaPgto : Nat) (r3 : Rand), Intn 3 r3 = some (formaPgto, r1) ∧ r3.src = r.src ∧
      nf.VlrDinheiro = (if formaPgto = 0 then nf.VlrNota else 0) ∧
      nf.VlrTick = (if formaPgto = 1 then nf.VlrNota else 0) ∧
      nf.VlrCartao = (if formaPgto = 2 then nf.VlrNota else 0) := by
  unfold gerarNota at h
  simp only [genBind_eq_some] at h
  obtain ⟨p, ra, hp, c, rb, hc, cl, rc, hcl, nn, rd, hnn, m, re, hm, d, rf, hd, e, rg, he,
    ni, r2, hni, ⟨itens2, soma⟩, r3, hitens, fp, r4, hfp, hfim⟩ := h
  have hsrc : r3.src = r.src := by
    rw [gerarItens_src _ _ _ _ _ _ _ _ _ hitens, Intn_src _ _ _ _ hni, Intn_src _ _ _ _ he,
      Intn_src _ _ _ _ hd, Intn_src _ _ _ _ hm, Intn_src _ _ _ _ hnn, Intn_src _ _ _ _ hcl,
      Intn_src _ _ _ _ hc, Intn_src _ _ _ _ hp]
  have hfp3 : fp < 3 := by
    obtain ⟨-, hk, -⟩ := (Intn_eq_some _ _ _ _).mp hfp
    rw [hk]
    exact Nat.mod_lt _ (by decide)
  refine ⟨fp, r3, ?_, hsrc, ?_⟩
  all_goals
    interval_cases fp
    all_goals
      simp only [genPure_eq_some, Prod.mk.injEq] at hfim
      obtain ⟨⟨rfl, rfl⟩, rfl⟩ := hfim
      first
        | exact hfp
        | simp

/-! ## The quantity of a line sold by fraction -/

theorem quantidade_decimos_1 (n : Nat) (h1 : 1 ≤ n) (h2 : n ≤ 10) :
    arredondar ((n : ℚ) + arredondar ((1 : ℚ) / 10))
      = arredondar ((n : ℚ) + (1 : ℚ) / 10) := by
  rw [arredondar_eq ((1 : ℚ) / 10) (-56) 7205759403792794 (by norm_num) (by norm_num) (by norm_num)
    (by norm_num) (by norm_num)]
  interval_cases n
  · rw [arredondar_eq _ (-52) 4953959590107546 (by norm_num) (by norm_num) (by norm_num)
      (by norm_num) (by norm_num),
      arredondar_eq _ (-52) 4953959590107546 (by norm_num) (by norm_num) (by norm_num)
        (by norm_num) (by norm_num)]
  · rw [arredondar_eq _ (-51) 4728779608739021 (by norm_num) (by norm_num) (by norm_num)
      (by norm_num) (by norm_num),
      arredondar_eq _ (-51) 4728779608739021 (by norm_num) (by norm_num) (by norm_num)
        (by norm_num) (by norm_num)]
  · rw [arredondar_eq _ (-51) 6980579422424269 (by norm_num) (by norm_num) (by norm_num)
      (by norm_num) (by norm_num),
      arredondar_eq _ (-51) 6980579422424269 (by norm_num) (by norm_num) (by norm_num)
        (by norm_num) (by norm_num)]
  · rw [arredondar_eq _ (-50) 4616189618054758 (by norm_num) (by norm_num) (by norm_num)
      (by norm_num) (by norm_num),
      arredondar_eq _ (-50) 4616189618054758 (by norm_num) (by norm_num) (by norm_num)
        (by norm_num) (by norm_num)]
  · rw [arredondar_eq _ (-50) 5742089524897382 (by norm_num) (by norm_num) (by norm_num)
      (by norm_num) (by norm_num),
      arredondar_eq _ (-50) 5742089524897382 (by norm_num) (by norm_num) (by norm_num)
        (by norm_num) (by norm_num)]
  · rw [arredondar_eq _ (-50) 6867989431740006 (by norm_num) (by norm_num) (by norm_num)
      (by norm_num) (by norm_num),
      arredondar_eq _ (-50) 6867989431740006 (by norm_num) (by norm_num) (by norm_num)
        (by norm_num) (by norm_num)]
  · rw [arredondar_eq _ (-50) 7993889338582630 (by norm_num) (by norm_num) (by norm_num)
      (by norm_num) (by norm_num),
      arredondar_eq _ (-50) 7993889338582630 (by norm_num) (by norm_num) (by norm_num)
        (by norm_num) (by norm_num)]
  · rw [arredondar_eq _ (-49) 4559894622712627 (by norm_num) (by norm_num) (by norm_num)
      (by norm_num) (by norm_num),
      arredondar_eq _ (-49) 4559894622712627 (by norm_num) (by norm_num) (by norm_num)
        (by norm_num) (by norm_num)]
  · rw [arredondar_eq _ (-49) 5122844576133939 (by norm_num) (by norm_num) (by norm_num)
      (by norm_num) (by norm_num),
      arredondar_eq _ (-49) 5122844576133939 (by norm_num) (by norm_num) (by norm_num)
        (by norm_num) (by norm_num)]
  · rw [arredondar_eq _ (-49) 5685794529555251 (by norm_num) (by norm_num) (by norm_num)
      (by norm_num) (by norm_num),
      arredondar_eq _ (-49) 5685794529555251 (by norm_num) (by norm_num) (by norm_num)
        (by norm_num) (by norm_num)]

theorem quantidade_decimos_2 (n : Nat) (h1 : 1 ≤ n) (h2 : n ≤ 10) :
    arredondar ((n : ℚ) + arredondar ((2 : ℚ) / 10))
      = arredondar ((n : ℚ) + (2 : ℚ) / 10) := by
  rw [arredondar_eq ((2 : ℚ) / 10) (-55) 7205759403792794 (by norm_num) (by norm_num) (by norm_num)
    (by norm_num) (by norm_num)]
  interval_cases n
  · rw [arredondar_eq _ (-52) 5404319552844595 (by norm_num) (by norm_num) (by norm_num)
      (by norm_num) (by norm_num),
      arredondar_eq _ (-52) 5404319552844595 (by norm_num) (by norm_num) (by norm_num)
        (by norm_num) (by norm_num)]
  · rw [arredondar_eq _ (-51) 4953959590107546 (by norm_num) (by norm_num) (by norm_num)
      (by norm_num) (by norm_num),
      arredondar_eq _ (-51) 4953959590107546 (by norm_num) (by norm_num) (by norm_num)
        (by norm_num) (by norm_num)]
  · rw [arredondar_eq _ (-51) 7205759403792794 (by norm_num) (by norm_num) (by norm_num)
      (by norm_num) (by norm_num),
      arredondar_eq _ (-51) 7205759403792794 (by norm_num) (by norm_num) (by norm_num)
        (by norm_num) (by norm_num)]
  · rw [arredondar_eq _ (-50) 4728779608739021 (by norm_num) (by norm_num) (by norm_num)
      (by norm_num) (by norm_num),
      arredondar_eq _ (-50) 4728779608739021 (by norm_num) (by norm_num) (by norm_num)
        (by norm_num) (by norm_num)]
  · rw [arredondar_eq _ (-50) 5854679515581645 (by norm_num) (by norm_num) (by norm_num)
      (by norm_num) (by norm_num),
      arredondar_eq _ (-50) 5854679515581645 (by norm_num) (by norm_num) (by norm_num)
        (by norm_num) (by norm_num)]
  · rw [arredondar_eq _ (-50) 6980579422424269 (by norm_num) (by norm_num) (by norm_num)
      (by norm_num) (by norm_num),
      arredondar_eq _ (-50) 6980579422424269 (by norm_num) (by norm_num) (by norm_num)
        (by norm_num) (by norm_num)]
  · rw [arredondar_eq _ (-50) 8106479329266893 (by norm_num) (by norm_num) (by norm_num)
      (by norm_num) (by norm_num),
      arredondar_eq _ (-50) 8106479329266893 (by norm_num) (by norm_num) (by norm_num)
        (by norm_num) (by norm_num)]
  · rw [arredondar_eq _ (-49) 4616189618054758 (by norm_num) (by norm_num) (by norm_num)
      (by norm_num) (by norm_num),
      arredondar_eq _ (-49) 4616189618054758 (by norm_num) (by norm_num) (by norm_num)
        (by norm_num) (by norm_num)]
  · rw [arredondar_eq _ (-49) 5179139571476070 (by norm_num) (by norm_num) (by norm_num)
      (by norm_num) (by norm_num),
      arredondar_eq _ (-49) 5179139571476070 (by norm_num) (by norm_num) (by norm_num)
        (by norm_num) (by norm_num)]
  · rw [arredondar_eq _ (-49) 5742089524897382 (by norm_num) (by norm_num) (by norm_num)
      (by norm_num) (by norm_num),
      arredondar_eq _ (-49) 5742089524897382 (by norm_num) (by norm_num) (by norm_num)
        (by norm_num) (by norm_num)]

theorem quantidade_decimos_3 (n : Nat) (h1 : 1 ≤ n) (h2 : n ≤ 10) :
    arredondar ((n : ℚ) + arredondar ((3 : ℚ) / 10))
      = arredondar ((n : ℚ) + (3 : ℚ) / 10) := by
  rw [arredondar_eq ((3 : ℚ) / 10) (-54) 5404319552844595 (by norm_num) (by norm_num) (by norm_num)
    (by norm_num) (by norm_num)]
  interval_cases n
  · rw [arredondar_eq _ (-52) 5854679515581645 (by norm_num) (by norm_num) (by norm_num)
      (by norm_num) (by norm_num),
      arredondar_eq _ (-52) 5854679515581645 (by norm_num) (by norm_num) (by norm_num)
        (by norm_num) (by norm_num)]
  · rw [arredondar_eq _ (-51) 5179139571476070 (by norm_num) (by norm_num) (by norm_num)
      (by norm_num) (by norm_num),
      arredondar_eq _ (-51) 5179139571476070 (by norm_num) (by norm_num) (by norm_num)
        (by norm_num) (by norm_num)]
  · rw [arredondar_eq _ (-51) 7430939385161318 (by norm_num) (by norm_num) (by norm_num)
      (by norm_num) (by norm_num),
      arredondar_eq _ (-51) 7430939385161318 (by norm_num) (by norm_num) (by norm_num)
        (by norm_num) (by norm_num)]
  · rw [arredondar_eq _ (-50) 4841369599423283 (by norm_num) (by norm_num) (by norm_num)
      (by norm_num) (by norm_num),
      arredondar_eq _ (-50) 4841369599423283 (by norm_num) (by norm_num) (by norm_num)
        (by norm_num) (by norm_num)]
  · rw [arredondar_eq _ (-50) 5967269506265907 (by norm_num) (by norm_num) (by norm_num)
      (by norm_num) (by norm_num),
      arredondar_eq _ (-50) 5967269506265907 (by norm_num) (by norm_num) (by norm_num)
        (by norm_num) (by norm_num)]
  · rw [arredondar_eq _ (-50) 7093169413108531 (by norm_num) (by norm_num) (by norm_num)
      (by norm_num) (by norm_num),
      arredondar_eq _ (-50) 7093169413108531 (by norm_num) (by norm_num) (by norm_num)
        (by norm_num) (by norm_num)]
  · rw [arredondar_eq _ (-50) 8219069319951155 (by norm_num) (by norm_num) (by norm_num)
      (by norm_num) (by norm_num),
      arredondar_eq _ (-50) 8219069319951155 (by norm_num) (by norm_num) (by norm_num)
        (by norm_num) (by norm_num)]
  · rw [arredondar_eq _ (-49) 4672484613396890 (by norm_num) (by norm_num) (by norm_num)
      (by norm_num) (by norm_num),
      arredondar_eq _ (-49) 4672484613396890 (by norm_num) (by norm_num) (by norm_num)
        (by norm_num) (by norm_num)]
  · rw [arredondar_eq _ (-49) 5235434566818202 (by norm_num) (by norm_num) (by norm_num)
      (by norm_num) (by norm_num),
      arredondar_eq _ (-49) 5235434566818202 (by norm_num) (by norm_num) (by norm_num)
        (by norm_num) (by norm_num)]
  · rw [arredondar_eq _ (-49) 5798384520239514 (by norm_num) (by norm_num) (by norm_num)
      (by norm_num) (by norm_num),
      arredondar_eq _ (-49) 5798384520239514 (by norm_num) (by norm_num) (by norm_num)
        (by norm_num) (by norm_num)]

theorem quantidade_decimos_4 (n : Nat) (h1 : 1 ≤ n) (h2 : n ≤ 10) :
    arredondar ((n : ℚ) + arredondar ((4 : ℚ) / 10))
      = arredondar ((n : ℚ) + (4 : ℚ) / 10) := by
  rw [arredondar_eq ((4 : ℚ) / 10) (-54) 7205759403792794 (by norm_num) (by norm_num) (by norm_num)
    (by norm_num) (by norm_num)]
  interval_cases n
  · rw [arredondar_eq _ (-52) 6305039478318694 (by norm_num) (by norm_num) (by norm_num)
      (by norm_num) (by norm_num),
      arredondar_eq _ (-52) 6305039478318694 (by norm_num) (by norm_num) (by norm_num)
        (by norm_num) (by norm_num)]
  · rw [arredondar_eq _ (-51) 5404319552844595 (by norm_num) (by norm_num) (by norm_num)
      (by norm_num) (by norm_num),
      arredondar_eq _ (-51) 5404319552844595 (by norm_num) (by norm_num) (by norm_num)
        (by norm_num) (by norm_num)]
  · rw [arredondar_eq _ (-51) 7656119366529843 (by norm_num) (by norm_num) (by norm_num)
      (by norm_num) (by norm_num),
      arredondar_eq _ (-51) 7656119366529843 (by norm_num) (by norm_num) (by norm_num)
        (by norm_num) (by norm_num)]
  · rw [arredondar_eq _ (-50) 4953959590107546 (by norm_num) (by norm_num) (by norm_num)
      (by norm_num) (by norm_num),
      arredondar_eq _ (-50) 4953959590107546 (by norm_num) (by norm_num) (by norm_num)
        (by norm_num) (by norm_num)]
  · rw [arredondar_eq _ (-50) 6079859496950170 (by norm_num) (by norm_num) (by norm_num)
      (by norm_num) (by norm_num),
      arredondar_eq _ (-50) 6079859496950170 (by norm_num) (by norm_num) (by norm_num)
        (by norm_num) (by norm_num)]
  · rw [arredondar_eq _ (-50) 7205759403792794 (by norm_num) (by norm_num) (by norm_num)
      (by norm_num) (by norm_num),
      arredondar_eq _ (-50) 7205759403792794 (by norm_num) (by norm_num) (by norm_num)
        (by norm_num) (by norm_num)]
  · rw [arredondar_eq _ (-50) 8331659310635418 (by norm_num) (by norm_num) (by norm_num)
      (by norm_num) (by norm_num),
      arredondar_eq _ (-50) 8331659310635418 (by norm_num) (by norm_num) (by norm_num)
        (by norm_num) (by norm_num)]
  · rw [arredondar_eq _ (-49) 4728779608739021 (by norm_num) (by norm_num) (by norm_num)
      (by norm_num) (by norm_num),
      arredondar_eq _ (-49) 4728779608739021 (by norm_num) (by norm_num) (by norm_num)
        (by norm_num) (by norm_num)]
  · rw [arredondar_eq _ (-49) 5291729562160333 (by norm_num) (by norm_num) (by norm_num)
      (by norm_num) (by norm_num),
      arredondar_eq _ (-49) 5291729562160333 (by norm_num) (by norm_num) (by norm_num)
        (by norm_num) (by norm_num)]
  · rw [arredondar_eq _ (-49) 5854679515581645 (by norm_num) (by norm_num) (by norm_num)
      (by norm_num) (by norm_num),
      arredondar_eq _ (-49) 5854679515581645 (by norm_num) (by norm_num) (by norm_num)
        (by norm_num) (by norm_num)]

theorem quantidade_decimos_5 (n : Nat) (h1 : 1 ≤ n) (h2 : n ≤ 10) :
    arredondar ((n : ℚ) + arredondar ((5 : ℚ) / 10))
      = arredondar ((n : ℚ) + (5 : ℚ) / 10) := by
  rw [arredondar_eq ((5 : ℚ) / 10) (-53) 4503599627370496 (by norm_num) (by norm_num) (by norm_num)
    (by norm_num) (by norm_num)]
  interval_cases n
  · rw [arredondar_eq _ (-52) 6755399441055744 (by norm_num) (by norm_num) (by norm_num)
      (by norm_num) (by norm_num),
      arredondar_eq _ (-52) 6755399441055744 (by norm_num) (by norm_num) (by norm_num)
        (by norm_num) (by norm_num)]
  · rw [arredondar_eq _ (-51) 5629499534213120 (by norm_num) (by norm_num) (by norm_num)
      (by norm_num) (by norm_num),
      arredondar_eq _ (-51) 5629499534213120 (by norm_num) (by norm_num) (by norm_num)
        (by norm_num) (by norm_num)]
  · rw [arredondar_eq _ (-51) 7881299347898368 (by norm_num) (by norm_num) (by norm_num)
      (by norm_num) (by norm_num),
      arredondar_eq _ (-51) 7881299347898368 (by norm_num) (by norm_num) (by norm_num)
        (by norm_num) (by norm_num)]
  · rw [arredondar_eq _ (-50) 5066549580791808 (by norm_num) (by norm_num) (by norm_num)
      (by norm_num) (by norm_num),
      arredondar_eq _ (-50) 5066549580791808 (by norm_num) (by norm_num) (by norm_num)
        (by norm_num) (by norm_num)]
  · rw [arredondar_eq _ (-50) 6192449487634432 (by norm_num) (by norm_num) (by norm_num)
      (by norm_num) (by norm_num),
      arredondar_eq _ (-50) 6192449487634432 (by norm_num) (by norm_num) (by norm_num)
        (by norm_num) (by norm_num)]
  · rw [arredondar_eq _ (-50) 7318349394477056 (by norm_num) (by norm_num) (by norm_num)
      (by norm_num) (by norm_num),
      arredondar_eq _ (-50) 7318349394477056 (by norm_num) (by norm_num) (by norm_num)
        (by norm_num) (by norm_num)]
  · rw [arredondar_eq _ (-50) 8444249301319680 (by norm_num) (by norm_num) (by norm_num)
      (by norm_num) (by norm_num),
      arredondar_eq _ (-50) 8444249301319680 (by norm_num) (by norm_num) (by norm_num)
        (by norm_num) (by norm_num)]
  · rw [arredondar_eq _ (-49) 4785074604081152 (by norm_num) (by norm_num) (by norm_num)
      (by norm_num) (by norm_num),
      arredondar_eq _ (-49) 4785074604081152 (by norm_num) (by norm_num) (by norm_num)
        (by norm_num) (by norm_num)]
  · rw [arredondar_eq _ (-49) 5348024557502464 (by norm_num) (by norm_num) (by norm_num)
      (by norm_num) (by norm_num),
      arredondar_eq _ (-49) 5348024557502464 (by norm_num) (by norm_num) (by norm_num)
        (by norm_num) (by norm_num)]
  · rw [arredondar_eq _ (-49) 5910974510923776 (by norm_num) (by norm_num) (by norm_num)
      (by norm_num) (by norm_num),
      arredondar_eq _ (-49) 5910974510923776 (by norm_num) (by norm_num) (by norm_num)
        (by norm_num) (by norm_num)]

theorem quantidade_decimos_6 (n : Nat) (h1 : 1 ≤ n) (h2 : n ≤ 10) :
    arredondar ((n : ℚ) + arredondar ((6 : ℚ) / 10))
      = arredondar ((n : ℚ) + (6 : ℚ) / 10) := by
  rw [arredondar_eq ((6 : ℚ) / 10) (-53) 5404319552844595 (by norm_num) (by norm_num) (by norm_num)
    (by norm_num) (by norm_num)]
  interval_cases n
  · rw [arredondar_eq _ (-52) 7205759403792794 (by norm_num) (by norm_num) (by norm_num)
      (by norm_num) (by norm_num),
      arredondar_eq _ (-52) 7205759403792794 (by norm_num) (by norm_num) (by norm_num)
        (by norm_num) (by norm_num)]
  · rw [arredondar_eq _ (-51) 5854679515581645 (by norm_num) (by norm_num) (by norm_num)
      (by norm_num) (by norm_num),
      arredondar_eq _ (-51) 5854679515581645 (by norm_num) (by norm_num) (by norm_num)
        (by norm_num) (by norm_num)]
  · rw [arredondar_eq _ (-51) 8106479329266893 (by norm_num) (by norm_num) (by norm_num)
      (by norm_num) (by norm_num),
      arredondar_eq _ (-51) 8106479329266893 (by norm_num) (by norm_num) (by norm_num)
        (by norm_num) (by norm_num)]
  · rw [arredondar_eq _ (-50) 5179139571476070 (by norm_num) (by norm_num) (by norm_num)
      (by norm_num) (by norm_num),
      arredondar_eq _ (-50) 5179139571476070 (by norm_num) (by norm_num) (by norm_num)
        (by norm_num) (by norm_num)]
  · rw [arredondar_eq _ (-50) 6305039478318694 (by norm_num) (by norm_num) (by norm_num)
      (by norm_num) (by norm_num),
      arredondar_eq _ (-50) 6305039478318694 (by norm_num) (by norm_num) (by norm_num)
        (by norm_num) (by norm_num)]
  · rw [arredondar_eq _ (-50) 7430939385161318 (by norm_num) (by norm_num) (by norm_num)
      (by norm_num) (by norm_num),
      arredondar_eq _ (-50) 7430939385161318 (by norm_num) (by norm_num) (by norm_num)
        (by norm_num) (by norm_num)]
  · rw [arredondar_eq _ (-50) 8556839292003942 (by norm_num) (by norm_num) (by norm_num)
      (by norm_num) (by norm_num),
      arredondar_eq _ (-50) 8556839292003942 (by norm_num) (by norm_num) (by norm_num)
        (by norm_num) (by norm_num)]
  · rw [arredondar_eq _ (-49) 4841369599423283 (by norm_num) (by norm_num) (by norm_num)
      (by norm_num) (by norm_num),
      arredondar_eq _ (-49) 4841369599423283 (by norm_num) (by norm_num) (by norm_num)
        (by norm_num) (by norm_num)]
  · rw [arredondar_eq _ (-49) 5404319552844595 (by norm_num) (by norm_num) (by norm_num)
      (by norm_num) (by norm_num),
      arredondar_eq _ (-49) 5404319552844595 (by norm_num) (by norm_num) (by norm_num)
        (by norm_num) (by norm_num)]
  · rw [arredondar_eq _ (-49) 5967269506265907 (by norm_num) (by norm_num) (by norm_num)
      (by norm_num) (by norm_num),
      arredondar_eq _ (-49) 5967269506265907 (by norm_num) (by norm_num) (by norm_num)
        (by norm_num) (by norm_num)]

theorem quantidade_decimos_7 (n : Nat) (h1 : 1 ≤ n) (h2 : n ≤ 10) :
    arredondar ((n : ℚ) + arredondar ((7 : ℚ) / 10))
      = arredondar ((n : ℚ) + (7 : ℚ) / 10) := by
  rw [arredondar_eq ((7 : ℚ) / 10) (-53) 6305039478318694 (by norm_num) (by norm_num) (by norm_num)
    (by norm_num) (by norm_num)]
  interval_cases n
  · rw [arredondar_eq _ (-52) 7656119366529843 (by norm_num) (by norm_num) (by norm_num)
      (by norm_num) (by norm_num),
      arredondar_eq _ (-52) 7656119366529843 (by norm_num) (by norm_num) (by norm_num)
        (by norm_num) (by norm_num)]
  · rw [arredondar_eq _ (-51) 6079859496950170 (by norm_num) (by norm_num) (by norm_num)
      (by norm_num) (by norm_num),
      arredondar_eq _ (-51) 6079859496950170 (by norm_num) (by norm_num) (by norm_num)
        (by norm_num) (by norm_num)]
  · rw [arredondar_eq _ (-51) 8331659310635418 (by norm_num) (by norm_num) (by norm_num)
      (by norm_num) (by norm_num),
      arredondar_eq _ (-51) 8331659310635418 (by norm_num) (by norm_num) (by norm_num)
        (by norm_num) (by norm_num)]
  · rw [arredondar_eq _ (-50) 5291729562160333 (by norm_num) (by norm_num) (by norm_num)
      (by norm_num) (by norm_num),
      arredondar_eq _ (-50) 5291729562160333 (by norm_num) (by norm_num) (by norm_num)
        (by norm_num) (by norm_num)]
  · rw [arredondar_eq _ (-50) 6417629469002957 (by norm_num) (by norm_num) (by norm_num)
      (by norm_num) (by norm_num),
      arredondar_eq _ (-50) 6417629469002957 (by norm_num) (by norm_num) (by norm_num)
        (by norm_num) (by norm_num)]
  · rw [arredondar_eq _ (-50) 7543529375845581 (by norm_num) (by norm_num) (by norm_num)
      (by norm_num) (by norm_num),
      arredondar_eq _ (-50) 7543529375845581 (by norm_num) (by norm_num) (by norm_num)
        (by norm_num) (by norm_num)]
  · rw [arredondar_eq _ (-50) 8669429282688205 (by norm_num) (by norm_num) (by norm_num)
      (by norm_num) (by norm_num),
      arredondar_eq _ (-50) 8669429282688205 (by norm_num) (by norm_num) (by norm_num)
        (by norm_num) (by norm_num)]
  · rw [arredondar_eq _ (-49) 4897664594765414 (by norm_num) (by norm_num) (by norm_num)
      (by norm_num) (by norm_num),
      arredondar_eq _ (-49) 4897664594765414 (by norm_num) (by norm_num) (by norm_num)
        (by norm_num) (by norm_num)]
  · rw [arredondar_eq _ (-49) 5460614548186726 (by norm_num) (by norm_num) (by norm_num)
      (by norm_num) (by norm_num),
      arredondar_eq _ (-49) 5460614548186726 (by norm_num) (by norm_num) (by norm_num)
        (by norm_num) (by norm_num)]
  · rw [arredondar_eq _ (-49) 6023564501608038 (by norm_num) (by norm_num) (by norm_num)
      (by norm_num) (by norm_num),
      arredondar_eq _ (-49) 6023564501608038 (by norm_num) (by norm_num) (by norm_num)
        (by norm_num) (by norm_num)]

theorem quantidade_decimos_8 (n : Nat) (h1 : 1 ≤ n) (h2 : n ≤ 10) :
    arredondar ((n : ℚ) + arredondar ((8 : ℚ) / 10))
      = arredondar ((n : ℚ) + (8 : ℚ) / 10) := by
  rw [arredondar_eq ((8 : ℚ) / 10) (-53) 7205759403792794 (by norm_num) (by norm_num) (by norm_num)
    (by norm_num) (by norm_num)]
  interval_cases n
  · rw [arredondar_eq _ (-52) 8106479329266893 (by norm_num) (by norm_num) (by norm_num)
      (by norm_num) (by norm_num),
      arredondar_eq _ (-52) 8106479329266893 (by norm_num) (by norm_num) (by norm_num)
        (by norm_num) (by norm_num)]
  · rw [arredondar_eq _ (-51) 6305039478318694 (by norm_num) (by norm_num) (by norm_num)
      (by norm_num) (by norm_num),
      arredondar_eq _ (-51) 6305039478318694 (by norm_num) (by norm_num) (by norm_num)
        (by norm_num) (by norm_num)]
  · rw [arredondar_eq _ (-51) 8556839292003942 (by norm_num) (by norm_num) (by norm_num)
      (by norm_num) (by norm_num),
      arredondar_eq _ (-51) 8556839292003942 (by norm_num) (by norm_num) (by norm_num)
        (by norm_num) (by norm_num)]
  · rw [arredondar_eq _ (-50) 5404319552844595 (by norm_num) (by norm_num) (by norm_num)
      (by norm_num) (by norm_num),
      arredondar_eq _ (-50) 5404319552844595 (by norm_num) (by norm_num) (by norm_num)
        (by norm_num) (by norm_num)]
  · rw [arredondar_eq _ (-50) 6530219459687219 (by norm_num) (by norm_num) (by norm_num)
      (by norm_num) (by norm_num),
      arredondar_eq _ (-50) 6530219459687219 (by norm_num) (by norm_num) (by norm_num)
        (by norm_num) (by norm_num)]
  · rw [arredondar_eq _ (-50) 7656119366529843 (by norm_num) (by norm_num) (by norm_num)
      (by norm_num) (by norm_num),
      arredondar_eq _ (-50) 7656119366529843 (by norm_num) (by norm_num) (by norm_num)
        (by norm_num) (by norm_num)]
  · rw [arredondar_eq _ (-50) 8782019273372467 (by norm_num) (by norm_num) (by norm_num)
      (by norm_num) (by norm_num),
      arredondar_eq _ (-50) 8782019273372467 (by norm_num) (by norm_num) (by norm_num)
        (by norm_num) (by norm_num)]
  · rw [arredondar_eq _ (-49) 4953959590107546 (by norm_num) (by norm_num) (by norm_num)
      (by norm_num) (by norm_num),
      arredondar_eq _ (-49) 4953959590107546 (by norm_num) (by norm_num) (by norm_num)
        (by norm_num) (by norm_num)]
  · rw [arredondar_eq _ (-49) 5516909543528858 (by norm_num) (by norm_num) (by norm_num)
      (by norm_num) (by norm_num),
      arredondar_eq _ (-49) 5516909543528858 (by norm_num) (by norm_num) (by norm_num)
        (by norm_num) (by norm_num)]
  · rw [arredondar_eq _ (-49) 6079859496950170 (by norm_num) (by norm_num) (by norm_num)
      (by norm_num) (by norm_num),
      arredondar_eq _ (-49) 6079859496950170 (by norm_num) (by norm_num) (by norm_num)
        (by norm_num) (by norm_num)]

theorem quantidade_decimos_9 (n : Nat) (h1 : 1 ≤ n) (h2 : n ≤ 10) :
    arredondar ((n : ℚ) + arredondar ((9 : ℚ) / 10))
      = arredondar ((n : ℚ) + (9 : ℚ) / 10) := by
  rw [arredondar_eq ((9 : ℚ) / 10) (-53) 8106479329266893 (by norm_num) (by norm_num) (by norm_num)
    (by norm_num) (by norm_num)]
  interval_cases n
  · rw [arredondar_eq _ (-52) 8556839292003942 (by norm_num) (by norm_num) (by norm_num)
      (by norm_num) (by norm_num),
      arredondar_eq _ (-52) 8556839292003942 (by norm_num) (by norm_num) (by norm_num)
        (by norm_num) (by norm_num)]
  · rw [arredondar_eq _ (-51) 6530219459687219 (by norm_num) (by norm_num) (by norm_num)
      (by norm_num) (by norm_num),
      arredondar_eq _ (-51) 6530219459687219 (by norm_num) (by norm_num) (by norm_num)
        (by norm_num) (by norm_num)]
  · rw [arredondar_eq _ (-51) 8782019273372467 (by norm_num) (by norm_num) (by norm_num)
      (by norm_num) (by norm_num),
      arredondar_eq _ (-51) 8782019273372467 (by norm_num) (by norm_num) (by norm_num)
        (by norm_num) (by norm_num)]
  · rw [arredondar_eq _ (-50) 5516909543528858 (by norm_num) (by norm_num) (by norm_num)
      (by norm_num) (by norm_num),
      arredondar_eq _ (-50) 5516909543528858 (by norm_num) (by norm_num) (by norm_num)
        (by norm_num) (by norm_num)]
  · rw [arredondar_eq _ (-50) 6642809450371482 (by norm_num) (by norm_num) (by norm_num)
      (by norm_num) (by norm_num),
      arredondar_eq _ (-50) 6642809450371482 (by norm_num) (by norm_num) (by norm_num)
        (by norm_num) (by norm_num)]
  · rw [arredondar_eq _ (-50) 7768709357214106 (by norm_num) (by norm_num) (by norm_num)
      (by norm_num) (by norm_num),
      arredondar_eq _ (-50) 7768709357214106 (by norm_num) (by norm_num) (by norm_num)
        (by norm_num) (by norm_num)]
  · rw [arredondar_eq _ (-50) 8894609264056730 (by norm_num) (by norm_num) (by norm_num)
      (by norm_num) (by norm_num),
      arredondar_eq _ (-50) 8894609264056730 (by norm_num) (by norm_num) (by norm_num)
        (by norm_num) (by norm_num)]
  · rw [arredondar_eq _ (-49) 5010254585449677 (by norm_num) (by norm_num) (by norm_num)
      (by norm_num) (by norm_num),
      arredondar_eq _ (-49) 5010254585449677 (by norm_num) (by norm_num) (by norm_num)
        (by norm_num) (by norm_num)]
  · rw [arredondar_eq _ (-49) 5573204538870989 (by norm_num) (by norm_num) (by norm_num)
      (by norm_num) (by norm_num),
      arredondar_eq _ (-49) 5573204538870989 (by norm_num) (by norm_num) (by norm_num)
        (by norm_num) (by norm_num)]
  · rw [arredondar_eq _ (-49) 6136154492292301 (by norm_num) (by norm_num) (by norm_num)
      (by norm_num) (by norm_num),
      arredondar_eq _ (-49) 6136154492292301 (by norm_num) (by norm_num) (by norm_num)
        (by norm_num) (by norm_num)]

/-- The quantity of a line sold by fraction is kept as the decimal `n + k / 10`: the
float64 the source computes, the float64 sum of `n` and the float64 quotient `k / 10`, is
the float64 nearest to that decimal, for every `n` of `[1, 10]` and every `k` of `[0, 9]`. -/
theorem quantidade_float64 (n k : Nat) (h1 : 1 ≤ n) (h2 : n ≤ 10) (hk : k ≤ 9) :
    fadd (n : ℚ) (fdiv (k : ℚ) 10) = arredondar ((n : ℚ) + (k : ℚ) / 10) := by
  have e1 : arredondar (n : ℚ) = n := arredondar_natCast n (by omega)
  have e2 : arredondar (k : ℚ) = k := arredondar_natCast k (by omega)
  have e3 : arredondar (10 : ℚ) = 10 := arredondar_ofNat 10 (by norm_num)
  unfold fadd fdiv
  rw [arredondar_idem, e1, e2, e3]
  interval_cases k
  · norm_num [arredondar_zero]
  · exact quantidade_decimos_1 n h1 h2
  · exact quantidade_decimos_2 n h1 h2
  · exact quantidade_decimos_3 n h1 h2
  · exact quantidade_decimos_4 n h1 h2
  · exact quantidade_decimos_5 n h1 h2
  · exact quantidade_decimos_6 n h1 h2
  · exact quantidade_decimos_7 n h1 h2
  · exact quantidade_decimos_8 n h1 h2
  · exact quantidade_decimos_9 n h1 h2

/-! ## The prices of a generated product -/

/-- The bounds of the prices of a generated product: the cost is at least 5.00, the sale
price at least 6.00, and a promotion price is the truncation to cents of the float64
product of the sale price by 0.7, at least 4.19 and below the sale price. -/
theorem gerarProduto_limites (cfg : Config) (i : Nat) (r r1 : Rand) (d : ProdutoDoc)
    (h : gerarProduto cfg i r = some (d, r1)) :
    5 ≤ d.VlrCusto ∧ 6 ≤ d.VlrVenda ∧
    ∀ w, d.VlrPromocao = some w →
      w = duasCasas (fmul d.VlrVenda (7 / 10)) ∧ 419 / 100 ≤ w ∧ w < d.VlrVenda := by
  obtain ⟨-, -, ⟨u, v, hu0, -, hv0, -, hc, hvd, -⟩, hpromo⟩ :=
    gerarProduto_spec cfg i r r1 d h
  have c2 : arredondar ((6 : ℚ) / 5) = (5404319552844595 : ℚ) / 4503599627370496 := by
    rw [arredondar_eq _ (-52) 5404319552844595 (by norm_num) (by norm_num) (by norm_num)
      (by norm_num) (by norm_num)]
    norm_num
  have c3 :
      arredondar ((5404319552844595 : ℚ) / 4503599627370496)
        = (5404319552844595 : ℚ) / 4503599627370496 := by
    rw [arredondar_eq _ (-52) 5404319552844595 (by norm_num) (by norm_num) (by norm_num)
      (by norm_num) (by norm_num)]
    norm_num
  have c4 : arredondar ((27021597764222975 : ℚ) / 4503599627370496) = (6 : ℚ) := by
    rw [arredondar_eq _ (-50) 6755399441055744 (by norm_num) (by norm_num) (by norm_num)
      (by norm_num) (by norm_num)]
    norm_num
  have c6 : arredondar ((7 : ℚ) / 10) = (3152519739159347 : ℚ) / 4503599627370496 := by
    rw [arredondar_eq _ (-53) 6305039478318694 (by norm_num) (by norm_num) (by norm_num)
      (by norm_num) (by norm_num)]
    norm_num
  have c7 :
      arredondar ((9457559217478041 : ℚ) / 2251799813685248)
        = (1182194902184755 : ℚ) / 281474976710656 := by
    rw [arredondar_eq _ (-50) 4728779608739020 (by norm_num) (by norm_num) (by norm_num)
      (by norm_num) (by norm_num)]
    norm_num
  have c8 :
      arredondar ((1182194902184755 : ℚ) / 281474976710656)
        = (1182194902184755 : ℚ) / 281474976710656 := by
    rw [arredondar_eq _ (-50) 4728779608739020 (by norm_num) (by norm_num) (by norm_num)
      (by norm_num) (by norm_num)]
    norm_num
  have c9 :
      arredondar ((29554872554618875 : ℚ) / 70368744177664)
        = (7388718138654719 : ℚ) / 17592186044416 := by
    rw [arredondar_eq _ (-44) 7388718138654719 (by norm_num) (by norm_num) (by norm_num)
      (by norm_num) (by norm_num)]
    norm_num
  -- the cost
  have hbruto : (5 : ℚ) ≤ fadd 5 (fmul u 95) := by
    have h1 := fadd_mono 5 0 5 (fmul u 95) (le_refl _) (fmul_nonneg u 95 hu0 (by norm_num))
    have h2 : fadd 5 0 = 5 := by norm_num [fadd, arredondar_zero, arredondar_ofNat]
    rw [h2] at h1
    exact h1
  have hcusto : 5 ≤ d.VlrCusto := by
    rw [hc]
    have h1 := duasCasas_mono 5 _ (by norm_num) hbruto
    have h2 : duasCasas 5 = 5 := by
      have := duasCasas_inteiro 5 (by norm_num)
      simpa using this
    rw [h2] at h1
    exact h1
  -- the margin
  have hmargem : (5404319552844595 : ℚ) / 4503599627370496
      ≤ fadd (12 / 10) (fmul v (8 / 10)) := by
    have h1 := fadd_mono (12 / 10) 0 (12 / 10) (fmul v (8 / 10)) (le_refl _)
      (fmul_nonneg v (8 / 10) hv0 (by norm_num))
    have h2 : fadd (12 / 10) 0 = (5404319552844595 : ℚ) / 4503599627370496 := by
      norm_num [fadd, arredondar_zero, c2, c3]
    rw [h2] at h1
    exact h1
  -- the sale price
  have hvenda : 6 ≤ d.VlrVenda := by
    rw [hvd]
    have h1 := fmul_mono 5 ((5404319552844595 : ℚ) / 4503599627370496) d.VlrCusto
      (fadd (12 / 10) (fmul v (8 / 10))) (by norm_num) (by norm_num) hcusto hmargem
    have h2 : fmul 5 ((5404319552844595 : ℚ) / 4503599627370496) = 6 := by
      norm_num [fmul, arredondar_ofNat, c3, c4]
    rw [h2] at h1
    have h3 := duasCasas_mono 6 _ (by norm_num) h1
    have h4 : duasCasas 6 = 6 := by
      have := duasCasas_inteiro 6 (by norm_num)
      simpa using this
    rw [h4] at h3
    exact h3
  refine ⟨hcusto, hvenda, ?_⟩
  intro w hw
  have hwd : w = duasCasas (fmul d.VlrVenda (7 / 10)) := by
    rcases hpromo with ⟨-, hn⟩ | ⟨-, hs⟩
    · rw [hn] at hw
      exact absurd hw (by simp)
    · rw [hs] at hw
      exact (Option.some.inj hw).symm
  have hpos : (0 : ℚ) < d.VlrVenda := by linarith
  refine ⟨hwd, ?_, ?_⟩
  · -- the promotion price is at least that of the lowest sale price
    rw [hwd]
    have h1 := fmul_mono 6 (7 / 10) d.VlrVenda (7 / 10) (by norm_num) (by norm_num) hvenda
      (le_refl _)
    have h2 : fmul 6 (7 / 10) = (1182194902184755 : ℚ) / 281474976710656 := by
      norm_num [fmul, arredondar_ofNat, c6, c7]
    rw [h2] at h1
    have h3 := duasCasas_mono _ _ (by norm_num) h1
    have h4 : duasCasas ((1182194902184755 : ℚ) / 281474976710656) = 419 / 100 := by
      norm_num [duasCasas, fmul, truncar, arredondar_ofNat, c8, c9]
    rw [h4] at h3
    exact h3
  · -- the promotion price is below the sale price
    rw [hwd]
    have hz0 : 0 ≤ fmul d.VlrVenda (7 / 10) := fmul_nonneg _ _ hpos.le (by norm_num)
    have h1 := duasCasas_le _ hz0
    have hA : arredondar d.VlrVenda ≤ d.VlrVenda * (1001 / 1000) :=
      arredondar_le_mul _ hpos
    have hA0 : 0 ≤ arredondar d.VlrVenda := arredondar_nonneg _ hpos.le
    have hz : fmul d.VlrVenda (7 / 10)
        ≤ arredondar d.VlrVenda * ((3152519739159347 : ℚ) / 4503599627370496)
          * (1001 / 1000) := by
      unfold fmul
      rw [c6]
      exact arredondar_le_mul_nonneg _ (mul_nonneg hA0 (by norm_num))
    have hw2 : fmul (fmul d.VlrVenda (7 / 10)) 100
        ≤ fmul d.VlrVenda (7 / 10) * 100 * (1001 / 1000) := by
      have e1 : arredondar (fmul d.VlrVenda (7 / 10)) = fmul d.VlrVenda (7 / 10) := by
        unfold fmul
        exact arredondar_idem _
      have e2 : arredondar (100 : ℚ) = 100 := arredondar_ofNat 100 (by norm_num)
      have e3 : fmul (fmul d.VlrVenda (7 / 10)) 100
          = arredondar (fmul d.VlrVenda (7 / 10) * 100) := by
        show arredondar (arredondar (fmul d.VlrVenda (7 / 10)) * arredondar 100) = _
        rw [e1, e2]
      rw [e3]
      exact arredondar_le_mul_nonneg _ (mul_nonneg hz0 (by norm_num))
    rw [le_div_iff₀ (by norm_num)] at h1
    nlinarith

/-- A product read back from a generated document has an effective price, the promotion
price when it is positive and the sale price otherwise, of at least 4. -/
theorem preco_do_produto_gerado (cfg : Config) (i : Nat) (r r1 : Rand) (d : ProdutoDoc)
    (h : gerarProduto cfg i r = some (d, r1)) :
    4 ≤ (if (decodificar d).VlrPromocao > 0 then (decodificar d).VlrPromocao
          else (decodificar d).VlrVenda) := by
  obtain ⟨-, hv, hp⟩ := gerarProduto_limites cfg i r r1 d h
  split_ifs with h1
  · cases hd : d.VlrPromocao with
    | none =>
      simp [decodificar, hd] at h1
    | some w =>
      have := (hp w hd).2.1
      simp only [decodificar, hd, Option.getD_some]
      linarith
  · simp only [decodificar]
    linarith

/-- With a catalog whose effective prices are at least 4, the running total of an item
loop of at least one pass that starts from a non-negative total ends at 4 or more. -/
theorem gerarItens_piso (produtos : List Produto) (seqNota : Int)
    (hp : ∀ p, p ∈ produtos → 4 ≤ (if p.VlrPromocao > 0 then p.VlrPromocao else p.VlrVenda)) :
    ∀ (n j : Nat) (itens : List ItemNotaFiscal) (vlr : ℚ) (r : Rand)
      (saida : List ItemNotaFiscal) (total : ℚ) (r1 : Rand),
      gerarItens produtos seqNota (n + 1) j itens vlr r = some ((saida, total), r1) →
      0 ≤ vlr → 4 ≤ total := by
  have hpasso : ∀ (j : Nat) (r : Rand) (item : ItemNotaFiscal) (r2 : Rand) (vlr : ℚ),
      gerarItem produtos seqNota j r = some (item, r2) → 0 ≤ vlr →
      4 ≤ fadd vlr (fmul item.VlrVenda item.QtdProduto) := by
    intro j r item r2 vlr hitem hvlr
    obtain ⟨p, hpm, q, k, -, -, -, -, -, hq, hv, -⟩ := gerarItem_spec _ _ _ _ _ _ hitem
    have hv4 : 4 ≤ item.VlrVenda := by rw [hv]; exact hp p hpm
    have hq1 : 1 ≤ item.QtdProduto := by
      rw [hq]
      split_ifs
      · push_cast
        have : (0 : ℚ) ≤ (k : ℚ) / 10 := by positivity
        have : (0 : ℚ) ≤ (q : ℚ) := by positivity
        linarith
      · push_cast
        have : (0 : ℚ) ≤ (q : ℚ) := by positivity
        linarith
    have h1 := fmul_mono 4 1 item.VlrVenda item.QtdProduto (by norm_num) (by norm_num) hv4 hq1
    have h2 := fadd_mono 0 (fmul 4 1) vlr (fmul item.VlrVenda item.QtdProduto) hvlr h1
    have h3 : fadd 0 (fmul 4 1) = 4 := by
      norm_num [fadd, fmul, arredondar_zero, arredondar_one, arredondar_ofNat]
    rw [h3] at h2
    exact h2
  intro n
  induction n with
  | zero =>
    intro j itens vlr r saida total r1 h hvlr
    simp only [gerarItens, genBind_eq_some, genPure_eq_some, Prod.mk.injEq] at h
    obtain ⟨item, r2, hitem, ⟨-, rfl⟩, -⟩ := h
    exact hpasso j r item r2 vlr hitem hvlr
  | succ n ih =>
    intro j itens vlr r saida total r1 h hvlr
    rw [gerarItens] at h
    obtain ⟨item, r2, hitem, hresto⟩ := (genBind_eq_some _ _ _ _).mp h
    have h4 := hpasso j r item r2 vlr hitem hvlr
    exact ih _ _ _ _ _ _ _ hresto (by linarith)

/-- With a catalog whose effective prices are at least 4, the total of a generated
invoice is at least 4. -/
theorem gerarNota_piso (cfg : Config) (produtos : List Produto)
    (hp : ∀ p, p ∈ produtos → 4 ≤ (if p.VlrPromocao > 0 then p.VlrPromocao else p.VlrVenda))
    (agora : Time) (i : Nat) (r : Rand) (nf : NotaFiscal) (itens : List ItemNotaFiscal)
    (r1 : Rand) (h : gerarNota cfg produtos agora i r = some ((nf, itens), r1)) :
    4 ≤ nf.VlrNota := by
  obtain ⟨p, c, cl, ni, fp, soma, r2, r3, -, -, -, -, -, hit, -, -, -, -, hv, -⟩ :=
    gerarNota_spec cfg produtos agora i r nf itens r1 h
  have h1 := gerarItens_piso produtos _ hp _ _ _ _ _ _ _ _ hit (le_refl _)
  rw [hv]
  have h2 := duasCasas_mono 4 soma (by norm_num) h1
  have h3 : duasCasas 4 = 4 := by
    have := duasCasas_inteiro 4 (by norm_num)
    simpa using this
  rw [h3] at h2
  exact h2

/-- When every MongoDB write fails the content of the document store never changes. -/
theorem conteudo_falhaMongo (t : List Evento) :
    ∀ inicial, conteudo falhaMongo Sink.MongoDB inicial t = inicial := by
  induction t with
  | nil => intro inicial; rfl
  | cons e t ih =>
    intro inicial
    cases e with
    | insercao s r =>
      cases s with
      | MongoDB => simp [conteudo, falhaMongo, ih]
      | Cassandra => simp [conteudo, ih]
    | log msg => simp [conteudo, ih]
    | print msg => simp [conteudo, ih]

/-! ## Stages that run to their end -/

/-- With a catalog read back with zero products the invoice stage panics as soon as
there is one invoice to generate. -/
theorem notas_sem_catalogo (cfg : Config) (hN : 1 ≤ cfg.numNotasFiscais)
    (hW : 1 ≤ cfg.numGoroutines) (falha : Falhas) (aleat : Nat → Rand) (agora : Nat → Time) :
    gerarNotasFiscaisEItens cfg falha (Leitura.ok []) aleat agora = none := by
  cases h : gerarNotasFiscaisEItens cfg falha (Leitura.ok []) aleat agora with
  | none => rfl
  | some t =>
    obtain ⟨t0, ht0, -⟩ := Option.map_eq_some'.mp h
    rw [estagio_eq_laco _ _ hW] at ht0
    obtain ⟨a, ha⟩ := (laco_isSome _ _).mp ⟨t0, ht0⟩ 0 (List.mem_range.mpr hN)
    obtain ⟨x, hx, -⟩ := (passo_eq_some _ _ _ _ _).mp ha
    rw [gerarNota_vazio] at hx
    exact absurd hx (by simp)

/-- When every MongoDB write fails and the collection `produto` starts empty, the catalog
read back is empty whatever was written. -/
theorem catalogo_falhaMongo (t : List Evento) :
    catalogo (conteudo falhaMongo Sink.MongoDB [] t) = [] := by
  rw [conteudo_falhaMongo]
  rfl


/-! ## Distance to the exact amounts -/

/-- The rounding error on a non-negative amount of at most `B` is at most `B / 2^53`. -/
theorem arredondar_perto (x B : ℚ) (h0 : 0 ≤ x) (hB : x ≤ B) :
    x - B / 2 ^ 53 ≤ arredondar x ∧ arredondar x ≤ x + B / 2 ^ 53 := by
  have hB0 : (0 : ℚ) ≤ B / 2 ^ 53 := div_nonneg (le_trans h0 hB) (by positivity)
  rcases eq_or_lt_of_le h0 with h | h
  · rw [← h, arredondar_zero]
    constructor <;> linarith
  · have he := arredondar_erro x h
    rw [abs_le] at he
    have hb : x / 2 ^ 53 ≤ B / 2 ^ 53 := div_le_div_of_nonneg_right hB (by positivity)
    constructor <;> linarith [he.1, he.2]

/-- The floors of two amounts less than 1 apart differ by at most 1. -/
theorem piso_perto (w x : ℚ) (h1 : x - 1 < w) (h2 : w < x + 1) :
    ⌊x⌋ - 1 ≤ ⌊w⌋ ∧ ⌊w⌋ ≤ ⌊x⌋ + 1 := by
  have a1 := Int.floor_le x
  have a2 := Int.lt_floor_add_one x
  have a3 := Int.floor_le w
  have a4 := Int.lt_floor_add_one w
  constructor
  · rw [Int.le_floor]
    push_cast
    linarith
  · have h3 : (⌊w⌋ : ℚ) < ((⌊x⌋ + 2 : Int) : ℚ) := by
      push_cast
      linarith
    have h4 : ⌊w⌋ < ⌊x⌋ + 2 := by exact_mod_cast h3
    omega

/-- The floor of an amount less than a tenth away from a whole number of tenths is the
floor of that number of tenths, or one less. -/
theorem piso_decimos (w : ℚ) (m : Int) (h1 : (m : ℚ) / 10 - 1 / 10 < w)
    (h2 : w < (m : ℚ) / 10 + 1 / 10) :
    ⌊w⌋ = ⌊(m : ℚ) / 10⌋ ∨ ⌊w⌋ = ⌊(m : ℚ) / 10⌋ - 1 := by
  have a1 := Int.floor_le ((m : ℚ) / 10)
  have a2 := Int.lt_floor_add_one ((m : ℚ) / 10)
  have b1 : m < 10 * ⌊(m : ℚ) / 10⌋ + 10 := by
    have : (m : ℚ) < ((10 * ⌊(m : ℚ) / 10⌋ + 10 : Int) : ℚ) := by
      push_cast
      linarith
    exact_mod_cast this
  have b2 : (m : ℚ) ≤ 10 * (⌊(m : ℚ) / 10⌋ : ℚ) + 9 := by
    have : m ≤ 10 * ⌊(m : ℚ) / 10⌋ + 9 := by omega
    exact_mod_cast this
  have c1 : ⌊w⌋ < ⌊(m : ℚ) / 10⌋ + 1 := by
    rw [Int.floor_lt]
    push_cast
    linarith
  have c2 : ⌊(m : ℚ) / 10⌋ - 1 ≤ ⌊w⌋ := by
    rw [Int.le_floor]
    push_cast
    linarith
  omega

theorem truncar_nonneg (x : ℚ) (h : 0 ≤ x) : truncar x = ⌊x⌋ := by
  unfold truncar
  rw [if_pos h]

theorem round2_nonneg (x : ℚ) (h : 0 ≤ x) : round2 x = (⌊x * 100⌋ : ℚ) / 100 := by
  unfold round2
  rw [truncar_nonneg _ (by positivity)]

theorem duasCasas_nonneg (x : ℚ) (h : 0 ≤ x) : duasCasas x = (⌊fmul x 100⌋ : ℚ) / 100 := by
  unfold duasCasas
  rw [truncar_nonneg _ (fmul_nonneg x 100 h (by norm_num))]

/-- The truncation to cents is a whole number of cents. -/
theorem duasCasas_centavos (x : ℚ) : ∃ k : Int, duasCasas x = (k : ℚ) / 100 :=
  ⟨truncar (fmul x 100), rfl⟩

/-- The float64 product by 100 of a non-negative amount `y` of at most `B`, when `x` is
within `e` of `y`: the distance to `100 * x`. -/
theorem fmul_cem_perto (y x B e : ℚ) (h0 : 0 ≤ y) (hB : y ≤ B) (h1 : x - e ≤ y)
    (h2 : y ≤ x + e) :
    100 * x - (100 * e + 201 * B / 2 ^ 53) ≤ fmul y 100 ∧
    fmul y 100 ≤ 100 * x + (100 * e + 201 * B / 2 ^ 53) := by
  have hB0 : 0 ≤ B := le_trans h0 hB
  obtain ⟨a1, a2⟩ := arredondar_perto y B h0 hB
  have a0 : 0 ≤ arredondar y := arredondar_nonneg y h0
  have e100 : arredondar (100 : ℚ) = 100 := arredondar_ofNat 100 (by norm_num)
  have hBB : B / 2 ^ 53 ≤ B / 100 := by
    apply div_le_div_of_nonneg_left hB0 (by norm_num) (by norm_num)
  have hp : arredondar y * 100 ≤ 101 * B := by linarith
  obtain ⟨b1, b2⟩ := arredondar_perto (arredondar y * 100) (101 * B) (by positivity) hp
  unfold fmul
  rw [e100]
  have e3 : 201 * B / 2 ^ 53 = 100 * (B / 2 ^ 53) + 101 * B / 2 ^ 53 := by ring
  rw [e3]
  constructor
  · linarith
  · linarith

/-- The margin of a product: between 0 and 2, and a float64. -/
theorem margem_limites (n : Nat) :
    0 ≤ fadd (12 / 10) (fmul (unidade n) (8 / 10)) ∧
    fadd (12 / 10) (fmul (unidade n) (8 / 10)) ≤ 2 ∧
    arredondar (fadd (12 / 10) (fmul (unidade n) (8 / 10)))
      = fadd (12 / 10) (fmul (unidade n) (8 / 10)) := by
  have c1 : arredondar ((4 : ℚ) / 5) = (3602879701896397 : ℚ) / 4503599627370496 := by
    rw [arredondar_eq _ (-53) 7205759403792794 (by norm_num) (by norm_num) (by norm_num)
      (by norm_num) (by norm_num)]
    norm_num
  have c2 : arredondar ((6 : ℚ) / 5) = (5404319552844595 : ℚ) / 4503599627370496 := by
    rw [arredondar_eq _ (-52) 5404319552844595 (by norm_num) (by norm_num) (by norm_num)
      (by norm_num) (by norm_num)]
    norm_num
  have c3 :
      arredondar ((3602879701896397 : ℚ) / 4503599627370496)
        = (3602879701896397 : ℚ) / 4503599627370496 := by
    rw [arredondar_eq _ (-53) 7205759403792794 (by norm_num) (by norm_num) (by norm_num)
      (by norm_num) (by norm_num)]
    norm_num
  have c4 :
      arredondar ((5404319552844595 : ℚ) / 4503599627370496)
        = (5404319552844595 : ℚ) / 4503599627370496 := by
    rw [arredondar_eq _ (-52) 5404319552844595 (by norm_num) (by norm_num) (by norm_num)
      (by norm_num) (by norm_num)]
    norm_num
  obtain ⟨hu0, hu1⟩ := unidade_range n
  refine ⟨fadd_nonneg _ _ (by norm_num) (fmul_nonneg _ _ hu0 (by norm_num)), ?_, ?_⟩
  · have h1 := fmul_mono (unidade n) (8 / 10) 1 (8 / 10) hu0 (by norm_num) hu1.le (le_refl _)
    have h2 := fadd_mono (12 / 10) (fmul (unidade n) (8 / 10)) (12 / 10) (fmul 1 (8 / 10))
      (le_refl _) h1
    have h3 : fadd (12 / 10) (fmul 1 (8 / 10)) = 2 := by
      norm_num [fadd, fmul, arredondar_one, arredondar_ofNat, c1, c2, c3, c4]
    rw [h3] at h2
    exact h2
  · unfold fadd
    exact arredondar_idem _

/-- The cost of a generated product is at most 100.00 and its sale price at most
200.00. -/
theorem gerarProduto_teto (cfg : Config) (i : Nat) (r r1 : Rand) (d : ProdutoDoc)
    (h : gerarProduto cfg i r = some (d, r1)) :
    d.VlrCusto ≤ 100 ∧ d.VlrVenda ≤ 200 := by
  obtain ⟨hc, hv, -⟩ := gerarProduto_precos cfg i r r1 d h
  obtain ⟨hc5, -, -⟩ := gerarProduto_limites cfg i r r1 d h
  obtain ⟨hu0, hu1⟩ := unidade_range (r.src (r.pos + 6))
  obtain ⟨hm0, hm2, -⟩ := margem_limites (r.src (r.pos + 7))
  have hcusto : d.VlrCusto ≤ 100 := by
    rw [hc]
    have h1 := fmul_mono (unidade (r.src (r.pos + 6))) 95 1 95 hu0 (by norm_num) hu1.le
      (le_refl _)
    have h2 := fadd_mono 5 (fmul (unidade (r.src (r.pos + 6))) 95) 5 (fmul 1 95) (le_refl _) h1
    have h3 : fadd 5 (fmul 1 95) = 100 := by
      norm_num [fadd, fmul, arredondar_one, arredondar_ofNat]
    rw [h3] at h2
    have h4 := duasCasas_mono _ _
      (fadd_nonneg _ _ (by norm_num) (fmul_nonneg _ _ hu0 (by norm_num))) h2
    have h5 : duasCasas 100 = 100 := by
      have := duasCasas_inteiro 100 (by norm_num)
      simpa using this
    rw [h5] at h4
    exact h4
  refine ⟨hcusto, ?_⟩
  rw [hv]
  have h1 := fmul_mono d.VlrCusto _ 100 2 (by linarith) hm0 hcusto hm2
  have h2 : fmul 100 2 = 200 := by norm_num [fmul, arredondar_ofNat]
  rw [h2] at h1
  have h3 := duasCasas_mono _ _ (fmul_nonneg _ _ (by linarith) hm0) h1
  have h4 : duasCasas 200 = 200 := by
    have := duasCasas_inteiro 200 (by norm_num)
    simpa using this
  rw [h4] at h3
  exact h3

/-- The sale price, the truncation to cents of the float64 product of a cost of at most
100.00 by a margin of at most 2, is within one cent of `round2` of the exact product. -/
theorem venda_perto (c M : ℚ) (hc0 : 0 ≤ c) (hc : c ≤ 100) (hM0 : 0 ≤ M) (hM : M ≤ 2)
    (hMd : arredondar M = M) :
    round2 (c * M) - 1 / 100 ≤ duasCasas (fmul c M) ∧
    duasCasas (fmul c M) ≤ round2 (c * M) + 1 / 100 := by
  obtain ⟨a1, a2⟩ := arredondar_perto c 100 hc0 hc
  have a0 : 0 ≤ arredondar c := arredondar_nonneg c hc0
  have hp0 : 0 ≤ arredondar c * M := mul_nonneg a0 hM0
  have hp1 : arredondar c * M ≤ 201 := by
    have : arredondar c ≤ 100 + 100 / 2 ^ 53 := by linarith
    nlinarith
  obtain ⟨b1, b2⟩ := arredondar_perto (arredondar c * M) 201 hp0 hp1
  have hy : fmul c M = arredondar (arredondar c * M) := by
    unfold fmul
    rw [hMd]
  have d1 : c * M - 200 / 2 ^ 53 ≤ arredondar c * M := by nlinarith
  have d2 : arredondar c * M ≤ c * M + 200 / 2 ^ 53 := by nlinarith
  have y0 : 0 ≤ fmul c M := fmul_nonneg c M hc0 hM0
  have y1 : fmul c M ≤ 202 := by
    rw [hy]
    have : (201 : ℚ) / 2 ^ 53 ≤ 1 := by norm_num
    linarith
  have y2 : c * M - 401 / 2 ^ 53 ≤ fmul c M := by
    rw [hy]
    linarith
  have y3 : fmul c M ≤ c * M + 401 / 2 ^ 53 := by
    rw [hy]
    linarith
  obtain ⟨w1, w2⟩ := fmul_cem_perto (fmul c M) (c * M) 202 (401 / 2 ^ 53) y0 y1 y2 y3
  have hx0 : 0 ≤ c * M := mul_nonneg hc0 hM0
  rw [duasCasas_nonneg _ y0, round2_nonneg _ hx0]
  have hsmall : (100 * (401 / 2 ^ 53) + 201 * 202 / 2 ^ 53 : ℚ) < 1 := by norm_num
  obtain ⟨f1, f2⟩ := piso_perto (fmul (fmul c M) 100) (c * M * 100) (by linarith) (by linarith)
  have g1 : ((⌊c * M * 100⌋ : Int) : ℚ) - 1 ≤ ((⌊fmul (fmul c M) 100⌋ : Int) : ℚ) := by
    exact_mod_cast f1
  have g2 : ((⌊fmul (fmul c M) 100⌋ : Int) : ℚ) ≤ ((⌊c * M * 100⌋ : Int) : ℚ) + 1 := by
    exact_mod_cast f2
  constructor
  · rw [le_div_iff₀ (by norm_num)]
    linarith
  · rw [div_le_iff₀ (by norm_num)]
    linarith

/-- The average price, the truncation to cents of the float64 half of the float64 sum of
a cost and a sale price that are whole numbers of cents, is `round2` of the exact half
sum, or one cent below it. -/
theorem medio_perto (c s : ℚ) (kc ks : Int) (hkc : c = (kc : ℚ) / 100)
    (hks : s = (ks : ℚ) / 100) (hc0 : 0 ≤ c) (hc : c ≤ 100) (hs0 : 0 ≤ s) (hs : s ≤ 200) :
    duasCasas (fdiv (fadd c s) 2) = round2 ((c + s) / 2) ∨
    duasCasas (fdiv (fadd c s) 2) = round2 ((c + s) / 2) - 1 / 100 := by
  obtain ⟨a1, a2⟩ := arredondar_perto c 100 hc0 hc
  obtain ⟨b1, b2⟩ := arredondar_perto s 200 hs0 hs
  have a0 : 0 ≤ arredondar c := arredondar_nonneg c hc0
  have b0 : 0 ≤ arredondar s := arredondar_nonneg s hs0
  have hsmall : (300 : ℚ) / 2 ^ 53 ≤ 1 := by norm_num
  obtain ⟨t1, t2⟩ := arredondar_perto (arredondar c + arredondar s) 301 (by linarith)
    (by linarith)
  have t0 : 0 ≤ fadd c s := fadd_nonneg c s hc0 hs0
  have ht : fadd c s = arredondar (arredondar c + arredondar s) := rfl
  have e2 : arredondar (2 : ℚ) = 2 := arredondar_ofNat 2 (by norm_num)
  have hh : fdiv (fadd c s) 2 = arredondar (fadd c s / 2) := by
    show arredondar (arredondar (fadd c s) / arredondar 2) = _
    rw [e2, ht, arredondar_idem]
  have hsmall2 : (301 : ℚ) / 2 ^ 53 ≤ 1 := by norm_num
  obtain ⟨h1, h2⟩ := arredondar_perto (fadd c s / 2) 152 (by linarith)
    (by rw [ht]; linarith)
  have hd0 : 0 ≤ fdiv (fadd c s) 2 := by
    rw [hh]
    exact arredondar_nonneg _ (by linarith)
  have hsmall3 : (152 : ℚ) / 2 ^ 53 ≤ 1 := by norm_num
  have y1 : fdiv (fadd c s) 2 ≤ 153 := by
    rw [hh]
    rw [ht] at h2 ⊢
    linarith
  have y2 : (c + s) / 2 - 453 / 2 ^ 53 ≤ fdiv (fadd c s) 2 := by
    rw [hh]
    rw [ht] at h1 ⊢
    linarith
  have y3 : fdiv (fadd c s) 2 ≤ (c + s) / 2 + 453 / 2 ^ 53 := by
    rw [hh]
    rw [ht] at h2 ⊢
    linarith
  obtain ⟨w1, w2⟩ := fmul_cem_perto (fdiv (fadd c s) 2) ((c + s) / 2) 153 (453 / 2 ^ 53)
    hd0 y1 y2 y3
  have hx0 : 0 ≤ (c + s) / 2 := by linarith
  rw [duasCasas_nonneg _ hd0, round2_nonneg _ hx0]
  have hm : (c + s) / 2 * 100 = ((5 * (kc + ks) : Int) : ℚ) / 10 := by
    rw [hkc, hks]
    push_cast
    ring
  have hsmall4 : (100 * (453 / 2 ^ 53) + 201 * 153 / 2 ^ 53 : ℚ) < 1 / 10 := by norm_num
  rw [hm]
  have w1b : ((5 * (kc + ks) : Int) : ℚ) / 10 - 1 / 10 < fmul (fdiv (fadd c s) 2) 100 := by
    have e : 100 * ((c + s) / 2) = ((5 * (kc + ks) : Int) : ℚ) / 10 := by
      rw [← hm]
      ring
    rw [e] at w1
    linarith
  have w2b : fmul (fdiv (fadd c s) 2) 100 < ((5 * (kc + ks) : Int) : ℚ) / 10 + 1 / 10 := by
    have e : 100 * ((c + s) / 2) = ((5 * (kc + ks) : Int) : ℚ) / 10 := by
      rw [← hm]
      ring
    rw [e] at w2
    linarith
  rcases piso_decimos _ _ w1b w2b with hf | hf
  · left
    rw [hf]
  · right
    rw [hf]
    push_cast
    ring

/-- The promotion price, the truncation to cents of the float64 product by 0.7 of a sale
price that is a whole number of cents, is `round2` of the exact product, or one cent below
it. -/
theorem promocao_perto (s : ℚ) (k : Int) (hk : s = (k : ℚ) / 100) (hs0 : 0 ≤ s)
    (hs : s ≤ 200) :
    duasCasas (fmul s (7 / 10)) = round2 (7 / 10 * s) ∨
    duasCasas (fmul s (7 / 10)) = round2 (7 / 10 * s) - 1 / 100 := by
  have c6 : arredondar ((7 : ℚ) / 10) = (3152519739159347 : ℚ) / 4503599627370496 := by
    rw [arredondar_eq _ (-53) 6305039478318694 (by norm_num) (by norm_num) (by norm_num)
      (by norm_num) (by norm_num)]
    norm_num
  obtain ⟨a1, a2⟩ := arredondar_perto s 200 hs0 hs
  have a0 : 0 ≤ arredondar s := arredondar_nonneg s hs0
  have hsmall : (200 : ℚ) / 2 ^ 53 ≤ 1 := by norm_num
  have hy : fmul s (7 / 10)
      = arredondar (arredondar s * ((3152519739159347 : ℚ) / 4503599627370496)) := by
    unfold fmul
    rw [c6]
  obtain ⟨b1, b2⟩ := arredondar_perto
    (arredondar s * ((3152519739159347 : ℚ) / 4503599627370496)) 141
    (mul_nonneg a0 (by norm_num)) (by linarith)
  have y0 : 0 ≤ fmul s (7 / 10) := fmul_nonneg _ _ hs0 (by norm_num)
  have hsmall2 : (141 : ℚ) / 2 ^ 53 ≤ 1 := by norm_num
  have y1 : fmul s (7 / 10) ≤ 142 := by
    rw [hy]
    linarith
  have y2 : 7 / 10 * s - 400 / 2 ^ 53 ≤ fmul s (7 / 10) := by
    rw [hy]
    linarith
  have y3 : fmul s (7 / 10) ≤ 7 / 10 * s + 400 / 2 ^ 53 := by
    rw [hy]
    linarith
  obtain ⟨w1, w2⟩ := fmul_cem_perto (fmul s (7 / 10)) (7 / 10 * s) 142 (400 / 2 ^ 53)
    y0 y1 y2 y3
  have hx0 : 0 ≤ 7 / 10 * s := by linarith
  rw [duasCasas_nonneg _ y0, round2_nonneg _ hx0]
  have hm : 7 / 10 * s * 100 = ((7 * k : Int) : ℚ) / 10 := by
    rw [hk]
    push_cast
    ring
  have e : 100 * (7 / 10 * s) = ((7 * k : Int) : ℚ) / 10 := by
    rw [← hm]
    ring
  rw [e] at w1 w2
  rw [hm]
  have hsmall4 : (100 * (400 / 2 ^ 53) + 201 * 142 / 2 ^ 53 : ℚ) < 1 / 10 := by norm_num
  rcases piso_decimos (fmul (fmul s (7 / 10)) 100) (7 * k) (by linarith) (by linarith)
    with hf | hf
  · left
    rw [hf]
  · right
    rw [hf]
    push_cast
    ring

/-! ## Distance of the invoice total to the exact sum -/

/-- One pass of the running total: adding in float64 the float64 amount of a line of
unit price at most 200.00 and quantity at most 11 to a total of at most 40001 that is
within `E` of the exact total `S` moves it at most `100000 / 2^53` further away. -/
theorem passo_perto (acc S E p q : ℚ) (hacc0 : 0 ≤ acc) (hacc : acc ≤ 40001)
    (h1 : S - E ≤ acc) (h2 : acc ≤ S + E) (hp0 : 0 ≤ p) (hp : p ≤ 200) (hq0 : 0 ≤ q)
    (hq : q ≤ 11) :
    0 ≤ fadd acc (fmul p q) ∧
    S + p * q - (E + 100000 / 2 ^ 53) ≤ fadd acc (fmul p q) ∧
    fadd acc (fmul p q) ≤ S + p * q + (E + 100000 / 2 ^ 53) := by
  obtain ⟨p1, p2⟩ := arredondar_perto p 200 hp0 hp
  obtain ⟨q1, q2⟩ := arredondar_perto q 11 hq0 hq
  have P0 : 0 ≤ arredondar p := arredondar_nonneg p hp0
  have Q0 : 0 ≤ arredondar q := arredondar_nonneg q hq0
  have s1 : (200 : ℚ) / 2 ^ 53 ≤ 1 / 1000 := by norm_num
  have s2 : (11 : ℚ) / 2 ^ 53 ≤ 1 / 1000 := by norm_num
  -- the exact product of the two float64 factors
  have u1 : arredondar p * arredondar q ≤ p * q + 4601 / 2 ^ 53 := by
    have a : arredondar p * arredondar q ≤ (p + 200 / 2 ^ 53) * arredondar q :=
      mul_le_mul_of_nonneg_right p2 Q0
    have b : (p + 200 / 2 ^ 53) * arredondar q ≤ (p + 200 / 2 ^ 53) * (q + 11 / 2 ^ 53) :=
      mul_le_mul_of_nonneg_left q2 (by positivity)
    have c : (p + 200 / 2 ^ 53) * (q + 11 / 2 ^ 53)
        = p * q + p * (11 / 2 ^ 53) + 200 / 2 ^ 53 * q + 200 / 2 ^ 53 * (11 / 2 ^ 53) := by
      ring
    have d : (200 : ℚ) / 2 ^ 53 * (11 / 2 ^ 53) ≤ 1 / 2 ^ 53 := by norm_num
    have e : p * (11 / 2 ^ 53) ≤ 200 * (11 / 2 ^ 53) :=
      mul_le_mul_of_nonneg_right hp (by norm_num)
    have f : 200 / 2 ^ 53 * q ≤ 200 / 2 ^ 53 * 11 :=
      mul_le_mul_of_nonneg_left hq (by norm_num)
    have g : (200 : ℚ) * (11 / 2 ^ 53) + 200 / 2 ^ 53 * 11 + 1 / 2 ^ 53 ≤ 4601 / 2 ^ 53 := by
      norm_num
    linarith
  have u2 : p * q - 4601 / 2 ^ 53 ≤ arredondar p * arredondar q := by
    have a : (p - 200 / 2 ^ 53) * arredondar q ≤ arredondar p * arredondar q :=
      mul_le_mul_of_nonneg_right p1 Q0
    have b : p * (q - 11 / 2 ^ 53) ≤ p * arredondar q :=
      mul_le_mul_of_nonneg_left q1 hp0
    have c : arredondar q ≤ 12 := by linarith
    have d : 200 / 2 ^ 53 * arredondar q ≤ 200 / 2 ^ 53 * 12 :=
      mul_le_mul_of_nonneg_left c (by norm_num)
    have e : p * (11 / 2 ^ 53) ≤ 200 * (11 / 2 ^ 53) :=
      mul_le_mul_of_nonneg_right hp (by norm_num)
    have f : (p - 200 / 2 ^ 53) * arredondar q
        = p * arredondar q - 200 / 2 ^ 53 * arredondar q := by ring
    have g : p * (q - 11 / 2 ^ 53) = p * q - p * (11 / 2 ^ 53) := by ring
    have k : (200 : ℚ) / 2 ^ 53 * 12 + 200 * (11 / 2 ^ 53) ≤ 4601 / 2 ^ 53 := by norm_num
    linarith
  have hpq : p * q ≤ 2200 := by nlinarith
  have hpq0 : 0 ≤ p * q := mul_nonneg hp0 hq0
  have s3 : (4601 : ℚ) / 2 ^ 53 ≤ 1 := by norm_num
  obtain ⟨a1, a2⟩ := arredondar_perto (arredondar p * arredondar q) 2201
    (mul_nonneg P0 Q0) (by linarith)
  have A0 : 0 ≤ fmul p q := fmul_nonneg p q hp0 hq0
  have hA : fmul p q = arredondar (arredondar p * arredondar q) := rfl
  rw [← hA] at a1 a2
  have s4 : (2201 : ℚ) / 2 ^ 53 ≤ 1 := by norm_num
  have A1 : fmul p q ≤ 2202 := by linarith
  -- the two terms of the float64 sum
  obtain ⟨b1, b2⟩ := arredondar_perto acc 40001 hacc0 hacc
  obtain ⟨c1, c2⟩ := arredondar_perto (fmul p q) 2202 A0 A1
  have B0 : 0 ≤ arredondar acc := arredondar_nonneg acc hacc0
  have C0 : 0 ≤ arredondar (fmul p q) := arredondar_nonneg _ A0
  have s5 : (40001 : ℚ) / 2 ^ 53 ≤ 1 := by norm_num
  have s6 : (2202 : ℚ) / 2 ^ 53 ≤ 1 := by norm_num
  obtain ⟨d1, d2⟩ := arredondar_perto (arredondar acc + arredondar (fmul p q)) 42205
    (by linarith) (by linarith)
  have hF : fadd acc (fmul p q) = arredondar (arredondar acc + arredondar (fmul p q)) := rfl
  have s7 : (4601 : ℚ) / 2 ^ 53 + 2201 / 2 ^ 53 + 40001 / 2 ^ 53 + 2202 / 2 ^ 53
      + 42205 / 2 ^ 53 ≤ 100000 / 2 ^ 53 := by norm_num
  refine ⟨fadd_nonneg _ _ hacc0 A0, ?_, ?_⟩
  · rw [hF]
    linarith
  · rw [hF]
    linarith

/-- The running total of the item loop stays within `100000 / 2^53` for each line of the
exact sum of the amounts of the lines. -/
theorem soma_perto :
    ∀ (itens : List ItemNotaFiscal) (acc S E : ℚ),
      (∀ it, it ∈ itens →
        0 ≤ it.VlrVenda ∧ it.VlrVenda ≤ 200 ∧ 0 ≤ it.QtdProduto ∧ it.QtdProduto ≤ 11) →
      0 ≤ acc → 0 ≤ S → 0 ≤ E → S - E ≤ acc → acc ≤ S + E →
      S + (itens.length : ℚ) * 2200 ≤ 40000 →
      E + (itens.length : ℚ) * (100000 / 2 ^ 53) ≤ 1 →
      0 ≤ itens.foldl (fun acc it => fadd acc (fmul it.VlrVenda it.QtdProduto)) acc ∧
      S + (itens.map (fun it => it.VlrVenda * it.QtdProduto)).sum
          - (E + (itens.length : ℚ) * (100000 / 2 ^ 53))
        ≤ itens.foldl (fun acc it => fadd acc (fmul it.VlrVenda it.QtdProduto)) acc ∧
      itens.foldl (fun acc it => fadd acc (fmul it.VlrVenda it.QtdProduto)) acc
        ≤ S + (itens.map (fun it => it.VlrVenda * it.QtdProduto)).sum
          + (E + (itens.length : ℚ) * (100000 / 2 ^ 53)) := by
  intro itens
  induction itens with
  | nil =>
    intro acc S E _ hacc0 _ _ h1 h2 _ _
    simp only [List.foldl_nil, List.map_nil, List.sum_nil, List.length_nil, Nat.cast_zero,
      zero_mul, add_zero]
    exact ⟨hacc0, h1, h2⟩
  | cons it resto ih =>
    intro acc S E hall hacc0 hS0 hE0 h1 h2 hS hE
    obtain ⟨hp0, hp, hq0, hq⟩ := hall it (List.mem_cons_self _ _)
    have hlen : ((it :: resto).length : ℚ) = (resto.length : ℚ) + 1 := by
      simp
    rw [hlen] at hS hE
    have hr0 : (0 : ℚ) ≤ (resto.length : ℚ) := by positivity
    have hd0 : (0 : ℚ) ≤ 100000 / 2 ^ 53 := by norm_num
    have hacc : acc ≤ 40001 := by nlinarith
    obtain ⟨n0, n1, n2⟩ := passo_perto acc S E it.VlrVenda it.QtdProduto hacc0 hacc h1 h2
      hp0 hp hq0 hq
    have hpq : it.VlrVenda * it.QtdProduto ≤ 2200 := by nlinarith
    have hpq0 : 0 ≤ it.VlrVenda * it.QtdProduto := mul_nonneg hp0 hq0
    have hi := ih (fadd acc (fmul it.VlrVenda it.QtdProduto))
      (S + it.VlrVenda * it.QtdProduto) (E + 100000 / 2 ^ 53)
      (fun x hx => hall x (List.mem_cons_of_mem _ hx)) n0 (by linarith) (by linarith) n1 n2
      (by linarith) (by linarith)
    simp only [List.foldl_cons, List.map_cons, List.sum_cons]
    rw [hlen]
    obtain ⟨i0, i1, i2⟩ := hi
    refine ⟨i0, ?_, ?_⟩
    · linarith
    · linarith

/-- The exact sum of the amounts of lines whose unit prices are whole numbers of cents
and whose quantities are whole numbers of tenths is, in cents, a whole number of
tenths. -/
theorem soma_decimos :
    ∀ (itens : List ItemNotaFiscal),
      (∀ it, it ∈ itens →
        ∃ k m : Int, it.VlrVenda = (k : ℚ) / 100 ∧ it.QtdProduto = (m : ℚ) / 10) →
      ∃ M : Int, (itens.map (fun it => it.VlrVenda * it.QtdProduto)).sum * 100
        = (M : ℚ) / 10 := by
  intro itens
  induction itens with
  | nil =>
    intro _
    exact ⟨0, by simp⟩
  | cons it resto ih =>
    intro hall
    obtain ⟨k, m, hk, hm⟩ := hall it (List.mem_cons_self _ _)
    obtain ⟨M, hM⟩ := ih (fun x hx => hall x (List.mem_cons_of_mem _ hx))
    refine ⟨k * m + M, ?_⟩
    simp only [List.map_cons, List.sum_cons]
    rw [add_mul, hM, hk, hm]
    push_cast
    ring

/-- The effective price of a product read back from a generated document is a whole
number of cents between 4.00 and 200.00. -/
theorem preco_em_centavos (cfg : Config) (i : Nat) (r r1 : Rand) (d : ProdutoDoc)
    (h : gerarProduto cfg i r = some (d, r1)) :
    ∃ k : Int,
      (if (decodificar d).VlrPromocao > 0 then (decodificar d).VlrPromocao
        else (decodificar d).VlrVenda) = (k : ℚ) / 100 ∧
      (4 : ℚ) ≤ (k : ℚ) / 100 ∧ (k : ℚ) / 100 ≤ 200 := by
  obtain ⟨-, hv6, hp⟩ := gerarProduto_limites cfg i r r1 d h
  obtain ⟨-, hv200⟩ := gerarProduto_teto cfg i r r1 d h
  obtain ⟨hc, hv, -⟩ := gerarProduto_precos cfg i r r1 d h
  have h4 := preco_do_produto_gerado cfg i r r1 d h
  split_ifs at h4 ⊢ with h1
  · cases hd : d.VlrPromocao with
    | none => simp [decodificar, hd] at h1
    | some w =>
      obtain ⟨hw, -, hlt⟩ := hp w hd
      obtain ⟨k, hk⟩ := duasCasas_centavos (fmul d.VlrVenda (7 / 10))
      refine ⟨k, ?_, ?_, ?_⟩
      · simp only [decodificar, hd, Option.getD_some]
        rw [hw, hk]
      · rw [← hk, ← hw]
        simp only [decodificar, hd, Option.getD_some] at h4
        exact h4
      · rw [← hk, ← hw]
        linarith
  · obtain ⟨k, hk⟩ := duasCasas_centavos (fmul d.VlrCusto
      (fadd (12 / 10) (fmul (unidade (r.src (r.pos + 7))) (8 / 10))))
    refine ⟨k, ?_, ?_, ?_⟩
    · simp only [decodificar]
      rw [hv, hk]
    · rw [← hk, ← hv]
      linarith
    · rw [← hk, ← hv]
      exact hv200

/-- A line generated from a catalog of generated products: its unit price is a whole
number of cents of at most 200.00 and its quantity a whole number of tenths of at
most 11. -/
theorem linha_gerada (produtos : List Produto) (hcat : catalogoGerado produtos)
    (seqNota : Int) (j : Nat) (r : Rand) (it : ItemNotaFiscal) (r1 : Rand)
    (hitem : gerarItem produtos seqNota j r = some (it, r1)) :
    (∃ k m : Int, it.VlrVenda = (k : ℚ) / 100 ∧ it.QtdProduto = (m : ℚ) / 10) ∧
    0 ≤ it.VlrVenda ∧ it.VlrVenda ≤ 200 ∧ 0 ≤ it.QtdProduto ∧ it.QtdProduto ≤ 11 := by
  obtain ⟨pr, hpr, q, k, hq, hk, -, -, -, hqtd, hvenda, -⟩ :=
    gerarItem_spec _ _ _ _ _ _ hitem
  obtain ⟨cfg2, i2, rc, d, rd, hg, rfl⟩ := hcat pr hpr
  obtain ⟨kk, hkk, hk4, hk200⟩ := preco_em_centavos cfg2 i2 rc rd d hg
  rw [← hvenda] at hkk
  have hq9 : (q : ℚ) ≤ 9 := by exact_mod_cast Nat.le_of_lt_succ hq
  have hk9 : (k : ℚ) ≤ 9 := by exact_mod_cast Nat.le_of_lt_succ hk
  have hq0 : (0 : ℚ) ≤ (q : ℚ) := by positivity
  have hk0 : (0 : ℚ) ≤ (k : ℚ) := by positivity
  have hqm : ∃ m : Int, it.QtdProduto = (m : ℚ) / 10 ∧ (0 : ℚ) ≤ (m : ℚ) / 10 ∧
      (m : ℚ) / 10 ≤ 11 := by
    rw [hqtd]
    split_ifs
    · refine ⟨10 * ((q : Int) + 1) + (k : Int), ?_, ?_, ?_⟩
      · push_cast
        ring
      · push_cast
        linarith
      · push_cast
        linarith
    · refine ⟨10 * ((q : Int) + 1), ?_, ?_, ?_⟩
      · push_cast
        ring
      · push_cast
        linarith
      · push_cast
        linarith
  obtain ⟨m, hm, hm0, hm11⟩ := hqm
  refine ⟨⟨kk, m, hkk, hm⟩, ?_, ?_, ?_, ?_⟩
  · rw [hkk]
    linarith
  · rw [hkk]
    exact hk200
  · rw [hm]
    exact hm0
  · rw [hm]
    exact hm11

/-- The exact sum of the amounts of lines of unit price at most 200.00 and quantity at
most 11 is between 0 and 2200 for each line. -/
theorem soma_limites :
    ∀ (itens : List ItemNotaFiscal),
      (∀ it, it ∈ itens →
        0 ≤ it.VlrVenda ∧ it.VlrVenda ≤ 200 ∧ 0 ≤ it.QtdProduto ∧ it.QtdProduto ≤ 11) →
      0 ≤ (itens.map (fun it => it.VlrVenda * it.QtdProduto)).sum ∧
      (itens.map (fun it => it.VlrVenda * it.QtdProduto)).sum ≤ (itens.length : ℚ) * 2200 := by
  intro itens
  induction itens with
  | nil =>
    intro _
    simp
  | cons a l ih =>
    intro hl
    obtain ⟨h1, h2, h3, h4⟩ := hl a (List.mem_cons_self _ _)
    obtain ⟨i1, i2⟩ := ih (fun x hx => hl x (List.mem_cons_of_mem _ hx))
    have hpq : a.VlrVenda * a.QtdProduto ≤ 2200 := by nlinarith
    have hpq0 : 0 ≤ a.VlrVenda * a.QtdProduto := mul_nonneg h1 h3
    simp only [List.map_cons, List.sum_cons, List.length_cons]
    push_cast
    constructor
    · linarith
    · linarith

/-- With a catalog of generated products the total of a generated invoice is `round2` of
the exact sum of the amounts of its lines, or one cent below it. -/
theorem total_perto (cfg : Config) (produtos : List Produto) (hcat : catalogoGerado produtos)
    (agora : Time) (i : Nat) (r : Rand) (nf : NotaFiscal) (itens : List ItemNotaFiscal)
    (r1 : Rand) (h : gerarNota cfg produtos agora i r = some ((nf, itens), r1)) :
    nf.VlrNota = round2 ((itens.map (fun it => it.VlrVenda * it.QtdProduto)).sum) ∨
    nf.VlrNota
      = round2 ((itens.map (fun it => it.VlrVenda * it.QtdProduto)).sum) - 1 / 100 := by
  obtain ⟨p, c, cl, ni, fp, soma, r2, r3, -, -, -, hni, -, hit, -, -, -, -, hv, -⟩ :=
    gerarNota_spec cfg produtos agora i r nf itens r1 h
  obtain ⟨novos, hn, hlen, hsoma, -, hger⟩ := gerarItens_spec produtos _ _ _ _ _ _ _ _ _ hit
  rw [List.nil_append] at hn
  rw [← hn] at hlen hsoma hger
  have hlinha : ∀ it, it ∈ itens →
      (∃ k m : Int, it.VlrVenda = (k : ℚ) / 100 ∧ it.QtdProduto = (m : ℚ) / 10) ∧
      0 ≤ it.VlrVenda ∧ it.VlrVenda ≤ 200 ∧ 0 ≤ it.QtdProduto ∧ it.QtdProduto ≤ 11 := by
    intro it hmem
    obtain ⟨ra, rb, j, hitem⟩ := hger it hmem
    exact linha_gerada produtos hcat _ j ra it rb hitem
  have hlen15 : (itens.length : ℚ) ≤ 15 := by
    have : itens.length ≤ 15 := by omega
    exact_mod_cast this
  have hl0 : (0 : ℚ) ≤ (itens.length : ℚ) := by positivity
  have he : (itens.length : ℚ) * (100000 / 2 ^ 53) ≤ 15 * (100000 / 2 ^ 53) :=
    mul_le_mul_of_nonneg_right hlen15 (by norm_num)
  have hsmall : (15 : ℚ) * (100000 / 2 ^ 53) ≤ 1 := by norm_num
  obtain ⟨hS0, hS1⟩ := soma_limites itens (fun it hmem => (hlinha it hmem).2)
  obtain ⟨f0, f1, f2⟩ := soma_perto itens 0 0 0 (fun it hmem => (hlinha it hmem).2)
    (le_refl _) (le_refl _) (le_refl _) (by norm_num) (by norm_num) (by linarith)
    (by linarith)
  rw [← hsoma] at f0 f1 f2
  rw [zero_add] at f1 f2
  obtain ⟨M, hM⟩ := soma_decimos itens (fun it hmem => (hlinha it hmem).1)
  have y1 : soma ≤ 33001 := by linarith
  obtain ⟨w1, w2⟩ := fmul_cem_perto soma
    ((itens.map (fun it => it.VlrVenda * it.QtdProduto)).sum) 33001
    (0 + (itens.length : ℚ) * (100000 / 2 ^ 53)) f0 y1 f1 f2
  rw [hv, duasCasas_nonneg _ f0, round2_nonneg _ hS0, hM]
  have e : 100 * (itens.map (fun it => it.VlrVenda * it.QtdProduto)).sum = (M : ℚ) / 10 := by
    rw [← hM]
    ring
  rw [e] at w1 w2
  have hsmall4 : (100 * (0 + 15 * (100000 / 2 ^ 53)) + 201 * 33001 / 2 ^ 53 : ℚ) < 1 / 10 := by
    norm_num
  rcases piso_decimos (fmul soma 100) M (by linarith) (by linarith) with hf | hf
  · left
    rw [hf]
  · right
    rw [hf]
    push_cast
    ring
/-! ## Evaluations on the example data -/

/-- The invoice generated for index 0 from the catalog `[produtoExemplo]` when every draw
is 0. -/
theorem gerarNota_exemplo :
    gerarNota config [produtoExemplo] instante 0 (sequencia [])
      = some ((notaExemplo, [itemExemplo]), ⟨fun n => ([] : List Nat).getD n 0, 12⟩) := by
  simp [gerarNota, gerarItens, gerarItem, genBind_apply, genPure_apply, Intn, indexar,
    config, sequencia, produtoExemplo, instante, Time.AddDate, notaExemplo, itemExemplo]
  norm_num [duasCasas, fadd, fmul, truncar, arredondar_zero, arredondar_one, arredondar_ofNat]

/-- The address generated for index 0 when every draw is 0. -/
theorem gerarEndereco_exemplo :
    gerarEndereco config 0 (sequencia [])
      = some (enderecoExemplo, ⟨fun n => ([] : List Nat).getD n 0, 5⟩) := by
  simp [gerarEndereco, escolher, genBind_apply, genPure_apply, Intn, indexar, config,
    sequencia, enderecoExemplo, nomesLogradouros, tiposLogradouro]
  rfl

/-- The product document generated for index 0 when every draw is 0. -/
theorem gerarProduto_exemplo :
    gerarProduto config 0 (sequencia [])
      = some (produtoDocExemplo, ⟨fun n => ([] : List Nat).getD n 0, 11⟩) := by
  have c1 : arredondar ((4 : ℚ) / 5) = (3602879701896397 : ℚ) / 4503599627370496 := by
    rw [arredondar_eq _ (-53) 7205759403792794 (by norm_num) (by norm_num) (by norm_num)
      (by norm_num) (by norm_num)]
    norm_num
  have c2 : arredondar ((6 : ℚ) / 5) = (5404319552844595 : ℚ) / 4503599627370496 := by
    rw [arredondar_eq _ (-52) 5404319552844595 (by norm_num) (by norm_num) (by norm_num)
      (by norm_num) (by norm_num)]
    norm_num
  have c3 :
      arredondar ((5404319552844595 : ℚ) / 4503599627370496)
        = (5404319552844595 : ℚ) / 4503599627370496 := by
    rw [arredondar_eq _ (-52) 5404319552844595 (by norm_num) (by norm_num) (by norm_num)
      (by norm_num) (by norm_num)]
    norm_num
  have c4 : arredondar ((27021597764222975 : ℚ) / 4503599627370496) = (6 : ℚ) := by
    rw [arredondar_eq _ (-50) 6755399441055744 (by norm_num) (by norm_num) (by norm_num)
      (by norm_num) (by norm_num)]
    norm_num
  have c5 : arredondar ((11 : ℚ) / 2) = (11 : ℚ) / 2 := by
    rw [arredondar_eq _ (-50) 6192449487634432 (by norm_num) (by norm_num) (by norm_num)
      (by norm_num) (by norm_num)]
    norm_num
  have c6 : arredondar ((7 : ℚ) / 10) = (3152519739159347 : ℚ) / 4503599627370496 := by
    rw [arredondar_eq _ (-53) 6305039478318694 (by norm_num) (by norm_num) (by norm_num)
      (by norm_num) (by norm_num)]
    norm_num
  have c7 :
      arredondar ((9457559217478041 : ℚ) / 2251799813685248)
        = (1182194902184755 : ℚ) / 281474976710656 := by
    rw [arredondar_eq _ (-50) 4728779608739020 (by norm_num) (by norm_num) (by norm_num)
      (by norm_num) (by norm_num)]
    norm_num
  have c8 :
      arredondar ((1182194902184755 : ℚ) / 281474976710656)
        = (1182194902184755 : ℚ) / 281474976710656 := by
    rw [arredondar_eq _ (-50) 4728779608739020 (by norm_num) (by norm_num) (by norm_num)
      (by norm_num) (by norm_num)]
    norm_num
  have c9 :
      arredondar ((29554872554618875 : ℚ) / 70368744177664)
        = (7388718138654719 : ℚ) / 17592186044416 := by
    rw [arredondar_eq _ (-44) 7388718138654719 (by norm_num) (by norm_num) (by norm_num)
      (by norm_num) (by norm_num)]
    norm_num
  simp [gerarProduto, escolher, genBind_apply, genPure_apply, Intn, Float64, unidade, indexar,
    config, sequencia, produtoDocExemplo, marcasProdutos, nomesProdutos, sobrenomesProdutos,
    setores, unidades]
  norm_num [duasCasas, fadd, fmul, fdiv, truncar, arredondar_zero, arredondar_one,
    arredondar_ofNat, c1, c2, c3, c4, c5, c6, c7, c8, c9]

/-- The terminal generated for index 0 when every draw is 0. -/
theorem gerarPDV_exemplo :
    gerarPDV config instante 0 (sequencia [])
      = some (pdvExemplo, ⟨fun n => ([] : List Nat).getD n 0, 7⟩) := by
  simp [gerarPDV, genBind_apply, genPure_apply, Intn, config, sequencia, pdvExemplo, instante,
    Time.AddDate]
  norm_num

/-- The register generated for index 0 when every draw is 0. -/
theorem gerarCaixa_exemplo :
    gerarCaixa config 0 (sequencia [])
      = some (caixaExemplo, ⟨fun n => ([] : List Nat).getD n 0, 4⟩) := by
  simp [gerarCaixa, escolher, genBind_apply, genPure_apply, Intn, indexar, config, sequencia,
    caixaExemplo, nomesPessoas, sobrenomesPessoas]

/-- The customer generated for index 0 when every draw is 0. -/
theorem gerarCliente_exemplo :
    gerarCliente config 0 (sequencia [])
      = some (clienteGrande, ⟨fun n => ([] : List Nat).getD n 0, 3⟩) := by
  simp [gerarCliente, escolher, genBind_apply, genPure_apply, Intn, indexar, config, sequencia,
    clienteGrande, nomesPessoas, sobrenomesPessoas]

/-- The city stage of one city and one worker when every draw is 0 and every MongoDB
write fails. -/
theorem gerarCidades_exemplo :
    gerarCidades configUnitaria falhaMongo (fun _ => sequencia []) = some tracoCidades := by
  have hc : gerarCidade 0 (sequencia [])
      = some (cidadeExemplo, ⟨fun n => ([] : List Nat).getD n 0, 2⟩) := by
    simp [gerarCidade, escolher, genBind_apply, genPure_apply, Intn, indexar, sequencia,
      cidadeExemplo, estados, regioes]
    rfl
  have hpc : passo gerarCidade
      (fun _ c => gravar falhaMongo "cidade" (Registro.cidade c) (Registro.cidade c))
      (fun _ => sequencia []) 0
      = some [Evento.insercao Sink.MongoDB (Registro.cidade cidadeExemplo),
              Evento.log "Erro ao inserir cidade no MongoDB",
              Evento.insercao Sink.Cassandra (Registro.cidade cidadeExemplo)] := by
    simp only [passo, hc]
    simp [gravar, falhaMongo]
  have hs := estagio_unitario _ _ hpc
  have h1 : configUnitaria.numCidades = 1 := rfl
  have h2 : configUnitaria.numGoroutines = 1 := rfl
  simp only [gerarCidades, h1, h2, hs]
  rfl

/-- The product document generated for index 0 from the draws `sorteioCenario`. -/
theorem gerarProduto_cenario :
    gerarProduto config 0 sorteioCenario
      = some (produtoDocCenario, ⟨sorteioCenario.src, 10⟩) := by
  have c1 : arredondar ((486388759756013568 : ℚ)) = (486388759756013568 : ℚ) := by
    rw [arredondar_eq _ (6) 7599824371187712 (by norm_num) (by norm_num) (by norm_num) (by norm_num)
      (by norm_num)]
    norm_num
  have c2 : arredondar ((27 : ℚ) / 512) = (27 : ℚ) / 512 := by
    rw [arredondar_eq _ (-57) 7599824371187712 (by norm_num) (by norm_num) (by norm_num)
      (by norm_num) (by norm_num)]
    norm_num
  have c3 : arredondar ((2565 : ℚ) / 512) = (2565 : ℚ) / 512 := by
    rw [arredondar_eq _ (-50) 5640494650490880 (by norm_num) (by norm_num) (by norm_num)
      (by norm_num) (by norm_num)]
    norm_num
  have c4 : arredondar ((5125 : ℚ) / 512) = (5125 : ℚ) / 512 := by
    rw [arredondar_eq _ (-49) 5634997092352000 (by norm_num) (by norm_num) (by norm_num)
      (by norm_num) (by norm_num)]
    norm_num
  have c5 : arredondar ((128125 : ℚ) / 128) = (128125 : ℚ) / 128 := by
    rw [arredondar_eq _ (-43) 8804682956800000 (by norm_num) (by norm_num) (by norm_num)
      (by norm_num) (by norm_num)]
    norm_num
  have c6 : arredondar ((3458764513820540928 : ℚ)) = (3458764513820540928 : ℚ) := by
    rw [arredondar_eq _ (9) 6755399441055744 (by norm_num) (by norm_num) (by norm_num) (by norm_num)
      (by norm_num)]
    norm_num
  have c7 : arredondar ((3 : ℚ) / 8) = (3 : ℚ) / 8 := by
    rw [arredondar_eq _ (-54) 6755399441055744 (by norm_num) (by norm_num) (by norm_num)
      (by norm_num) (by norm_num)]
    norm_num
  have c8 : arredondar ((4 : ℚ) / 5) = (3602879701896397 : ℚ) / 4503599627370496 := by
    rw [arredondar_eq _ (-53) 7205759403792794 (by norm_num) (by norm_num) (by norm_num)
      (by norm_num) (by norm_num)]
    norm_num
  have c9 :
      arredondar ((10808639105689191 : ℚ) / 36028797018963968)
        = (1351079888211149 : ℚ) / 4503599627370496 := by
    rw [arredondar_eq _ (-54) 5404319552844596 (by norm_num) (by norm_num) (by norm_num)
      (by norm_num) (by norm_num)]
    norm_num
  have c10 : arredondar ((6 : ℚ) / 5) = (5404319552844595 : ℚ) / 4503599627370496 := by
    rw [arredondar_eq _ (-52) 5404319552844595 (by norm_num) (by norm_num) (by norm_num)
      (by norm_num) (by norm_num)]
    norm_num
  have c11 :
      arredondar ((1351079888211149 : ℚ) / 4503599627370496)
        = (1351079888211149 : ℚ) / 4503599627370496 := by
    rw [arredondar_eq _ (-54) 5404319552844596 (by norm_num) (by norm_num) (by norm_num)
      (by norm_num) (by norm_num)]
    norm_num
  have c12 : arredondar ((3 : ℚ) / 2) = (3 : ℚ) / 2 := by
    rw [arredondar_eq _ (-52) 6755399441055744 (by norm_num) (by norm_num) (by norm_num)
      (by norm_num) (by norm_num)]
    norm_num
  have c13 : arredondar ((25 : ℚ) / 2) = (25 : ℚ) / 2 := by
    rw [arredondar_eq _ (-49) 7036874417766400 (by norm_num) (by norm_num) (by norm_num)
      (by norm_num) (by norm_num)]
    norm_num
  have c14 : arredondar ((7 : ℚ) / 10) = (3152519739159347 : ℚ) / 4503599627370496 := by
    rw [arredondar_eq _ (-53) 6305039478318694 (by norm_num) (by norm_num) (by norm_num)
      (by norm_num) (by norm_num)]
    norm_num
  have c15 : arredondar ((47287796087390205 : ℚ) / 4503599627370496) = (21 : ℚ) / 2 := by
    rw [arredondar_eq _ (-49) 5910974510923776 (by norm_num) (by norm_num) (by norm_num)
      (by norm_num) (by norm_num)]
    norm_num
  have c16 : arredondar ((21 : ℚ) / 2) = (21 : ℚ) / 2 := by
    rw [arredondar_eq _ (-49) 5910974510923776 (by norm_num) (by norm_num) (by norm_num)
      (by norm_num) (by norm_num)]
    norm_num
  simp [gerarProduto, escolher, genBind_apply, genPure_apply, Intn, Float64, unidade, indexar,
    config, sorteioCenario, sequencia, produtoDocCenario, marcasProdutos, nomesProdutos,
    sobrenomesProdutos, setores, unidades]
  norm_num [duasCasas, fadd, fmul, fdiv, truncar, arredondar_zero, arredondar_one,
    arredondar_ofNat, c1, c2, c3, c4, c5, c6, c7, c8, c9, c10, c11, c12, c13, c14, c15, c16]

/-- The product document generated for index 0 from the draws `sorteioCentavo`. -/
theorem gerarProduto_centavo :
    gerarProduto config 0 sorteioCentavo
      = some (produtoDocCentavo, ⟨sorteioCentavo.src, 10⟩) := by
  have c1 : arredondar ((1 : ℚ) / 4096) = (1 : ℚ) / 4096 := by
    rw [arredondar_eq _ (-64) 4503599627370496 (by norm_num) (by norm_num) (by norm_num)
      (by norm_num) (by norm_num)]
    norm_num
  have c2 : arredondar ((95 : ℚ) / 4096) = (95 : ℚ) / 4096 := by
    rw [arredondar_eq _ (-58) 6685030696878080 (by norm_num) (by norm_num) (by norm_num)
      (by norm_num) (by norm_num)]
    norm_num
  have c3 : arredondar ((20575 : ℚ) / 4096) = (20575 : ℚ) / 4096 := by
    rw [arredondar_eq _ (-50) 5655612935372800 (by norm_num) (by norm_num) (by norm_num)
      (by norm_num) (by norm_num)]
    norm_num
  have c4 : arredondar ((514375 : ℚ) / 1024) = (514375 : ℚ) / 1024 := by
    rw [arredondar_eq _ (-44) 8836895211520000 (by norm_num) (by norm_num) (by norm_num)
      (by norm_num) (by norm_num)]
    norm_num
  have c5 : arredondar ((3458764513820540928 : ℚ)) = (3458764513820540928 : ℚ) := by
    rw [arredondar_eq _ (9) 6755399441055744 (by norm_num) (by norm_num) (by norm_num) (by norm_num)
      (by norm_num)]
    norm_num
  have c6 : arredondar ((3 : ℚ) / 8) = (3 : ℚ) / 8 := by
    rw [arredondar_eq _ (-54) 6755399441055744 (by norm_num) (by norm_num) (by norm_num)
      (by norm_num) (by norm_num)]
    norm_num
  have c7 : arredondar ((4 : ℚ) / 5) = (3602879701896397 : ℚ) / 4503599627370496 := by
    rw [arredondar_eq _ (-53) 7205759403792794 (by norm_num) (by norm_num) (by norm_num)
      (by norm_num) (by norm_num)]
    norm_num
  have c8 :
      arredondar ((10808639105689191 : ℚ) / 36028797018963968)
        = (1351079888211149 : ℚ) / 4503599627370496 := by
    rw [arredondar_eq _ (-54) 5404319552844596 (by norm_num) (by norm_num) (by norm_num)
      (by norm_num) (by norm_num)]
    norm_num
  have c9 : arredondar ((6 : ℚ) / 5) = (5404319552844595 : ℚ) / 4503599627370496 := by
    rw [arredondar_eq _ (-52) 5404319552844595 (by norm_num) (by norm_num) (by norm_num)
      (by norm_num) (by norm_num)]
    norm_num
  have c10 :
      arredondar ((1351079888211149 : ℚ) / 4503599627370496)
        = (1351079888211149 : ℚ) / 4503599627370496 := by
    rw [arredondar_eq _ (-54) 5404319552844596 (by norm_num) (by norm_num) (by norm_num)
      (by norm_num) (by norm_num)]
    norm_num
  have c11 : arredondar ((3 : ℚ) / 2) = (3 : ℚ) / 2 := by
    rw [arredondar_eq _ (-52) 6755399441055744 (by norm_num) (by norm_num) (by norm_num)
      (by norm_num) (by norm_num)]
    norm_num
  have c12 : arredondar ((251 : ℚ) / 50) = (1413004383087493 : ℚ) / 281474976710656 := by
    rw [arredondar_eq _ (-50) 5652017532349972 (by norm_num) (by norm_num) (by norm_num)
      (by norm_num) (by norm_num)]
    norm_num
  have c13 :
      arredondar ((4239013149262479 : ℚ) / 562949953421312)
        = (4239013149262479 : ℚ) / 562949953421312 := by
    rw [arredondar_eq _ (-50) 8478026298524958 (by norm_num) (by norm_num) (by norm_num)
      (by norm_num) (by norm_num)]
    norm_num
  have c14 :
      arredondar ((105975328731561975 : ℚ) / 140737488355328)
        = (6623458045722623 : ℚ) / 8796093022208 := by
    rw [arredondar_eq _ (-43) 6623458045722623 (by norm_num) (by norm_num) (by norm_num)
      (by norm_num) (by norm_num)]
    norm_num
  have c15 : arredondar ((188 : ℚ) / 25) = (2116691824864133 : ℚ) / 281474976710656 := by
    rw [arredondar_eq _ (-50) 8466767299456532 (by norm_num) (by norm_num) (by norm_num)
      (by norm_num) (by norm_num)]
    norm_num
  have c16 :
      arredondar ((1764848103975813 : ℚ) / 140737488355328)
        = (1764848103975813 : ℚ) / 140737488355328 := by
    rw [arredondar_eq _ (-49) 7059392415903252 (by norm_num) (by norm_num) (by norm_num)
      (by norm_num) (by norm_num)]
    norm_num
  have c17 :
      arredondar ((1764848103975813 : ℚ) / 281474976710656)
        = (1764848103975813 : ℚ) / 281474976710656 := by
    rw [arredondar_eq _ (-50) 7059392415903252 (by norm_num) (by norm_num) (by norm_num)
      (by norm_num) (by norm_num)]
    norm_num
  have c18 : arredondar ((44121202599395325 : ℚ) / 70368744177664) = (627 : ℚ) := by
    rw [arredondar_eq _ (-43) 5515150324924416 (by norm_num) (by norm_num) (by norm_num)
      (by norm_num) (by norm_num)]
    norm_num
  have c19 : arredondar ((7 : ℚ) / 10) = (3152519739159347 : ℚ) / 4503599627370496 := by
    rw [arredondar_eq _ (-53) 6305039478318694 (by norm_num) (by norm_num) (by norm_num)
      (by norm_num) (by norm_num)]
    norm_num
  have c20 :
      arredondar ((6672912759601398767837912001151 : ℚ) / 1267650600228229401496703205376)
        = (1481684277404893 : ℚ) / 281474976710656 := by
    rw [arredondar_eq _ (-50) 5926737109619572 (by norm_num) (by norm_num) (by norm_num)
      (by norm_num) (by norm_num)]
    norm_num
  have c21 :
      arredondar ((1481684277404893 : ℚ) / 281474976710656)
        = (1481684277404893 : ℚ) / 281474976710656 := by
    rw [arredondar_eq _ (-50) 5926737109619572 (by norm_num) (by norm_num) (by norm_num)
      (by norm_num) (by norm_num)]
    norm_num
  have c22 :
      arredondar ((37042106935122325 : ℚ) / 70368744177664)
        = (4630263366890291 : ℚ) / 8796093022208 := by
    rw [arredondar_eq _ (-43) 4630263366890291 (by norm_num) (by norm_num) (by norm_num)
      (by norm_num) (by norm_num)]
    norm_num
  simp [gerarProduto, escolher, genBind_apply, genPure_apply, Intn, Float64, unidade, indexar,
    config, sorteioCentavo, sequencia, produtoDocCentavo, marcasProdutos, nomesProdutos,
    sobrenomesProdutos, setores, unidades]
  norm_num [duasCasas, fadd, fmul, fdiv, truncar, arredondar_zero, arredondar_one,
    arredondar_ofNat, c1, c2, c3, c4, c5, c6, c7, c8, c9, c10, c11, c12, c13, c14, c15, c16,
    c17, c18, c19, c20, c21, c22]

/-- The product document generated for index 0 from the draws `sorteioProduto`. -/
theorem gerarProduto_gerado :
    gerarProduto config 0 sorteioProduto
      = some (produtoDocGerado, ⟨sorteioProduto.src, 11⟩) := by
  have c1 : arredondar ((291608075872239616 : ℚ)) = (291608075872239616 : ℚ) := by
    rw [arredondar_eq _ (6) 4556376185503744 (by norm_num) (by norm_num) (by norm_num) (by norm_num)
      (by norm_num)]
    norm_num
  have c2 : arredondar ((259 : ℚ) / 8192) = (259 : ℚ) / 8192 := by
    rw [arredondar_eq _ (-57) 4556376185503744 (by norm_num) (by norm_num) (by norm_num)
      (by norm_num) (by norm_num)]
    norm_num
  have c3 : arredondar ((24605 : ℚ) / 8192) = (24605 : ℚ) / 8192 := by
    rw [arredondar_eq _ (-51) 6763370900357120 (by norm_num) (by norm_num) (by norm_num)
      (by norm_num) (by norm_num)]
    norm_num
  have c4 : arredondar ((65565 : ℚ) / 8192) = (65565 : ℚ) / 8192 := by
    rw [arredondar_eq _ (-49) 4505592492195840 (by norm_num) (by norm_num) (by norm_num)
      (by norm_num) (by norm_num)]
    norm_num
  have c5 : arredondar ((1639125 : ℚ) / 2048) = (1639125 : ℚ) / 2048 := by
    rw [arredondar_eq _ (-43) 7039988269056000 (by norm_num) (by norm_num) (by norm_num)
      (by norm_num) (by norm_num)]
    norm_num
  have c6 : arredondar ((576460752303423488 : ℚ)) = (576460752303423488 : ℚ) := by
    rw [arredondar_eq _ (7) 4503599627370496 (by norm_num) (by norm_num) (by norm_num) (by norm_num)
      (by norm_num)]
    norm_num
  have c7 : arredondar ((1 : ℚ) / 16) = (1 : ℚ) / 16 := by
    rw [arredondar_eq _ (-56) 4503599627370496 (by norm_num) (by norm_num) (by norm_num)
      (by norm_num) (by norm_num)]
    norm_num
  have c8 : arredondar ((4 : ℚ) / 5) = (3602879701896397 : ℚ) / 4503599627370496 := by
    rw [arredondar_eq _ (-53) 7205759403792794 (by norm_num) (by norm_num) (by norm_num)
      (by norm_num) (by norm_num)]
    norm_num
  have c9 :
      arredondar ((3602879701896397 : ℚ) / 72057594037927936)
        = (3602879701896397 : ℚ) / 72057594037927936 := by
    rw [arredondar_eq _ (-57) 7205759403792794 (by norm_num) (by norm_num) (by norm_num)
      (by norm_num) (by norm_num)]
    norm_num
  have c10 : arredondar ((6 : ℚ) / 5) = (5404319552844595 : ℚ) / 4503599627370496 := by
    rw [arredondar_eq _ (-52) 5404319552844595 (by norm_num) (by norm_num) (by norm_num)
      (by norm_num) (by norm_num)]
    norm_num
  have c11 : arredondar ((90071992547409917 : ℚ) / 72057594037927936) = (5 : ℚ) / 4 := by
    rw [arredondar_eq _ (-52) 5629499534213120 (by norm_num) (by norm_num) (by norm_num)
      (by norm_num) (by norm_num)]
    norm_num
  have c12 : arredondar ((5 : ℚ) / 4) = (5 : ℚ) / 4 := by
    rw [arredondar_eq _ (-52) 5629499534213120 (by norm_num) (by norm_num) (by norm_num)
      (by norm_num) (by norm_num)]
    norm_num
  have c13 : arredondar ((7 : ℚ) / 10) = (3152519739159347 : ℚ) / 4503599627370496 := by
    rw [arredondar_eq _ (-53) 6305039478318694 (by norm_num) (by norm_num) (by norm_num)
      (by norm_num) (by norm_num)]
    norm_num
  have c14 : arredondar ((15762598695796735 : ℚ) / 2251799813685248) = (7 : ℚ) := by
    rw [arredondar_eq _ (-50) 7881299347898368 (by norm_num) (by norm_num) (by norm_num)
      (by norm_num) (by norm_num)]
    norm_num
  simp [gerarProduto, escolher, genBind_apply, genPure_apply, Intn, Float64, unidade, indexar,
    config, sorteioProduto, sequencia, produtoDocGerado, marcasProdutos, nomesProdutos,
    sobrenomesProdutos, setores, unidades]
  norm_num [duasCasas, fadd, fmul, fdiv, truncar, arredondar_zero, arredondar_one,
    arredondar_ofNat, c1, c2, c3, c4, c5, c6, c7, c8, c9, c10, c11, c12, c13, c14]

/-- The product document `produtoDocGerado` reads back as `produtoExemplo`. -/
theorem decodificar_gerado : decodificar produtoDocGerado = produtoExemplo := rfl

/-- The invoice generated for index 0 from the catalog `[produtoExemplo]` with the draws
`sorteioQuilo`. -/
theorem gerarNota_quilo :
    gerarNota config [produtoExemplo] instante 0 sorteioQuilo
      = some ((notaQuilo, [itemQuilo]), ⟨sorteioQuilo.src, 12⟩) := by
  have c1 : arredondar ((7 : ℚ) / 5) = (3152519739159347 : ℚ) / 2251799813685248 := by
    rw [arredondar_eq _ (-52) 6305039478318694 (by norm_num) (by norm_num) (by norm_num)
      (by norm_num) (by norm_num)]
    norm_num
  have c2 :
      arredondar ((22067638174115429 : ℚ) / 2251799813685248)
        = (5516909543528857 : ℚ) / 562949953421312 := by
    rw [arredondar_eq _ (-49) 5516909543528857 (by norm_num) (by norm_num) (by norm_num)
      (by norm_num) (by norm_num)]
    norm_num
  have c3 :
      arredondar ((5516909543528857 : ℚ) / 562949953421312)
        = (5516909543528857 : ℚ) / 562949953421312 := by
    rw [arredondar_eq _ (-49) 5516909543528857 (by norm_num) (by norm_num) (by norm_num)
      (by norm_num) (by norm_num)]
    norm_num
  have c4 :
      arredondar ((137922738588221425 : ℚ) / 140737488355328)
        = (8620171161763839 : ℚ) / 8796093022208 := by
    rw [arredondar_eq _ (-43) 8620171161763839 (by norm_num) (by norm_num) (by norm_num)
      (by norm_num) (by norm_num)]
    norm_num
  simp [gerarNota, gerarItens, gerarItem, genBind_apply, genPure_apply, Intn, indexar,
    config, sorteioQuilo, sequencia, produtoExemplo, instante, Time.AddDate, notaQuilo, itemQuilo]
  norm_num [duasCasas, fadd, fmul, truncar, arredondar_zero, arredondar_one, arredondar_ofNat,
    c1, c2, c3, c4]

/-- The invoice generated for index 0 from the catalog `[produtoExemplo]` with the draws
`sorteioFracionado`. -/
theorem gerarNota_fracionada :
    gerarNota config [produtoExemplo] instante 0 sorteioFracionado
      = some ((notaFracionada, [itemFracionado]), ⟨sorteioFracionado.src, 12⟩) := by
  have c1 : arredondar ((11 : ℚ) / 2) = (11 : ℚ) / 2 := by
    rw [arredondar_eq _ (-50) 6192449487634432 (by norm_num) (by norm_num) (by norm_num)
      (by norm_num) (by norm_num)]
    norm_num
  have c2 : arredondar ((77 : ℚ) / 2) = (77 : ℚ) / 2 := by
    rw [arredondar_eq _ (-47) 5418393301680128 (by norm_num) (by norm_num) (by norm_num)
      (by norm_num) (by norm_num)]
    norm_num
  simp [gerarNota, gerarItens, gerarItem, genBind_apply, genPure_apply, Intn, indexar,
    config, sorteioFracionado, sequencia, produtoExemplo, instante, Time.AddDate,
    notaFracionada, itemFracionado]
  norm_num [duasCasas, fadd, fmul, truncar, arredondar_zero, arredondar_one, arredondar_ofNat,
    c1, c2]

/-- The margin made from the draw `3/8` of `2^63`: the float64 sum of 1.2 and the float64
product `0.375 * 0.8` is 1.5. -/
theorem margem_tres_oitavos :
    fadd (12 / 10) (fmul (unidade 3458764513820540928) (8 / 10)) = 3 / 2 := by
  have c1 : arredondar ((3458764513820540928 : ℚ)) = (3458764513820540928 : ℚ) := by
    rw [arredondar_eq _ (9) 6755399441055744 (by norm_num) (by norm_num) (by norm_num)
      (by norm_num) (by norm_num)]
    norm_num
  have c2 : arredondar ((3 : ℚ) / 8) = (3 : ℚ) / 8 := by
    rw [arredondar_eq _ (-54) 6755399441055744 (by norm_num) (by norm_num) (by norm_num)
      (by norm_num) (by norm_num)]
    norm_num
  have c3 : arredondar ((4 : ℚ) / 5) = (3602879701896397 : ℚ) / 4503599627370496 := by
    rw [arredondar_eq _ (-53) 7205759403792794 (by norm_num) (by norm_num) (by norm_num)
      (by norm_num) (by norm_num)]
    norm_num
  have c4 :
      arredondar ((10808639105689191 : ℚ) / 36028797018963968)
        = (1351079888211149 : ℚ) / 4503599627370496 := by
    rw [arredondar_eq _ (-54) 5404319552844596 (by norm_num) (by norm_num) (by norm_num)
      (by norm_num) (by norm_num)]
    norm_num
  have c5 : arredondar ((6 : ℚ) / 5) = (5404319552844595 : ℚ) / 4503599627370496 := by
    rw [arredondar_eq _ (-52) 5404319552844595 (by norm_num) (by norm_num) (by norm_num)
      (by norm_num) (by norm_num)]
    norm_num
  have c6 :
      arredondar ((1351079888211149 : ℚ) / 4503599627370496)
        = (1351079888211149 : ℚ) / 4503599627370496 := by
    rw [arredondar_eq _ (-54) 5404319552844596 (by norm_num) (by norm_num) (by norm_num)
      (by norm_num) (by norm_num)]
    norm_num
  have c7 : arredondar ((3 : ℚ) / 2) = (3 : ℚ) / 2 := by
    rw [arredondar_eq _ (-52) 6755399441055744 (by norm_num) (by norm_num) (by norm_num)
      (by norm_num) (by norm_num)]
    norm_num
  norm_num [fadd, fmul, unidade, arredondar_zero, arredondar_one, arredondar_ofNat,
    c1, c2, c3, c4, c5, c6, c7]

/-- The city stage of three cities and two workers when every draw is 0 and every MongoDB
write fails. -/
theorem gerarCidades_pequena :
    gerarCidades configPequena falhaMongo (fun _ => sequencia []) = some tracoPequeno := by
  have hc0 : gerarCidade 0 (sequencia [])
      = some (cidadeExemplo, ⟨fun n => ([] : List Nat).getD n 0, 2⟩) := by
    simp [gerarCidade, escolher, genBind_apply, genPure_apply, Intn, indexar, sequencia,
      cidadeExemplo, estados, regioes]
    rfl
  have hc1 : gerarCidade 1 (sequencia [])
      = some (cidadeExemplo2, ⟨fun n => ([] : List Nat).getD n 0, 2⟩) := by
    simp [gerarCidade, escolher, genBind_apply, genPure_apply, Intn, indexar, sequencia,
      cidadeExemplo2, estados, regioes]
    rfl
  have hc2 : gerarCidade 2 (sequencia [])
      = some (cidadeExemplo3, ⟨fun n => ([] : List Nat).getD n 0, 2⟩) := by
    simp [gerarCidade, escolher, genBind_apply, genPure_apply, Intn, indexar, sequencia,
      cidadeExemplo3, estados, regioes]
    rfl
  have h1 : configPequena.numCidades = 3 := rfl
  have h2 : configPequena.numGoroutines = 2 := rfl
  have hr : List.range 3 = [0, 1, 2] := by decide
  simp only [gerarCidades, h1, h2, estagio_eq_laco 3 2 (by decide), hr, laco, passo, hc0, hc1,
    hc2]
  simp [gravar, falhaMongo, tracoPequeno]
  rfl

/-- The catalog of the one product `produtoExemplo` is made of products the product stage
writes: `produtoExemplo` is the decoding of the document generated from the draws
`sorteioProduto`. -/
theorem catalogoGerado_exemplo : catalogoGerado [produtoExemplo] := by
  intro p hp
  rw [List.mem_singleton] at hp
  exact ⟨config, 0, sorteioProduto, produtoDocGerado, _, gerarProduto_gerado,
    by rw [hp, decodificar_gerado]⟩

/-! ## The claims -/

/-- C1: for every item count `N` and worker count `W >= 1`, the ranges `[start, end)` of
the workers are well formed and sorted by worker id (a range ends where the next one
starts, and before every later one starts), pairwise disjoint, and their union is
exactly `[0, N)`: every index below `N` is visited by exactly one worker and no worker
visits an index outside `[0, N)`. -/
theorem particao_cobre_exatamente (N W : Nat) (hW : 1 ≤ W) :
    (∀ g, g < W → start N W g ≤ end_ N W g) ∧
    (∀ g, g + 1 < W → end_ N W g = start N W (g + 1)) ∧
    (∀ g h, g < h → h < W → end_ N W g ≤ start N W h) ∧
    (∀ g h i, g < W → h < W → i ∈ indices N W g → i ∈ indices N W h → g = h) ∧
    (∀ i, i < N → ∃! g, g < W ∧ i ∈ indices N W g) ∧
    (∀ g i, g < W → i ∈ indices N W g → i < N) := by
  have disj : ∀ g h i, g < W → h < W → i ∈ indices N W g → i ∈ indices N W h → g = h := by
    intro g h i hg hh hig hih
    rw [mem_indices] at hig hih
    rcases Nat.lt_trichotomy g h with hlt | heq | hgt
    · have := end_le_start N W g h hlt hh
      omega
    · exact heq
    · have := end_le_start N W h g hgt hg
      omega
  refine ⟨fun g hg => start_le_end N W g hg, ?_, fun g h hgh hh => end_le_start N W g h hgh hh,
    disj, ?_, ?_⟩
  · intro g hg
    have hne : g ≠ W - 1 := by omega
    simp only [end_, start, if_neg hne]
    ring
  · intro i hi
    obtain ⟨g, hg, h1, h2⟩ := existe_worker N W i hW hi
    refine ⟨g, ⟨hg, (mem_indices N W g i).mpr ⟨h1, h2⟩⟩, ?_⟩
    rintro h ⟨hh, hih⟩
    exact disj h g i hh hg hih ((mem_indices N W g i).mpr ⟨h1, h2⟩)
  · intro g i hg hig
    rw [mem_indices] at hig
    have := end_le_total N W g hg
    omega

/-- Witness of C1 at `N = 7`, `W = 10`: index 5 is visited by exactly one worker. -/
theorem particao_cobre_exatamente_witness :
    1 ≤ 10 ∧ ∃! g, g < 10 ∧ 5 ∈ indices 7 10 g :=
  ⟨by decide, (particao_cobre_exatamente 7 10 (by decide)).2.2.2.2.1 5 (by decide)⟩

/-- C2, as stated, fails for an invoice of one line of unit price 7.00 and quantity 1.4
(the product is one the product stage writes): the float64 product `7 * 1.4` is just
below 9.8 and the total stored is 9.79, while `round2` of the exact sum is 9.80. -/
theorem total_um_centavo_contraexemplo :
    gerarProduto config 0 sorteioProduto = some (produtoDocGerado, ⟨sorteioProduto.src, 11⟩) ∧
    decodificar produtoDocGerado = produtoExemplo ∧
    gerarNota config [produtoExemplo] instante 0 sorteioQuilo
      = some ((notaQuilo, [itemQuilo]), ⟨sorteioQuilo.src, 12⟩) ∧
    itemQuilo.VlrVenda = 7 ∧ itemQuilo.QtdProduto = 14 / 10 ∧
    notaQuilo.VlrNota = 979 / 100 ∧
    round2 (([itemQuilo].map (fun it => it.VlrVenda * it.QtdProduto)).sum) = 980 / 100 ∧
    notaQuilo.VlrNota
      ≠ round2 (([itemQuilo].map (fun it => it.VlrVenda * it.QtdProduto)).sum) := by
  have hr : round2 (([itemQuilo].map (fun it => it.VlrVenda * it.QtdProduto)).sum)
      = 980 / 100 := by
    norm_num [itemQuilo, round2, truncar]
  refine ⟨gerarProduto_gerado, decodificar_gerado, gerarNota_quilo, rfl, ?_, rfl, hr, ?_⟩
  · norm_num [itemQuilo]
  · rw [hr]
    norm_num [notaQuilo]

/-- C2, amended: the total of every generated invoice is the truncation to cents
(`float64(int(x*100)) / 100`, in float64) of the float64 running sum of its lines: starting
from 0, the float64 product of unit sale price and quantity of each generated line is
added in float64, in the order of the lines.  When the catalog is made of products the
product stage writes, read back, that total is `round2` of the exact sum of unit sale
price times quantity over the lines, or one cent below it. -/
theorem total_da_nota (cfg : Config) (produtos : List Produto) (agora : Time) (i : Nat)
    (r : Rand) (nf : NotaFiscal) (itens : List ItemNotaFiscal) (r1 : Rand)
    (h : gerarNota cfg produtos agora i r = some ((nf, itens), r1)) :
    nf.VlrNota
      = duasCasas (itens.foldl (fun acc it => fadd acc (fmul it.VlrVenda it.QtdProduto)) 0) ∧
    (catalogoGerado produtos →
      nf.VlrNota = round2 ((itens.map (fun it => it.VlrVenda * it.QtdProduto)).sum) ∨
      nf.VlrNota
        = round2 ((itens.map (fun it => it.VlrVenda * it.QtdProduto)).sum) - 1 / 100) := by
  refine ⟨?_, fun hcat => total_perto cfg produtos hcat agora i r nf itens r1 h⟩
  obtain ⟨p, c, cl, ni, fp, soma, r2, r3, -, -, -, -, -, hit, -, -, -, -, hv, -⟩ :=
    gerarNota_spec cfg produtos agora i r nf itens r1 h
  obtain ⟨novos, rfl, -, rfl, -⟩ := gerarItens_spec produtos _ _ _ _ _ _ _ _ _ hit
  rw [hv]

/-- Witness of the amended C2: the invoice of one line of unit price 7.00 and quantity
1.4, from a catalog the product stage writes; its total 9.79 is the truncation to cents of
the float64 product, and it is `round2` of the exact sum or one cent below it. -/
theorem total_da_nota_witness :
    gerarNota config [produtoExemplo] instante 0 sorteioQuilo
      = some ((notaQuilo, [itemQuilo]), ⟨sorteioQuilo.src, 12⟩) ∧
    notaQuilo.VlrNota
      = duasCasas
          ([itemQuilo].foldl (fun acc it => fadd acc (fmul it.VlrVenda it.QtdProduto)) 0) ∧
    catalogoGerado [produtoExemplo] ∧
    (notaQuilo.VlrNota
        = round2 (([itemQuilo].map (fun it => it.VlrVenda * it.QtdProduto)).sum) ∨
      notaQuilo.VlrNota
        = round2 (([itemQuilo].map (fun it => it.VlrVenda * it.QtdProduto)).sum) - 1 / 100) :=
  ⟨gerarNota_quilo, (total_da_nota _ _ _ _ _ _ _ _ gerarNota_quilo).1, catalogoGerado_exemplo,
    (total_da_nota _ _ _ _ _ _ _ _ gerarNota_quilo).2 catalogoGerado_exemplo⟩

/-- C3: in every generated invoice, whatever the catalog, the payment field selected by
the draw `rand.Intn(3)` of the payment method, the last draw of the loop body, holds the
total and the other two are 0: cash for 0, voucher for 1, card for 2.  When the catalog
is made of products the product stage writes, read back, the total is positive (at least
4.00), so exactly one of the three fields equals the total. -/
theorem pagamento_em_uma_forma (cfg : Config) (produtos : List Produto) (agora : Time)
    (i : Nat) (r : Rand) (nf : NotaFiscal) (itens : List ItemNotaFiscal) (r1 : Rand)
    (h : gerarNota cfg produtos agora i r = some ((nf, itens), r1)) :
    (∃ (formaPgto : Nat) (r3 : Rand), Intn 3 r3 = some (formaPgto, r1) ∧ r3.src = r.src ∧
      formaPgto = r.src (r1.pos - 1) % 3 ∧
      (formaPgto = 0 → nf.VlrDinheiro = nf.VlrNota ∧ nf.VlrTick = 0 ∧ nf.VlrCartao = 0) ∧
      (formaPgto = 1 → nf.VlrDinheiro = 0 ∧ nf.VlrTick = nf.VlrNota ∧ nf.VlrCartao = 0) ∧
      (formaPgto = 2 → nf.VlrDinheiro = 0 ∧ nf.VlrTick = 0 ∧ nf.VlrCartao = nf.VlrNota)) ∧
    (catalogoGerado produtos →
      4 ≤ nf.VlrNota ∧
      ([nf.VlrDinheiro, nf.VlrTick, nf.VlrCartao].filter (fun v => v = nf.VlrNota)).length
        = 1) := by
  obtain ⟨fp, r3, hfp, hsrc, hd, ht, hc⟩ := gerarNota_sorteio cfg produtos agora i r nf itens r1 h
  obtain ⟨-, hk, hr1⟩ := (Intn_eq_some _ _ _ _).mp hfp
  have hfp3 : fp < 3 := by rw [hk]; exact Nat.mod_lt _ (by decide)
  refine ⟨⟨fp, r3, hfp, hsrc, ?_, ?_, ?_, ?_⟩, ?_⟩
  · rw [hk, hr1, hsrc]
    simp
  · intro h0
    rw [h0] at hd ht hc
    exact ⟨by simpa using hd, by simpa using ht, by simpa using hc⟩
  · intro h1
    rw [h1] at hd ht hc
    exact ⟨by simpa using hd, by simpa using ht, by simpa using hc⟩
  · intro h2
    rw [h2] at hd ht hc
    exact ⟨by simpa using hd, by simpa using ht, by simpa using hc⟩
  · intro hcat
    have hpiso : 4 ≤ nf.VlrNota := by
      apply gerarNota_piso cfg produtos _ agora i r nf itens r1 h
      intro p hp
      obtain ⟨cfg2, i2, r2, d, r4, hg, rfl⟩ := hcat p hp
      exact preco_do_produto_gerado cfg2 i2 r2 r4 d hg
    have hne : ¬ (0 : ℚ) = nf.VlrNota := by
      intro h0
      rw [← h0] at hpiso
      norm_num at hpiso
    refine ⟨hpiso, ?_⟩
    rw [hd, ht, hc]
    interval_cases fp
    · simp [List.filter, hne]
    · simp [List.filter, hne]
    · simp [List.filter, hne]

/-- Witness of C3: the catalog is the product `produtoExemplo`, which the product stage
writes; the invoice generated from it with the payment draw 1 has total 38.50, paid by
voucher, and exactly one of its payment fields equals the total. -/
theorem pagamento_em_uma_forma_witness :
    catalogoGerado [produtoExemplo] ∧
    gerarNota config [produtoExemplo] instante 0 sorteioFracionado
      = some ((notaFracionada, [itemFracionado]), ⟨sorteioFracionado.src, 12⟩) ∧
    sorteioFracionado.src (12 - 1) % 3 = 1 ∧
    4 ≤ notaFracionada.VlrNota ∧
    notaFracionada.VlrTick = notaFracionada.VlrNota ∧ notaFracionada.VlrDinheiro = 0 ∧
    notaFracionada.VlrCartao = 0 ∧
    ([notaFracionada.VlrDinheiro, notaFracionada.VlrTick, notaFracionada.VlrCartao].filter
      (fun v => v = notaFracionada.VlrNota)).length = 1 :=
  ⟨catalogoGerado_exemplo,
    gerarNota_fracionada,
    by decide,
    ((pagamento_em_uma_forma config [produtoExemplo] instante 0 sorteioFracionado
      notaFracionada [itemFracionado] _ gerarNota_fracionada).2 catalogoGerado_exemplo).1,
    rfl, rfl, rfl,
    ((pagamento_em_uma_forma config [produtoExemplo] instante 0 sorteioFracionado
      notaFracionada [itemFracionado] _ gerarNota_fracionada).2 catalogoGerado_exemplo).2⟩

/-- C4: every line of a generated invoice is built from a product of the read-back
catalog whose key it carries, and its unit sale price is the promotion price of that
product when the product has one (`VlrPromocao > 0`, the test of the source; a product
read back without the field has `VlrPromocao = 0`) and its regular sale price otherwise.
When the keys of the catalog are unique this holds for every product of the catalog with
the key of the line. -/
theorem preco_da_linha (cfg : Config) (produtos : List Produto) (agora : Time) (i : Nat)
    (r : Rand) (nf : NotaFiscal) (itens : List ItemNotaFiscal) (r1 : Rand)
    (h : gerarNota cfg produtos agora i r = some ((nf, itens), r1)) :
    ∀ item, item ∈ itens →
      (∃ p, p ∈ produtos ∧ item.CodProduto = p.CodProduto ∧
        (0 < p.VlrPromocao → item.VlrVenda = p.VlrPromocao) ∧
        (¬ 0 < p.VlrPromocao → item.VlrVenda = p.VlrVenda)) ∧
      ((∀ p q, p ∈ produtos → q ∈ produtos → p.CodProduto = q.CodProduto → p = q) →
        ∀ p, p ∈ produtos → p.CodProduto = item.CodProduto →
          (0 < p.VlrPromocao → item.VlrVenda = p.VlrPromocao) ∧
          (¬ 0 < p.VlrPromocao → item.VlrVenda = p.VlrVenda)) := by
  intro item hmem
  obtain ⟨p, hp, q, k, -, -, -, hc, -, hv⟩ := itens_da_nota cfg produtos agora i r nf itens r1 h
    item hmem
  have hregra : (0 < p.VlrPromocao → item.VlrVenda = p.VlrPromocao) ∧
      (¬ 0 < p.VlrPromocao → item.VlrVenda = p.VlrVenda) := by
    constructor
    · intro hpos
      rw [hv, if_pos hpos]
    · intro hneg
      rw [hv, if_neg hneg]
  refine ⟨⟨p, hp, hc, hregra⟩, ?_⟩
  intro hunico p2 hp2 hkey
  have : p2 = p := hunico p2 p hp2 hp (by rw [hkey, hc])
  rw [this]
  exact hregra

/-- Witness of C4: the line generated from a one-product catalog whose product is on
promotion at price 7 (regular price 10) is sold at 7. -/
theorem preco_da_linha_witness :
    gerarNota config [produtoExemplo] instante 0 (sequencia [])
      = some ((notaExemplo, [itemExemplo]), ⟨fun n => ([] : List Nat).getD n 0, 12⟩) ∧
    itemExemplo ∈ [itemExemplo] ∧
    ∃ p, p ∈ [produtoExemplo] ∧ itemExemplo.CodProduto = p.CodProduto ∧
      (0 < p.VlrPromocao → itemExemplo.VlrVenda = p.VlrPromocao) ∧
      (¬ 0 < p.VlrPromocao → itemExemplo.VlrVenda = p.VlrVenda) := by
  have h : gerarNota config [produtoExemplo] instante 0 (sequencia [])
      = some ((notaExemplo, [itemExemplo]), ⟨fun n => ([] : List Nat).getD n 0, 12⟩) := by
    exact gerarNota_exemplo
  exact ⟨h, List.mem_singleton.mpr rfl,
    (preco_da_linha _ _ _ _ _ _ _ _ h itemExemplo (List.mem_singleton.mpr rfl)).1⟩

/-- C5: every foreign key of every generated record lies in the range of the keys the
stage of the parent entity produces, whatever the random draws: the city of an address in
`[1000000, 1000000 + numCidades)`, the supplier of a product in `[1, numFornecedores]`, the
address of a store and of a customer in `[1, numClientes + numLojas]`, the store of a
terminal and of a register in `[1, numLojas]`, the terminal, register and customer of an
invoice in `[1, numPDVs]`, `[1, numCaixas]`, `[1, numClientes]`; every line carries the key
of its invoice and the key of a product of the read-back catalog.  The last part states
the keys the parent stages produce: index `k` gets key `k + 1000000` (cities) or `k + 1`. -/
theorem chaves_estrangeiras (cfg : Config) (i : Nat) (r r1 : Rand) :
    (∀ e, gerarEndereco cfg i r = some (e, r1) →
      1000000 ≤ e.CodIBGE ∧ e.CodIBGE < 1000000 + (cfg.numCidades : Int)) ∧
    (∀ d, gerarProduto cfg i r = some (d, r1) →
      1 ≤ d.CodFornecedor ∧ d.CodFornecedor ≤ (cfg.numFornecedores : Int)) ∧
    (i < cfg.numLojas →
      1 ≤ (gerarLoja i).CodEndereco ∧
      (gerarLoja i).CodEndereco ≤ (cfg.numClientes : Int) + (cfg.numLojas : Int)) ∧
    (∀ c, i < cfg.numClientes → gerarCliente cfg i r = some (c, r1) →
      1 ≤ c.CodEndereco ∧ c.CodEndereco ≤ (cfg.numClientes : Int) + (cfg.numLojas : Int)) ∧
    (∀ agora p, gerarPDV cfg agora i r = some (p, r1) →
      1 ≤ p.CodLoja ∧ p.CodLoja ≤ (cfg.numLojas : Int)) ∧
    (∀ c, gerarCaixa cfg i r = some (c, r1) →
      1 ≤ c.CodLoja ∧ c.CodLoja ≤ (cfg.numLojas : Int)) ∧
    (∀ produtos agora nf itens, gerarNota cfg produtos agora i r = some ((nf, itens), r1) →
      (1 ≤ nf.CodPDV ∧ nf.CodPDV ≤ (cfg.numPDVs : Int)) ∧
      (1 ≤ nf.CodCaixa ∧ nf.CodCaixa ≤ (cfg.numCaixas : Int)) ∧
      (1 ≤ nf.CodCliente ∧ nf.CodCliente ≤ (cfg.numClientes : Int)) ∧
      ∀ item, item ∈ itens →
        item.SeqNota = nf.SeqNota ∧ ∃ p, p ∈ produtos ∧ item.CodProduto = p.CodProduto) ∧
    ((∀ c, gerarCidade i r = some (c, r1) → c.CodIBGE = (i : Int) + 1000000) ∧
     (∀ f, gerarFornecedor i r = some (f, r1) → f.CodFornecedor = (i : Int) + 1) ∧
     (∀ e, gerarEndereco cfg i r = some (e, r1) → e.CodEndereco = (i : Int) + 1) ∧
     (gerarLoja i).CodLoja = (i : Int) + 1 ∧
     (∀ agora p, gerarPDV cfg agora i r = some (p, r1) → p.CodPDV = (i : Int) + 1) ∧
     (∀ c, gerarCaixa cfg i r = some (c, r1) → c.CodCaixa = (i : Int) + 1) ∧
     (∀ c, gerarCliente cfg i r = some (c, r1) → c.CodCliente = (i : Int) + 1) ∧
     (∀ produtos agora nf itens,
        gerarNota cfg produtos agora i r = some ((nf, itens), r1) →
        nf.SeqNota = (i : Int) + 1)) := by
  refine ⟨?_, ?_, ?_, ?_, ?_, ?_, ?_, ?_, ?_, ?_, ?_, ?_, ?_, ?_, ?_⟩
  · intro e h
    obtain ⟨-, k, hk, he⟩ := gerarEndereco_spec cfg i r r1 e h
    omega
  · intro d h
    obtain ⟨-, ⟨f, hf, hd⟩, -⟩ := gerarProduto_spec cfg i r r1 d h
    omega
  · intro hi
    simp only [gerarLoja]
    omega
  · intro c hi h
    obtain ⟨-, hc⟩ := gerarCliente_spec cfg i r r1 c h
    omega
  · intro agora p h
    obtain ⟨-, l, hl, hp⟩ := gerarPDV_spec cfg agora i r r1 p h
    omega
  · intro c h
    obtain ⟨-, l, hl, hc⟩ := gerarCaixa_spec cfg i r r1 c h
    omega
  · intro produtos agora nf itens h
    obtain ⟨p, c, cl, ni, fp, soma, r2, r3, hp, hc, hcl, -, -, -, -, hp2, hc2, hcl2, -⟩ :=
      gerarNota_spec cfg produtos agora i r nf itens r1 h
    refine ⟨by omega, by omega, by omega, ?_⟩
    intro item hmem
    obtain ⟨q, hq, -, -, -, -, hs, hk, -⟩ :=
      itens_da_nota cfg produtos agora i r nf itens r1 h item hmem
    exact ⟨hs, q, hq, hk⟩
  · intro c h
    exact gerarCidade_spec i r r1 c h
  · intro f h
    exact gerarFornecedor_spec i r r1 f h
  · intro e h
    exact (gerarEndereco_spec cfg i r r1 e h).1
  · rfl
  · intro agora p h
    exact (gerarPDV_spec cfg agora i r r1 p h).1
  · intro c h
    exact (gerarCaixa_spec cfg i r r1 c h).1
  · intro c h
    exact (gerarCliente_spec cfg i r r1 c h).1
  · intro produtos agora nf itens h
    obtain ⟨p, c, cl, ni, fp, soma, r2, r3, -, -, -, -, -, -, hs, -⟩ :=
      gerarNota_spec cfg produtos agora i r nf itens r1 h
    exact hs

/-- Witness of C5: the records generated for index 0 with the counts of the source when
every draw is 0, and the ranges their foreign keys lie in. -/
theorem chaves_estrangeiras_witness :
    (gerarEndereco config 0 (sequencia [])
        = some (enderecoExemplo, ⟨fun n => ([] : List Nat).getD n 0, 5⟩) ∧
      1000000 ≤ enderecoExemplo.CodIBGE ∧
      enderecoExemplo.CodIBGE < 1000000 + (config.numCidades : Int)) ∧
    (gerarProduto config 0 (sequencia [])
        = some (produtoDocExemplo, ⟨fun n => ([] : List Nat).getD n 0, 11⟩) ∧
      1 ≤ produtoDocExemplo.CodFornecedor ∧
      produtoDocExemplo.CodFornecedor ≤ (config.numFornecedores : Int)) ∧
    (0 < config.numLojas ∧ 1 ≤ (gerarLoja 0).CodEndereco ∧
      (gerarLoja 0).CodEndereco ≤ (config.numClientes : Int) + (config.numLojas : Int)) ∧
    (0 < config.numClientes ∧
      gerarCliente config 0 (sequencia [])
        = some (clienteGrande, ⟨fun n => ([] : List Nat).getD n 0, 3⟩) ∧
      1 ≤ clienteGrande.CodEndereco ∧
      clienteGrande.CodEndereco ≤ (config.numClientes : Int) + (config.numLojas : Int)) ∧
    (gerarPDV config instante 0 (sequencia [])
        = some (pdvExemplo, ⟨fun n => ([] : List Nat).getD n 0, 7⟩) ∧
      1 ≤ pdvExemplo.CodLoja ∧ pdvExemplo.CodLoja ≤ (config.numLojas : Int)) ∧
    (gerarCaixa config 0 (sequencia [])
        = some (caixaExemplo, ⟨fun n => ([] : List Nat).getD n 0, 4⟩) ∧
      1 ≤ caixaExemplo.CodLoja ∧ caixaExemplo.CodLoja ≤ (config.numLojas : Int)) ∧
    (gerarNota config [produtoExemplo] instante 0 (sequencia [])
        = some ((notaExemplo, [itemExemplo]), ⟨fun n => ([] : List Nat).getD n 0, 12⟩) ∧
      (1 ≤ notaExemplo.CodPDV ∧ notaExemplo.CodPDV ≤ (config.numPDVs : Int)) ∧
      (1 ≤ notaExemplo.CodCaixa ∧ notaExemplo.CodCaixa ≤ (config.numCaixas : Int)) ∧
      (1 ≤ notaExemplo.CodCliente ∧ notaExemplo.CodCliente ≤ (config.numClientes : Int)) ∧
      ∀ item, item ∈ [itemExemplo] →
        item.SeqNota = notaExemplo.SeqNota ∧
        ∃ p, p ∈ [produtoExemplo] ∧ item.CodProduto = p.CodProduto) :=
  ⟨⟨gerarEndereco_exemplo,
      (chaves_estrangeiras config 0 (sequencia []) _).1 _ gerarEndereco_exemplo⟩,
    ⟨gerarProduto_exemplo,
      (chaves_estrangeiras config 0 (sequencia []) _).2.1 _ gerarProduto_exemplo⟩,
    ⟨by decide, (chaves_estrangeiras config 0 (sequencia []) (sequencia [])).2.2.1 (by decide)⟩,
    ⟨by decide, gerarCliente_exemplo,
      (chaves_estrangeiras config 0 (sequencia []) _).2.2.2.1 _ (by decide)
        gerarCliente_exemplo⟩,
    ⟨gerarPDV_exemplo,
      (chaves_estrangeiras config 0 (sequencia []) _).2.2.2.2.1 _ _ gerarPDV_exemplo⟩,
    ⟨gerarCaixa_exemplo,
      (chaves_estrangeiras config 0 (sequencia []) _).2.2.2.2.2.1 _ gerarCaixa_exemplo⟩,
    ⟨gerarNota_exemplo,
      (chaves_estrangeiras config 0 (sequencia []) _).2.2.2.2.2.2.1 _ _ _ _
        gerarNota_exemplo⟩⟩

/-- C6 on the code: when the MongoDB insert of an invoice fails, the pass of the invoice
loop ends after the log line, so the Cassandra insert of that invoice is not submitted
(and no line of the invoice is written to either sink); the pair of writes of every
other loop body submits the Cassandra insert whatever the MongoDB insert returned. -/
theorem nota_falha_no_mongo (falha : Falhas) (i : Nat) (nf : NotaFiscal)
    (itens : List ItemNotaFiscal)
    (h : falha Sink.MongoDB (Registro.notaFiscal nf) = true) :
    gravarNota falha i nf itens
      = [Evento.insercao Sink.MongoDB (Registro.notaFiscal nf),
         Evento.log "Erro ao inserir nota fiscal no MongoDB"] ∧
    Evento.insercao Sink.Cassandra (Registro.notaFiscal nf) ∉ gravarNota falha i nf itens ∧
    (∀ item, Evento.insercao Sink.Cassandra (Registro.itemNotaFiscal item)
      ∉ gravarNota falha i nf itens) ∧
    (∀ nome a b, Evento.insercao Sink.Cassandra b ∈ gravar falha nome a b) := by
  have hg : gravarNota falha i nf itens
      = [Evento.insercao Sink.MongoDB (Registro.notaFiscal nf),
         Evento.log "Erro ao inserir nota fiscal no MongoDB"] := by
    simp [gravarNota, h]
  refine ⟨hg, ?_, ?_, ?_⟩
  · rw [hg]
    simp
  · intro item
    rw [hg]
    simp
  · intro nome a b
    simp [gravar]

/-- The failing input of C6: one invoice, every MongoDB write failing.  The invoice stage
submits the invoice to MongoDB only, while the city stage under the same sinks submits
its record to both. -/
theorem nota_falha_no_mongo_witness :
    falhaMongo Sink.MongoDB (Registro.notaFiscal notaExemplo) = true ∧
    gerarNotasFiscaisEItens configUnitaria falhaMongo (Leitura.ok [produtoExemplo])
        (fun _ => sequencia []) (fun _ => instante)
      = some [Evento.insercao Sink.MongoDB (Registro.notaFiscal notaExemplo),
              Evento.log "Erro ao inserir nota fiscal no MongoDB",
              Evento.print "Geradas 1 notas fiscais com itens"] ∧
    gerarCidades configUnitaria falhaMongo (fun _ => sequencia [])
      = some [Evento.insercao Sink.MongoDB (Registro.cidade cidadeExemplo),
              Evento.log "Erro ao inserir cidade no MongoDB",
              Evento.insercao Sink.Cassandra (Registro.cidade cidadeExemplo),
              Evento.print "Geradas 1 cidades"] ∧
    Evento.insercao Sink.Cassandra (Registro.notaFiscal notaExemplo)
      ∉ gravarNota falhaMongo 0 notaExemplo [itemExemplo] := by
  have hn : gerarNota configUnitaria [produtoExemplo] instante 0 (sequencia [])
      = some ((notaExemplo, [itemExemplo]), ⟨fun n => ([] : List Nat).getD n 0, 12⟩) := by
    simp [gerarNota, gerarItens, gerarItem, genBind_apply, genPure_apply, Intn, indexar,
      configUnitaria, sequencia, produtoExemplo, instante, Time.AddDate, notaExemplo,
      itemExemplo]
    norm_num [duasCasas, fadd, fmul, truncar, arredondar_zero, arredondar_one,
      arredondar_ofNat]
  have hc : gerarCidade 0 (sequencia [])
      = some (cidadeExemplo, ⟨fun n => ([] : List Nat).getD n 0, 2⟩) := by
    simp [gerarCidade, escolher, genBind_apply, genPure_apply, Intn, indexar, sequencia,
      cidadeExemplo, estados, regioes]
    rfl
  have hf : falhaMongo Sink.MongoDB (Registro.notaFiscal notaExemplo) = true := rfl
  have hpn : passo (fun i => gerarNota configUnitaria [produtoExemplo] instante i)
      (fun i x => gravarNota falhaMongo i x.1 x.2) (fun _ => sequencia []) 0
      = some [Evento.insercao Sink.MongoDB (Registro.notaFiscal notaExemplo),
              Evento.log "Erro ao inserir nota fiscal no MongoDB"] := by
    simp only [passo, hn, (nota_falha_no_mongo falhaMongo 0 notaExemplo [itemExemplo] hf).1]
  have hpc : passo gerarCidade
      (fun _ c => gravar falhaMongo "cidade" (Registro.cidade c) (Registro.cidade c))
      (fun _ => sequencia []) 0
      = some [Evento.insercao Sink.MongoDB (Registro.cidade cidadeExemplo),
              Evento.log "Erro ao inserir cidade no MongoDB",
              Evento.insercao Sink.Cassandra (Registro.cidade cidadeExemplo)] := by
    simp only [passo, hc]
    simp [gravar, falhaMongo]
  refine ⟨hf, ?_, ?_, (nota_falha_no_mongo falhaMongo 0 notaExemplo [itemExemplo] hf).2.1⟩
  · have hs := estagio_unitario _ _ hpn
    have h1 : configUnitaria.numNotasFiscais = 1 := rfl
    have h2 : configUnitaria.numGoroutines = 1 := rfl
    simp only [gerarNotasFiscaisEItens, h1, h2, hs]
    rfl
  · have hs := estagio_unitario _ _ hpc
    have h1 : configUnitaria.numCidades = 1 := rfl
    have h2 : configUnitaria.numGoroutines = 1 := rfl
    simp only [gerarCidades, h1, h2, hs]
    rfl

/-- C7: store `i` takes address id `i + 1` (the first `numLojas` addresses) and customer
`j` takes address id `numLojas + j + 1` (the next `numClientes`); no address id goes to
both a store and a customer, no two stores and no two customers share one, and every id
assigned is the key of a generated address (the address of index `i`, respectively
`numLojas + j`, both below `numClientes + numLojas`).  With one store and one customer the
store takes the address of index 0 and the customer the address of index 1. -/
theorem enderecos_de_lojas_e_clientes (cfg : Config) :
    (∀ i, i < cfg.numLojas → (gerarLoja i).CodEndereco = (i : Int) + 1) ∧
    (∀ j r r1 c, j < cfg.numClientes → gerarCliente cfg j r = some (c, r1) →
      c.CodEndereco = (cfg.numLojas : Int) + (j : Int) + 1) ∧
    (∀ i j r r1 c, i < cfg.numLojas → gerarCliente cfg j r = some (c, r1) →
      (gerarLoja i).CodEndereco ≠ c.CodEndereco) ∧
    (∀ i k, (gerarLoja i).CodEndereco = (gerarLoja k).CodEndereco → i = k) ∧
    (∀ j k r r1 c s s1 d, gerarCliente cfg j r = some (c, r1) →
      gerarCliente cfg k s = some (d, s1) → c.CodEndereco = d.CodEndereco → j = k) ∧
    (∀ i, i < cfg.numLojas → i < cfg.numClientes + cfg.numLojas ∧
      ∀ r r1 e, gerarEndereco cfg i r = some (e, r1) →
        e.CodEndereco = (gerarLoja i).CodEndereco) ∧
    (∀ j r r1 c, j < cfg.numClientes → gerarCliente cfg j r = some (c, r1) →
      cfg.numLojas + j < cfg.numClientes + cfg.numLojas ∧
      ∀ s s1 e, gerarEndereco cfg (cfg.numLojas + j) s = some (e, s1) →
        e.CodEndereco = c.CodEndereco) ∧
    (cfg.numLojas = 1 → cfg.numClientes = 1 →
      (∀ r r1 e, gerarEndereco cfg 0 r = some (e, r1) →
        (gerarLoja 0).CodEndereco = e.CodEndereco) ∧
      (∀ r r1 c s s1 e, gerarCliente cfg 0 r = some (c, r1) →
        gerarEndereco cfg 1 s = some (e, s1) → c.CodEndereco = e.CodEndereco)) := by
  refine ⟨?_, ?_, ?_, ?_, ?_, ?_, ?_, ?_⟩
  · intro i _
    rfl
  · intro j r r1 c _ h
    exact (gerarCliente_spec cfg j r r1 c h).2
  · intro i j r r1 c hi h
    have hc := (gerarCliente_spec cfg j r r1 c h).2
    simp only [gerarLoja]
    omega
  · intro i k h
    simp only [gerarLoja] at h
    omega
  · intro j k r r1 c s s1 d hc hd h
    have h1 := (gerarCliente_spec cfg j r r1 c hc).2
    have h2 := (gerarCliente_spec cfg k s s1 d hd).2
    omega
  · intro i hi
    refine ⟨by omega, ?_⟩
    intro r r1 e h
    have h1 := (gerarEndereco_spec cfg i r r1 e h).1
    simp only [gerarLoja]
    omega
  · intro j r r1 c hj h
    refine ⟨by omega, ?_⟩
    intro s s1 e he
    have h1 := (gerarEndereco_spec cfg _ s s1 e he).1
    have h2 := (gerarCliente_spec cfg j r r1 c h).2
    omega
  · intro hl _
    constructor
    · intro r r1 e h
      have h1 := (gerarEndereco_spec cfg 0 r r1 e h).1
      simp only [gerarLoja]
      omega
    · intro r r1 c s s1 e hc he
      have h1 := (gerarEndereco_spec cfg 1 s s1 e he).1
      have h2 := (gerarCliente_spec cfg 0 r r1 c hc).2
      omega

/-- Witness of C7 with one store and one customer: the customer takes the address
generated for index 1 and the store the address generated for index 0. -/
theorem enderecos_de_lojas_e_clientes_witness :
    configMinima.numLojas = 1 ∧ configMinima.numClientes = 1 ∧
    gerarEndereco configMinima 0 (sequencia [])
      = some (enderecoExemplo, ⟨fun n => ([] : List Nat).getD n 0, 5⟩) ∧
    gerarEndereco configMinima 1 (sequencia [])
      = some (enderecoExemplo2, ⟨fun n => ([] : List Nat).getD n 0, 5⟩) ∧
    gerarCliente configMinima 0 (sequencia [])
      = some (clienteExemplo, ⟨fun n => ([] : List Nat).getD n 0, 3⟩) ∧
    (gerarLoja 0).CodEndereco = enderecoExemplo.CodEndereco ∧
    clienteExemplo.CodEndereco = enderecoExemplo2.CodEndereco := by
  have h0 : gerarEndereco configMinima 0 (sequencia [])
      = some (enderecoExemplo, ⟨fun n => ([] : List Nat).getD n 0, 5⟩) := by
    simp [gerarEndereco, escolher, genBind_apply, genPure_apply, Intn, indexar, configMinima,
      sequencia, enderecoExemplo, nomesLogradouros, tiposLogradouro]
    rfl
  have h1 : gerarEndereco configMinima 1 (sequencia [])
      = some (enderecoExemplo2, ⟨fun n => ([] : List Nat).getD n 0, 5⟩) := by
    simp [gerarEndereco, escolher, genBind_apply, genPure_apply, Intn, indexar, configMinima,
      sequencia, enderecoExemplo2, nomesLogradouros, tiposLogradouro]
    rfl
  have hc : gerarCliente configMinima 0 (sequencia [])
      = some (clienteExemplo, ⟨fun n => ([] : List Nat).getD n 0, 3⟩) := by
    simp [gerarCliente, escolher, genBind_apply, genPure_apply, Intn, indexar, configMinima,
      sequencia, clienteExemplo, nomesPessoas, sobrenomesPessoas]
  exact ⟨rfl, rfl, h0, h1, hc,
    ((enderecos_de_lojas_e_clientes configMinima).2.2.2.2.2.2.2 rfl rfl).1 _ _ _ h0,
    ((enderecos_de_lojas_e_clientes configMinima).2.2.2.2.2.2.2 rfl rfl).2 _ _ _ _ _ _ hc h1⟩

/-- C8, as stated, fails at `N = 7`, `W = 10`: it is not the case that 7 workers get
exactly one item and 3 get none (no worker gets exactly one item, nine get none). -/
theorem particao_7_10_contraexemplo :
    ¬ (((List.range 10).filter (fun g => (indices 7 10 g).length = 1)).length = 7 ∧
       ((List.range 10).filter (fun g => (indices 7 10 g).length = 0)).length = 3) := by
  decide

/-- C8, amended: for `N < W` every worker but the last gets an empty range and the last
worker gets all `N` items `0, ..., N - 1`; for `N = 7`, `W = 10` nine workers get an empty
range and the last one gets 7 items. -/
theorem particao_menos_itens_que_workers (N W : Nat) (h : N < W) :
    (∀ g, g < W - 1 → indices N W g = []) ∧
    indices N W (W - 1) = List.range N ∧
    ((List.range 10).filter (fun g => (indices 7 10 g).length = 0)).length = 9 ∧
    (indices 7 10 9).length = 7 := by
  have hq : N / W = 0 := Nat.div_eq_of_lt h
  refine ⟨?_, ?_, by decide, by decide⟩
  · intro g hg
    have hne : g ≠ W - 1 := by omega
    simp [indices, end_, start, itemsPerGoroutine, hq, if_neg hne]
  · simp [indices, end_, start, itemsPerGoroutine, hq, List.range_eq_range']

/-- Witness of the amended C8 at `N = 7`, `W = 10`. -/
theorem particao_menos_itens_que_workers_witness :
    7 < 10 ∧ (∀ g, g < 10 - 1 → indices 7 10 g = []) ∧ indices 7 10 (10 - 1) = List.range 7 :=
  ⟨by decide, (particao_menos_itens_que_workers 7 10 (by decide)).1,
    (particao_menos_itens_que_workers 7 10 (by decide)).2.1⟩

/-- C9: every line of a generated invoice is built from a product of the read-back
catalog whose key it carries; if that product is not sold by fraction
(`FlgFracionado != "S"`) the quantity is an integer of `[1, 10]`, and if it is, the
quantity is `n + k/10` with `n` in `[1, 10]` and `k` in `[0, 9]`, so that its fractional
part is `k/10`, in `[0, 0.9]`. -/
theorem quantidade_da_linha (cfg : Config) (produtos : List Produto) (agora : Time) (i : Nat)
    (r : Rand) (nf : NotaFiscal) (itens : List ItemNotaFiscal) (r1 : Rand)
    (h : gerarNota cfg produtos agora i r = some ((nf, itens), r1)) :
    ∀ item, item ∈ itens →
      ∃ p, p ∈ produtos ∧ item.CodProduto = p.CodProduto ∧
        (p.FlgFracionado ≠ "S" →
          ∃ n : Nat, 1 ≤ n ∧ n ≤ 10 ∧ item.QtdProduto = (n : ℚ)) ∧
        (p.FlgFracionado = "S" →
          ∃ n k : Nat, 1 ≤ n ∧ n ≤ 10 ∧ k ≤ 9 ∧ item.QtdProduto = (n : ℚ) + (k : ℚ) / 10 ∧
            Int.fract item.QtdProduto = (k : ℚ) / 10 ∧
            0 ≤ Int.fract item.QtdProduto ∧ Int.fract item.QtdProduto ≤ 9 / 10) := by
  intro item hmem
  obtain ⟨p, hp, q, k, hq, hk, -, hc, hqt, -⟩ :=
    itens_da_nota cfg produtos agora i r nf itens r1 h item hmem
  refine ⟨p, hp, hc, ?_, ?_⟩
  · intro hN
    rw [if_neg hN] at hqt
    exact ⟨q + 1, by omega, by omega, hqt⟩
  · intro hS
    rw [if_pos hS] at hqt
    have hk9 : k ≤ 9 := by omega
    have hkq : ((k : ℚ)) ≤ 9 := by exact_mod_cast hk9
    have hk0 : (0 : ℚ) ≤ (k : ℚ) := by positivity
    have hfr : Int.fract item.QtdProduto = (k : ℚ) / 10 := by
      rw [hqt, Int.fract_nat_add]
      rw [Int.fract_eq_self]
      constructor
      · positivity
      · linarith
    refine ⟨q + 1, k, by omega, by omega, hk9, hqt, hfr, ?_, ?_⟩
    · rw [hfr]; positivity
    · rw [hfr]; linarith

/-- Witness of C9: the line generated from a one-product catalog whose product is sold by
fraction, with draws 4 and 5 for the quantity, has quantity `5 + 5/10`. -/
theorem quantidade_da_linha_witness :
    gerarNota config [produtoExemplo] instante 0 sorteioFracionado
      = some ((notaFracionada, [itemFracionado]), ⟨sorteioFracionado.src, 12⟩) ∧
    itemFracionado ∈ [itemFracionado] ∧
    ∃ p, p ∈ [produtoExemplo] ∧ itemFracionado.CodProduto = p.CodProduto ∧
      (p.FlgFracionado ≠ "S" →
        ∃ n : Nat, 1 ≤ n ∧ n ≤ 10 ∧ itemFracionado.QtdProduto = (n : ℚ)) ∧
      (p.FlgFracionado = "S" →
        ∃ n k : Nat, 1 ≤ n ∧ n ≤ 10 ∧ k ≤ 9 ∧
          itemFracionado.QtdProduto = (n : ℚ) + (k : ℚ) / 10 ∧
          Int.fract itemFracionado.QtdProduto = (k : ℚ) / 10 ∧
          0 ≤ Int.fract itemFracionado.QtdProduto ∧
          Int.fract itemFracionado.QtdProduto ≤ 9 / 10) := by
  have h : gerarNota config [produtoExemplo] instante 0 sorteioFracionado
      = some ((notaFracionada, [itemFracionado]), ⟨sorteioFracionado.src, 12⟩) :=
    gerarNota_fracionada
  exact ⟨h, List.mem_singleton.mpr rfl,
    quantidade_da_linha _ _ _ _ _ _ _ _ h itemFracionado (List.mem_singleton.mpr rfl)⟩

/-- C10, as stated, fails for the product of cost 5.02 and margin 1.5: the float64
product is just below 7.53 and the sale price stored is 7.52, while `round2 (5.02 * 1.5)`
is 7.53. -/
theorem preco_de_venda_contraexemplo :
    gerarProduto config 0 sorteioCentavo
      = some (produtoDocCentavo, ⟨sorteioCentavo.src, 10⟩) ∧
    produtoDocCentavo.VlrCusto = 502 / 100 ∧
    fadd (12 / 10) (fmul (unidade (sorteioCentavo.src (sorteioCentavo.pos + 7))) (8 / 10))
      = 3 / 2 ∧
    produtoDocCentavo.VlrVenda = 752 / 100 ∧
    round2 (produtoDocCentavo.VlrCusto * (3 / 2)) = 753 / 100 ∧
    produtoDocCentavo.VlrVenda ≠ round2 (produtoDocCentavo.VlrCusto * (3 / 2)) := by
  have hr : round2 (produtoDocCentavo.VlrCusto * (3 / 2)) = 753 / 100 := by
    norm_num [produtoDocCentavo, round2, truncar]
  refine ⟨gerarProduto_centavo, rfl, margem_tres_oitavos, rfl, hr, ?_⟩
  rw [hr]
  norm_num [produtoDocCentavo]

/-- C10, amended: for every generated product the prices are computed in float64, every
operation rounded to the nearest float64, and truncated to cents by
`float64(int(x*100)) / 100` (`duasCasas`): the cost is the truncation of the raw cost
`5 + u * 95`, the sale price is the truncation of the product of the truncated cost by
the margin `1.2 + v * 0.8`, and the average price is the truncation of
`(cost + sale price) / 2`; when the cost is 10.00 and the margin 1.5 the sale price is
15.00 and the average price 12.50.  On exact rationals, with the float64 margin, the sale
price is within one cent of `round2 (cost * margin)` and the average price is
`round2 ((cost + sale price) / 2)` or one cent below it. -/
theorem precos_do_produto (cfg : Config) (i : Nat) (r r1 : Rand) (d : ProdutoDoc)
    (h : gerarProduto cfg i r = some (d, r1)) :
    d.VlrCusto = duasCasas (fadd 5 (fmul (unidade (r.src (r.pos + 6))) 95)) ∧
    d.VlrVenda
      = duasCasas (fmul d.VlrCusto
          (fadd (12 / 10) (fmul (unidade (r.src (r.pos + 7))) (8 / 10)))) ∧
    d.VlrMedio = duasCasas (fdiv (fadd d.VlrCusto d.VlrVenda) 2) ∧
    (d.VlrCusto = 10 →
      fadd (12 / 10) (fmul (unidade (r.src (r.pos + 7))) (8 / 10)) = 3 / 2 →
      d.VlrVenda = 15 ∧ d.VlrMedio = 25 / 2) ∧
    round2 (d.VlrCusto * fadd (12 / 10) (fmul (unidade (r.src (r.pos + 7))) (8 / 10))) - 1 / 100
      ≤ d.VlrVenda ∧
    d.VlrVenda
      ≤ round2 (d.VlrCusto * fadd (12 / 10) (fmul (unidade (r.src (r.pos + 7))) (8 / 10)))
        + 1 / 100 ∧
    (d.VlrMedio = round2 ((d.VlrCusto + d.VlrVenda) / 2) ∨
      d.VlrMedio = round2 ((d.VlrCusto + d.VlrVenda) / 2) - 1 / 100) := by
  obtain ⟨hc, hv, hm⟩ := gerarProduto_precos cfg i r r1 d h
  obtain ⟨hc5, hv6, -⟩ := gerarProduto_limites cfg i r r1 d h
  obtain ⟨hc100, hv200⟩ := gerarProduto_teto cfg i r r1 d h
  obtain ⟨hm0, hm2, hmd⟩ := margem_limites (r.src (r.pos + 7))
  obtain ⟨hp1, hp2⟩ := venda_perto d.VlrCusto
    (fadd (12 / 10) (fmul (unidade (r.src (r.pos + 7))) (8 / 10))) (by linarith) hc100 hm0 hm2
    hmd
  rw [← hv] at hp1 hp2
  have hkc : ∃ kc : Int, d.VlrCusto = (kc : ℚ) / 100 := by
    obtain ⟨k, hk⟩ := duasCasas_centavos (fadd 5 (fmul (unidade (r.src (r.pos + 6))) 95))
    exact ⟨k, hc.trans hk⟩
  have hks : ∃ ks : Int, d.VlrVenda = (ks : ℚ) / 100 := by
    obtain ⟨k, hk⟩ := duasCasas_centavos
      (fmul d.VlrCusto (fadd (12 / 10) (fmul (unidade (r.src (r.pos + 7))) (8 / 10))))
    exact ⟨k, hv.trans hk⟩
  obtain ⟨kc, hkc⟩ := hkc
  obtain ⟨ks, hks⟩ := hks
  have hmp := medio_perto d.VlrCusto d.VlrVenda kc ks hkc hks (by linarith) hc100
    (by linarith) hv200
  rw [← hm] at hmp
  refine ⟨hc, hv, hm, ?_, hp1, hp2, hmp⟩
  intro h10 hmargem
  have c1 : arredondar ((3 : ℚ) / 2) = (3 : ℚ) / 2 := by
    rw [arredondar_eq _ (-52) 6755399441055744 (by norm_num) (by norm_num) (by norm_num)
      (by norm_num) (by norm_num)]
    norm_num
  have c2 : arredondar ((25 : ℚ) / 2) = (25 : ℚ) / 2 := by
    rw [arredondar_eq _ (-49) 7036874417766400 (by norm_num) (by norm_num) (by norm_num)
      (by norm_num) (by norm_num)]
    norm_num
  have hv15 : d.VlrVenda = 15 := by
    rw [hv, h10, hmargem]
    norm_num [duasCasas, fmul, truncar, arredondar_ofNat, c1]
  refine ⟨hv15, ?_⟩
  rw [hm, h10, hv15]
  norm_num [duasCasas, fmul, fadd, fdiv, truncar, arredondar_ofNat, c2]

/-- Witness of the amended C10: draws that give cost 10.00 and margin 1.5, and the product
generated from them, of sale price 15.00 and average price 12.50. -/
theorem precos_do_produto_witness :
    gerarProduto config 0 sorteioCenario
      = some (produtoDocCenario, ⟨sorteioCenario.src, 10⟩) ∧
    produtoDocCenario.VlrCusto = 10 ∧
    fadd (12 / 10) (fmul (unidade (sorteioCenario.src (sorteioCenario.pos + 7))) (8 / 10))
      = 3 / 2 ∧
    produtoDocCenario.VlrVenda = 15 ∧ produtoDocCenario.VlrMedio = 25 / 2 :=
  ⟨gerarProduto_cenario, rfl, margem_tres_oitavos,
    (precos_do_produto config 0 sorteioCenario _ produtoDocCenario gerarProduto_cenario).2.2.2.1
      rfl margem_tres_oitavos⟩

/-- C11: when the read-back of the product catalog fails, at the `Find` or at the
decoding, the invoice stage returns after its log line whatever the sinks, the random
streams and the clock: its trace is that one line, so no worker runs, no invoice and no
line is submitted to either sink, and the content of each sink is what the earlier
stages left. -/
theorem leitura_falha_nada_gera (cfg : Config) (falha : Falhas) (aleat : Nat → Rand)
    (agora : Nat → Time) :
    gerarNotasFiscaisEItens cfg falha Leitura.erroBusca aleat agora
      = some [Evento.log "Erro ao buscar produtos"] ∧
    gerarNotasFiscaisEItens cfg falha Leitura.erroDecodificacao aleat agora
      = some [Evento.log "Erro ao decodificar produtos"] ∧
    (∀ leitura t, leitura = Leitura.erroBusca ∨ leitura = Leitura.erroDecodificacao →
      gerarNotasFiscaisEItens cfg falha leitura aleat agora = some t →
      (∀ s r, Evento.insercao s r ∉ t) ∧ principaisMongo t = [] ∧
      ∀ s inicial, conteudo falha s inicial t = inicial) := by
  refine ⟨rfl, rfl, ?_⟩
  intro leitura t hl h
  rcases hl with rfl | rfl
  · obtain rfl : [Evento.log "Erro ao buscar produtos"] = t := Option.some.inj h
    exact ⟨fun s r => by simp, rfl, fun s inicial => rfl⟩
  · obtain rfl : [Evento.log "Erro ao decodificar produtos"] = t := Option.some.inj h
    exact ⟨fun s r => by simp, rfl, fun s inicial => rfl⟩

/-- Witness of C11: the invoice stage whose `Find` fails, on a MongoDB sink that holds
one city. -/
theorem leitura_falha_nada_gera_witness :
    (Leitura.erroBusca = Leitura.erroBusca ∨ Leitura.erroBusca = Leitura.erroDecodificacao) ∧
    gerarNotasFiscaisEItens config semFalhas Leitura.erroBusca (fun _ => sequencia [])
        (fun _ => instante) = some [Evento.log "Erro ao buscar produtos"] ∧
    conteudo semFalhas Sink.MongoDB [Registro.cidade cidadeExemplo]
        [Evento.log "Erro ao buscar produtos"] = [Registro.cidade cidadeExemplo] :=
  ⟨Or.inl rfl, rfl,
    ((leitura_falha_nada_gera config semFalhas (fun _ => sequencia []) (fun _ => instante)).2.2
      Leitura.erroBusca _ (Or.inl rfl) rfl).2.2 Sink.MongoDB [Registro.cidade cidadeExemplo]⟩

/-- C12, as stated, fails: in the run `ambLeituraFalha` the read-back of the product
catalog fails, the invoice stage logs it, and `main` still prints the final success
message, as its last line. -/
theorem sucesso_apos_leitura_falha_contraexemplo :
    ambLeituraFalha.leitura = Leitura.erroBusca ∧
    ∃ t, main config ambLeituraFalha = some t ∧
      Evento.log "Erro ao buscar produtos" ∈ t ∧ mensagemSucesso ∈ t ∧
      t.getLast? = some mensagemSucesso := by
  refine ⟨rfl, ?_⟩
  obtain ⟨t, ht⟩ := main_leitura_falha
  refine ⟨t, ht, ?_⟩
  obtain ⟨a1, a2, a3, a4, a5, a6, a7, a8, a9, -, -, -, -, -, -, -, -, h9, ht2⟩ :=
    (main_eq_some config ambLeituraFalha t rfl rfl).mp ht
  obtain rfl : [Evento.log "Erro ao buscar produtos"] = a9 := Option.some.inj h9
  rw [ht2]
  exact ⟨List.mem_append_left _ (List.mem_append_right _ (List.mem_singleton.mpr rfl)),
    List.mem_append_right _ (List.mem_singleton.mpr rfl), List.getLast?_concat _⟩

/-- C12, amended: a run that reaches the end of `main` prints the final success message
as its last line exactly when both connections succeed, whatever the read-back of the
product catalog returned: the message comes right after the trace of the invoice stage,
which is the one log line of the stage when the read-back failed.  When a connection
fails the message is not printed. -/
theorem sucesso_depende_so_das_conexoes (cfg : Config) (amb : Ambiente) (t : List Evento)
    (h : main cfg amb = some t) :
    (amb.mongoConecta = true → amb.cassandraConecta = true →
      t.getLast? = some mensagemSucesso ∧
      ∃ antes notas,
        gerarNotasFiscaisEItens cfg amb.falha amb.leitura (amb.aleat 8) (amb.agora 8)
          = some notas ∧
        t = antes ++ notas ++ [mensagemSucesso] ∧
        (amb.leitura = Leitura.erroBusca → notas = [Evento.log "Erro ao buscar produtos"]) ∧
        (amb.leitura = Leitura.erroDecodificacao →
          notas = [Evento.log "Erro ao decodificar produtos"])) ∧
    (amb.mongoConecta = false ∨ amb.cassandraConecta = false → mensagemSucesso ∉ t) := by
  constructor
  · intro hm hc
    obtain ⟨a1, a2, a3, a4, a5, a6, a7, a8, a9, -, -, -, -, -, -, -, -, h9, ht2⟩ :=
      (main_eq_some cfg amb t hm hc).mp h
    rw [ht2]
    refine ⟨List.getLast?_concat _, _, a9, h9, rfl, ?_, ?_⟩
    · intro hl
      rw [hl] at h9
      exact (Option.some.inj h9).symm
    · intro hl
      rw [hl] at h9
      exact (Option.some.inj h9).symm
  · intro hf
    unfold main at h
    by_cases hm : amb.mongoConecta = false
    · rw [if_pos hm] at h
      obtain rfl := Option.some.inj h
      simp [mensagemSucesso]
    · rw [if_neg hm] at h
      have hc : amb.cassandraConecta = false := by
        rcases hf with hf | hf
        · exact absurd hf hm
        · exact hf
      rw [if_pos hc] at h
      obtain rfl := Option.some.inj h
      simp [mensagemSucesso]

/-- Witness of the amended C12: the run `ambLeituraFalha`, whose read-back fails, ends
with the final success message. -/
theorem sucesso_depende_so_das_conexoes_witness :
    ambLeituraFalha.mongoConecta = true ∧ ambLeituraFalha.cassandraConecta = true ∧
    ∃ t, main config ambLeituraFalha = some t ∧ t.getLast? = some mensagemSucesso := by
  obtain ⟨t, ht⟩ := main_leitura_falha
  exact ⟨rfl, rfl, t, ht,
    ((sucesso_depende_so_das_conexoes config ambLeituraFalha t ht).1 rfl rfl).1⟩

/-- C14 on the code: with a catalog that was read back with zero products the body of the
invoice loop panics for every index, every draw and every clock reading (the first
product pick is `rand.Intn(0)`), and so does the invoice stage as soon as there is one
invoice to generate; with a catalog that is not empty, and terminals, registers and
customers to draw from, the body always yields an invoice and its lines. -/
theorem catalogo_vazio_panico (cfg : Config) (agora : Time) (i : Nat) (r : Rand) :
    gerarNota cfg [] agora i r = none ∧
    (∀ falha aleat agoras, 1 ≤ cfg.numNotasFiscais → 1 ≤ cfg.numGoroutines →
      gerarNotasFiscaisEItens cfg falha (Leitura.ok []) aleat agoras = none) ∧
    (∀ produtos, produtos ≠ [] → 0 < cfg.numPDVs → 0 < cfg.numCaixas → 0 < cfg.numClientes →
      ∃ nf itens r1, gerarNota cfg produtos agora i r = some ((nf, itens), r1)) := by
  refine ⟨gerarNota_vazio cfg agora i r, ?_, ?_⟩
  · intro falha aleat agoras hN hW
    cases h : gerarNotasFiscaisEItens cfg falha (Leitura.ok []) aleat agoras with
    | none => rfl
    | some t =>
      obtain ⟨t0, ht0, -⟩ := Option.map_eq_some'.mp h
      rw [estagio_eq_laco _ _ hW] at ht0
      obtain ⟨a, ha⟩ := (laco_isSome _ _).mp ⟨t0, ht0⟩ 0 (List.mem_range.mpr hN)
      obtain ⟨x, hx, -⟩ := (passo_eq_some _ _ _ _ _).mp ha
      rw [gerarNota_vazio] at hx
      exact absurd hx (by simp)
  · intro produtos hne hp hc hcl
    obtain ⟨⟨⟨nf, itens⟩, r1⟩, h⟩ := gerarNota_total cfg produtos hne hp hc hcl agora i r
    exact ⟨nf, itens, r1, h⟩

/-- The failing input of C14: the counts of the source and an empty catalog. -/
theorem catalogo_vazio_panico_witness :
    1 ≤ config.numNotasFiscais ∧ 1 ≤ config.numGoroutines ∧
    gerarNota config [] instante 0 (sequencia []) = none ∧
    gerarNotasFiscaisEItens config semFalhas (Leitura.ok []) (fun _ => sequencia [])
      (fun _ => instante) = none ∧
    [produtoExemplo] ≠ [] ∧
    ∃ nf itens r1,
      gerarNota config [produtoExemplo] instante 0 (sequencia []) = some ((nf, itens), r1) :=
  ⟨by decide, by decide,
    (catalogo_vazio_panico config instante 0 (sequencia [])).1,
    (catalogo_vazio_panico config instante 0 (sequencia [])).2.1 semFalhas _ _
      (by decide) (by decide),
    by simp,
    (catalogo_vazio_panico config instante 0 (sequencia [])).2.2 [produtoExemplo] (by simp)
      (by decide) (by decide) (by decide)⟩

/-- C15 on the code.  With `numGoroutines >= 1` and something to draw from in every pick,
a failing write does not abort the loop of a worker in any of the eight stages before the
invoice stage, nor in the invoice stage when the catalog read back is not empty: under
every failing writes the stage runs to its end, every worker submits to MongoDB the record
generated for every index of its range `[start, end)`, in order, the stage submits `N`
records in all, and they are the same records under any other failing writes
(`naoAborta`; the store stage is one loop, taken as a single worker).  But the invoice
stage draws its products from what the product stage wrote: when every MongoDB write
fails and the collection starts empty, the catalog read back is empty whatever was
written, and the invoice stage panics at its first product pick, so it submits no record
instead of `N`; the run ends there. -/
theorem falha_de_escrita_nao_aborta (cfg : Config) (hW : 1 ≤ cfg.numGoroutines)
    (hci : 0 < cfg.numCidades) (hfo : 0 < cfg.numFornecedores) (hlo : 0 < cfg.numLojas)
    (hpd : 0 < cfg.numPDVs) (hca : 0 < cfg.numCaixas) (hcl : 0 < cfg.numClientes)
    (hnf : 0 < cfg.numNotasFiscais) (aleat : Nat → Rand) (agora : Nat → Time) :
    naoAborta cfg.numCidades cfg.numGoroutines
      (fun i => (gerarCidade i (aleat i)).map Prod.fst) Registro.cidade
      (fun falha => gerarCidades cfg falha aleat) ∧
    naoAborta (cfg.numClientes + cfg.numLojas) cfg.numGoroutines
      (fun i => (gerarEndereco cfg i (aleat i)).map Prod.fst) Registro.endereco
      (fun falha => gerarEnderecos cfg falha aleat) ∧
    naoAborta cfg.numFornecedores cfg.numGoroutines
      (fun i => (gerarFornecedor i (aleat i)).map Prod.fst) Registro.fornecedor
      (fun falha => gerarFornecedores cfg falha aleat) ∧
    naoAborta cfg.numProdutos cfg.numGoroutines
      (fun i => (gerarProduto cfg i (aleat i)).map Prod.fst) Registro.produtoDoc
      (fun falha => gerarProdutos cfg falha aleat) ∧
    naoAborta cfg.numLojas 1
      (fun i => some (gerarLoja i)) Registro.loja
      (fun falha => gerarLojas cfg falha) ∧
    naoAborta cfg.numPDVs cfg.numGoroutines
      (fun i => (gerarPDV cfg (agora i) i (aleat i)).map Prod.fst) Registro.pdv
      (fun falha => gerarPDVs cfg falha aleat agora) ∧
    naoAborta cfg.numCaixas cfg.numGoroutines
      (fun i => (gerarCaixa cfg i (aleat i)).map Prod.fst) Registro.caixa
      (fun falha => gerarCaixas cfg falha aleat) ∧
    naoAborta cfg.numClientes cfg.numGoroutines
      (fun i => (gerarCliente cfg i (aleat i)).map Prod.fst) Registro.cliente
      (fun falha => gerarClientes cfg falha aleat) ∧
    (∀ produtos, produtos ≠ [] →
      naoAborta cfg.numNotasFiscais cfg.numGoroutines
        (fun i => (gerarNota cfg produtos (agora i) i (aleat i)).map Prod.fst)
        (fun x => Registro.notaFiscal x.1)
        (fun falha =>
          gerarNotasFiscaisEItens cfg falha (Leitura.ok produtos) aleat agora)) ∧
    (∀ t, catalogo (conteudo falhaMongo Sink.MongoDB [] t) = [] ∧
      gerarNotasFiscaisEItens cfg falhaMongo
        (Leitura.ok (catalogo (conteudo falhaMongo Sink.MongoDB [] t))) aleat agora = none) ∧
    (∀ amb : Ambiente, amb.mongoConecta = true → amb.cassandraConecta = true →
      amb.falha = falhaMongo → amb.leitura = Leitura.ok [] → main cfg amb = none) := by
  refine ⟨?_, ?_, ?_, ?_, ?_, ?_, ?_, ?_, ?_, ?_, ?_⟩
  · exact naoAborta_estagio _ _ hW gerarCidade Registro.cidade
      (fun falha _ c => gravar falha "cidade" (Registro.cidade c) (Registro.cidade c))
      (fun falha _ c => principaisMongo_gravar falha _ _ _ (fun it => by simp)) aleat _
      (principaisMongo_print _) gerarCidade_total
  · exact naoAborta_estagio _ _ hW (gerarEndereco cfg) Registro.endereco
      (fun falha _ e => gravar falha "endereço" (Registro.endereco e) (Registro.endereco e))
      (fun falha _ c => principaisMongo_gravar falha _ _ _ (fun it => by simp)) aleat _
      (principaisMongo_print _) (gerarEndereco_total cfg hci)
  · exact naoAborta_estagio _ _ hW gerarFornecedor Registro.fornecedor
      (fun falha _ f => gravar falha "fornecedor" (Registro.fornecedor f)
        (Registro.fornecedor f))
      (fun falha _ c => principaisMongo_gravar falha _ _ _ (fun it => by simp)) aleat _
      (principaisMongo_print _) gerarFornecedor_total
  · exact naoAborta_estagio _ _ hW (gerarProduto cfg) Registro.produtoDoc
      (fun falha _ d => gravar falha "produto" (Registro.produtoDoc d)
        (Registro.produto (linhaProduto d)))
      (fun falha _ c => principaisMongo_gravar falha _ _ _ (fun it => by simp)) aleat _
      (principaisMongo_print _) (gerarProduto_total cfg hfo)
  · have h := naoAborta_estagio cfg.numLojas 1 (le_refl 1)
      (fun i => (Pure.pure (gerarLoja i) : Gen Loja)) Registro.loja
      (fun falha _ l => gravar falha "loja" (Registro.loja l) (Registro.loja l))
      (fun falha _ c => principaisMongo_gravar falha _ _ _ (fun it => by simp)) aleat
      [Evento.print ("Geradas " ++ toString cfg.numLojas ++ " lojas")]
      (principaisMongo_print _) (fun i => total_pure (gerarLoja i))
    have heq : (fun falha => gerarLojas cfg falha)
        = (fun falha => (estagio cfg.numLojas 1
            (passo (fun i => (Pure.pure (gerarLoja i) : Gen Loja))
              (fun _ l => gravar falha "loja" (Registro.loja l) (Registro.loja l))
              aleat)).map
            (fun t => t ++ [Evento.print ("Geradas " ++ toString cfg.numLojas ++ " lojas")])) :=
      funext (fun falha => gerarLojas_eq_estagio cfg falha aleat)
    rw [heq]
    exact h
  · exact naoAborta_estagio _ _ hW (fun i => gerarPDV cfg (agora i) i) Registro.pdv
      (fun falha _ p => gravar falha "PDV" (Registro.pdv p) (Registro.pdv p))
      (fun falha _ c => principaisMongo_gravar falha _ _ _ (fun it => by simp)) aleat _
      (principaisMongo_print _) (fun i => gerarPDV_total cfg hlo (agora i) i)
  · exact naoAborta_estagio _ _ hW (gerarCaixa cfg) Registro.caixa
      (fun falha _ c => gravar falha "caixa" (Registro.caixa c) (Registro.caixa c))
      (fun falha _ c => principaisMongo_gravar falha _ _ _ (fun it => by simp)) aleat _
      (principaisMongo_print _) (gerarCaixa_total cfg hlo)
  · exact naoAborta_estagio _ _ hW (gerarCliente cfg) Registro.cliente
      (fun falha _ c => gravar falha "cliente" (Registro.cliente c) (Registro.cliente c))
      (fun falha _ c => principaisMongo_gravar falha _ _ _ (fun it => by simp)) aleat _
      (principaisMongo_print _) (gerarCliente_total cfg)
  · intro produtos hprod
    exact naoAborta_estagio _ _ hW (fun i => gerarNota cfg produtos (agora i) i)
      (fun x => Registro.notaFiscal x.1)
      (fun falha i x => gravarNota falha i x.1 x.2)
      (fun falha i x => principaisMongo_gravarNota falha i x.1 x.2) aleat _
      (principaisMongo_print _)
      (fun i => gerarNota_total cfg produtos hprod hpd hca hcl (agora i) i)
  · intro t
    refine ⟨catalogo_falhaMongo t, ?_⟩
    rw [catalogo_falhaMongo]
    exact notas_sem_catalogo cfg hnf hW _ _ _
  · intro amb hm hc hf hl
    cases h : main cfg amb with
    | none => rfl
    | some t =>
      obtain ⟨_, _, _, _, _, _, _, _, notas, -, -, -, -, -, -, -, -, hn, -⟩ :=
        (main_eq_some cfg amb t hm hc).mp h
      rw [hl, notas_sem_catalogo cfg hnf hW] at hn
      exact absurd hn (by simp)

/-- The failing input of C15: every MongoDB write fails.  The city stage of three cities
and two workers still submits its three records, as under any other failing writes; but
with the counts of the source the catalog read back after the product stage is empty,
the invoice stage panics, and so does the run. -/
theorem falha_de_escrita_nao_aborta_witness :
    1 ≤ configPequena.numGoroutines ∧ 0 < configPequena.numCidades ∧
    0 < configPequena.numFornecedores ∧ 0 < configPequena.numLojas ∧
    0 < configPequena.numPDVs ∧ 0 < configPequena.numCaixas ∧
    0 < configPequena.numClientes ∧ 0 < configPequena.numNotasFiscais ∧
    gerarCidades configPequena falhaMongo (fun _ => sequencia []) = some tracoPequeno ∧
    (principaisMongo tracoPequeno).length = configPequena.numCidades ∧
    (∀ falha2, ∃ t2, gerarCidades configPequena falha2 (fun _ => sequencia []) = some t2 ∧
      principaisMongo t2 = principaisMongo tracoPequeno) ∧
    (∀ t, gerarNotasFiscaisEItens config falhaMongo
      (Leitura.ok (catalogo (conteudo falhaMongo Sink.MongoDB [] t)))
      (fun _ => sequencia []) (fun _ => instante) = none) := by
  have hp := (falha_de_escrita_nao_aborta configPequena (by decide) (by decide) (by decide)
    (by decide) (by decide) (by decide) (by decide) (by decide) (fun _ => sequencia [])
    (fun _ => instante)).1 falhaMongo
  obtain ⟨t, ht, -, hlen, hout⟩ := hp
  have ht : gerarCidades configPequena falhaMongo (fun _ => sequencia []) = some t := ht
  rw [gerarCidades_pequena] at ht
  obtain rfl := Option.some.inj ht
  exact ⟨by decide, by decide, by decide, by decide, by decide, by decide, by decide,
    by decide, gerarCidades_pequena, hlen, hout,
    fun t => ((falha_de_escrita_nao_aborta config (by decide) (by decide) (by decide)
      (by decide) (by decide) (by decide) (by decide) (by decide) (fun _ => sequencia [])
      (fun _ => instante)).2.2.2.2.2.2.2.2.2.1 t).2⟩

/-- C16: in a run in which both connections succeed and that reaches the end of `main`,
the trace is the traces of the nine stage functions in the order cities, addresses,
suppliers, products, stores, terminals, registers, customers, invoices with their lines,
each stage function returning before the next is called.  Hence the stage numbers of the
writes never decrease along the trace: no write of a stage comes after a write of a later
stage, and every entity is written by a stage that comes after the stages of the
entities it references (address after city, product after supplier, store and customer
after address, terminal and register after store, invoice and line after terminal,
register, customer and product). -/
theorem estagios_em_ordem (cfg : Config) (amb : Ambiente) (t : List Evento)
    (h : main cfg amb = some t) (hm : amb.mongoConecta = true)
    (hc : amb.cassandraConecta = true) :
    (∃ cidades enderecos fornecedores produtos lojas pdvs caixas clientes notas,
      gerarCidades cfg amb.falha (amb.aleat 0) = some cidades ∧
      gerarEnderecos cfg amb.falha (amb.aleat 1) = some enderecos ∧
      gerarFornecedores cfg amb.falha (amb.aleat 2) = some fornecedores ∧
      gerarProdutos cfg amb.falha (amb.aleat 3) = some produtos ∧
      gerarLojas cfg amb.falha = some lojas ∧
      gerarPDVs cfg amb.falha (amb.aleat 5) (amb.agora 5) = some pdvs ∧
      gerarCaixas cfg amb.falha (amb.aleat 6) = some caixas ∧
      gerarClientes cfg amb.falha (amb.aleat 7) = some clientes ∧
      gerarNotasFiscaisEItens cfg amb.falha amb.leitura (amb.aleat 8) (amb.agora 8)
        = some notas ∧
      t = [Evento.print "Conectado ao MongoDB com sucesso!",
           Evento.print "Conectado ao Cassandra com sucesso!",
           Evento.print "Iniciando geração de dados...",
           Evento.print "Gerando cidades..."] ++ cidades
        ++ [Evento.print "Gerando endereços..."] ++ enderecos
        ++ [Evento.print "Gerando fornecedores..."] ++ fornecedores
        ++ [Evento.print "Gerando produtos..."] ++ produtos
        ++ [Evento.print "Gerando lojas..."] ++ lojas
        ++ [Evento.print "Gerando PDVs..."] ++ pdvs
        ++ [Evento.print "Gerando caixas..."] ++ caixas
        ++ [Evento.print "Gerando clientes..."] ++ clientes
        ++ [Evento.print "Gerando notas fiscais e itens..."] ++ notas
        ++ [mensagemSucesso]) ∧
    (estagiosDasEscritas t).Pairwise (fun a b => a ≤ b) ∧
    (∀ l1 l2 l3 s1 r1 s2 r2,
      t = l1 ++ Evento.insercao s1 r1 :: (l2 ++ Evento.insercao s2 r2 :: l3) →
      r1.estagio ≤ r2.estagio) ∧
    (∀ c e, (Registro.cidade c).estagio < (Registro.endereco e).estagio) ∧
    (∀ f d, (Registro.fornecedor f).estagio < (Registro.produtoDoc d).estagio) ∧
    (∀ e l c, (Registro.endereco e).estagio < (Registro.loja l).estagio ∧
      (Registro.endereco e).estagio < (Registro.cliente c).estagio) ∧
    (∀ l p c, (Registro.loja l).estagio < (Registro.pdv p).estagio ∧
      (Registro.loja l).estagio < (Registro.caixa c).estagio) ∧
    (∀ p c cl d n it, (Registro.pdv p).estagio < (Registro.notaFiscal n).estagio ∧
      (Registro.caixa c).estagio < (Registro.notaFiscal n).estagio ∧
      (Registro.cliente cl).estagio < (Registro.notaFiscal n).estagio ∧
      (Registro.produtoDoc d).estagio < (Registro.itemNotaFiscal it).estagio ∧
      (Registro.notaFiscal n).estagio ≤ (Registro.itemNotaFiscal it).estagio) := by
  have hdec := (main_eq_some cfg amb t hm hc).mp h
  have hord : (estagiosDasEscritas t).Pairwise (fun a b => a ≤ b) := by
    obtain ⟨a1, a2, a3, a4, a5, a6, a7, a8, a9, h1, h2, h3, h4, h5, h6, h7, h8, h9, ht⟩ := hdec
    have e1 := escritas_do_estagio _ _ gerarCidade _ _ _ 0
      (fun i x ev n hev hn => by
        rcases escrita_de_gravar _ _ _ _ _ _ hev hn with h | h <;> exact h) a1 h1
    have e2 := escritas_do_estagio _ _ (gerarEndereco cfg) _ _ _ 1
      (fun i x ev n hev hn => by
        rcases escrita_de_gravar _ _ _ _ _ _ hev hn with h | h <;> exact h) a2 h2
    have e3 := escritas_do_estagio _ _ gerarFornecedor _ _ _ 2
      (fun i x ev n hev hn => by
        rcases escrita_de_gravar _ _ _ _ _ _ hev hn with h | h <;> exact h) a3 h3
    have e4 := escritas_do_estagio _ _ (gerarProduto cfg) _ _ _ 3
      (fun i x ev n hev hn => by
        rcases escrita_de_gravar _ _ _ _ _ _ hev hn with h | h <;> exact h) a4 h4
    have e5 := escritas_lojas cfg amb.falha a5 h5
    have e6 := escritas_do_estagio _ _ (fun i => gerarPDV cfg (amb.agora 5 i) i) _ _ _ 5
      (fun i x ev n hev hn => by
        rcases escrita_de_gravar _ _ _ _ _ _ hev hn with h | h <;> exact h) a6 h6
    have e7 := escritas_do_estagio _ _ (gerarCaixa cfg) _ _ _ 6
      (fun i x ev n hev hn => by
        rcases escrita_de_gravar _ _ _ _ _ _ hev hn with h | h <;> exact h) a7 h7
    have e8 := escritas_do_estagio _ _ (gerarCliente cfg) _ _ _ 7
      (fun i x ev n hev hn => by
        rcases escrita_de_gravar _ _ _ _ _ _ hev hn with h | h <;> exact h) a8 h8
    have e9 := escritas_notas cfg amb.falha amb.leitura _ _ a9 h9
    have hkey : estagiosDasEscritas t
        = estagiosDasEscritas a1 ++ (estagiosDasEscritas a2 ++ (estagiosDasEscritas a3 ++
          (estagiosDasEscritas a4 ++ (estagiosDasEscritas a5 ++ (estagiosDasEscritas a6 ++
          (estagiosDasEscritas a7 ++ (estagiosDasEscritas a8 ++
          (estagiosDasEscritas a9 ++ [])))))))) := by
      have hp1 : ∀ m, estagiosDasEscritas [Evento.print m] = [] := fun _ => rfl
      have hp4 : ∀ m1 m2 m3 m4, estagiosDasEscritas
          [Evento.print m1, Evento.print m2, Evento.print m3, Evento.print m4] = [] :=
        fun _ _ _ _ => rfl
      have hp0 : estagiosDasEscritas [mensagemSucesso] = [] := rfl
      rw [ht]
      simp only [estagiosDasEscritas_append, hp1, hp4, hp0, List.nil_append, List.append_nil,
        List.append_assoc]
    rw [hkey]
    have p9 := pairwise_bloco 8 _ [] e9 List.Pairwise.nil (fun m hm => absurd hm (by simp))
    have p8 := pairwise_bloco 7 _ _ e8 p9.1 (fun m hm => by have := p9.2 m hm; omega)
    have p7 := pairwise_bloco 6 _ _ e7 p8.1 (fun m hm => by have := p8.2 m hm; omega)
    have p6 := pairwise_bloco 5 _ _ e6 p7.1 (fun m hm => by have := p7.2 m hm; omega)
    have p5 := pairwise_bloco 4 _ _ e5 p6.1 (fun m hm => by have := p6.2 m hm; omega)
    have p4 := pairwise_bloco 3 _ _ e4 p5.1 (fun m hm => by have := p5.2 m hm; omega)
    have p3 := pairwise_bloco 2 _ _ e3 p4.1 (fun m hm => by have := p4.2 m hm; omega)
    have p2 := pairwise_bloco 1 _ _ e2 p3.1 (fun m hm => by have := p3.2 m hm; omega)
    exact (pairwise_bloco 0 _ _ e1 p2.1 (fun m hm => by have := p2.2 m hm; omega)).1
  refine ⟨hdec, hord, ?_, fun _ _ => by simp [Registro.estagio],
    fun _ _ => by simp [Registro.estagio], fun _ _ _ => by simp [Registro.estagio],
    fun _ _ _ => by simp [Registro.estagio], fun _ _ _ _ _ _ => by simp [Registro.estagio]⟩
  intro l1 l2 l3 s1 r1 s2 r2 ht
  rw [ht, estagiosDasEscritas_append] at hord
  have h2 := (List.pairwise_append.mp hord).2.1
  have h3 : estagiosDasEscritas (Evento.insercao s1 r1 :: (l2 ++ Evento.insercao s2 r2 :: l3))
      = r1.estagio :: (estagiosDasEscritas l2
          ++ r2.estagio :: estagiosDasEscritas l3) := by
    simp [estagiosDasEscritas, estagioDaEscrita]
  rw [h3] at h2
  exact (List.pairwise_cons.mp h2).1 _ (List.mem_append_right _ (List.mem_cons_self _ _))

/-- Witness of C16: the run `ambLeituraFalha` reaches the end of `main`, and the stage
numbers of its writes never decrease. -/
theorem estagios_em_ordem_witness :
    ambLeituraFalha.mongoConecta = true ∧ ambLeituraFalha.cassandraConecta = true ∧
    ∃ t, main config ambLeituraFalha = some t ∧
      (estagiosDasEscritas t).Pairwise (fun a b => a ≤ b) := by
  obtain ⟨t, ht⟩ := main_leitura_falha
  exact ⟨rfl, rfl, t, ht, (estagios_em_ordem config ambLeituraFalha t ht rfl rfl).2.1⟩

/-- C17, as stated, fails: with the same index and the same draws, the terminal generated
at the clock reading `instante` and the one generated at `instanteDepois` differ in
their validity window. -/
theorem relogio_muda_o_pdv_contraexemplo :
    gerarPDV config instante 0 (sequencia [])
      = some (pdvExemplo, ⟨fun n => ([] : List Nat).getD n 0, 7⟩) ∧
    gerarPDV config instanteDepois 0 (sequencia [])
      = some (pdvDepois, ⟨fun n => ([] : List Nat).getD n 0, 7⟩) ∧
    pdvExemplo.DatInicioVigencia ≠ pdvDepois.DatInicioVigencia ∧
    pdvExemplo.DatFimVigencia ≠ pdvDepois.DatFimVigencia ∧
    pdvExemplo ≠ pdvDepois := by
  refine ⟨gerarPDV_exemplo, ?_, by decide, by decide, ?_⟩
  · simp [gerarPDV, genBind_apply, genPure_apply, Intn, config, sequencia, pdvDepois,
      instanteDepois, Time.AddDate]
    norm_num
  · intro h
    have h2 : pdvExemplo.DatInicioVigencia = pdvDepois.DatInicioVigencia := by rw [h]
    exact absurd h2 (by decide)

/-- C17, amended: the clock reading `time.Now()` is an input of the generation of a
terminal and of an invoice, and it affects only the dates.  The validity window of a
terminal and the timestamp of an invoice are the clock reading shifted by `AddDate` with
the months and days drawn; two generations with the same index, the same draws and the
same catalog at two clock readings give records that agree on every other field, and the
same invoice lines.  (The generators of the seven other entity types take no clock
reading.) -/
theorem relogio_so_nas_datas (cfg : Config) (produtos : List Produto) (a1 a2 : Time)
    (i : Nat) (r : Rand) :
    (∀ p r1, gerarPDV cfg a1 i r = some (p, r1) →
      p.DatInicioVigencia
        = a1.AddDate (-1) (-((r.src (r.pos + 1) % 12 : Nat) : Int))
            (-((r.src (r.pos + 2) % 30 : Nat) : Int)) ∧
      p.DatFimVigencia = p.DatInicioVigencia.AddDate 5 0 0 ∧
      gerarPDV cfg a2 i r
        = some ({ p with
            DatInicioVigencia :=
              a2.AddDate (-1) (-((r.src (r.pos + 1) % 12 : Nat) : Int))
                (-((r.src (r.pos + 2) % 30 : Nat) : Int)),
            DatFimVigencia :=
              (a2.AddDate (-1) (-((r.src (r.pos + 1) % 12 : Nat) : Int))
                (-((r.src (r.pos + 2) % 30 : Nat) : Int))).AddDate 5 0 0 }, r1)) ∧
    (∀ nf itens r1, gerarNota cfg produtos a1 i r = some ((nf, itens), r1) →
      nf.DatNota
        = a1.AddDate 0 (-((r.src (r.pos + 4) % 12 : Nat) : Int))
            (-((r.src (r.pos + 5) % 30 : Nat) : Int)) ∧
      gerarNota cfg produtos a2 i r
        = some (({ nf with
            DatNota :=
              a2.AddDate 0 (-((r.src (r.pos + 4) % 12 : Nat) : Int))
                (-((r.src (r.pos + 5) % 30 : Nat) : Int)) }, itens), r1)) := by
  constructor
  · intro p r1 h
    unfold gerarPDV at h ⊢
    simp only [genBind_eq_some, Intn_eq_some, genPure_eq_some] at h ⊢
    obtain ⟨_, _, ⟨-, rfl, rfl⟩, _, _, ⟨-, rfl, rfl⟩, _, _, ⟨-, rfl, rfl⟩, _, _, ⟨-, rfl, rfl⟩,
      _, _, ⟨-, rfl, rfl⟩, _, _, ⟨hl, rfl, rfl⟩, _, _, ⟨-, rfl, rfl⟩, rfl, rfl⟩ := h
    exact ⟨rfl, rfl, _, _, ⟨by decide, rfl, rfl⟩, _, _, ⟨by decide, rfl, rfl⟩, _, _,
      ⟨by decide, rfl, rfl⟩, _, _, ⟨by decide, rfl, rfl⟩, _, _, ⟨by decide, rfl, rfl⟩, _, _,
      ⟨hl, rfl, rfl⟩, _, _, ⟨by decide, rfl, rfl⟩, rfl, rfl⟩
  · intro nf itens r1 h
    unfold gerarNota at h ⊢
    simp only [genBind_eq_some, Intn_eq_some] at h ⊢
    obtain ⟨_, _, ⟨hp, rfl, rfl⟩, _, _, ⟨hc, rfl, rfl⟩, _, _, ⟨hcl, rfl, rfl⟩, _, _,
      ⟨-, rfl, rfl⟩, _, _, ⟨-, rfl, rfl⟩, _, _, ⟨-, rfl, rfl⟩, _, _, ⟨-, rfl, rfl⟩, _, _,
      ⟨-, rfl, rfl⟩, ⟨itens2, soma⟩, r3, hitens, fp, r4, ⟨-, hfp, rfl⟩, hfim⟩ := h
    have hfp3 : fp < 3 := by rw [hfp]; exact Nat.mod_lt _ (by decide)
    interval_cases fp
    all_goals
      simp only [genPure_eq_some, Prod.mk.injEq] at hfim
      obtain ⟨⟨rfl, rfl⟩, rfl⟩ := hfim
      exact ⟨rfl, _, _, ⟨hp, rfl, rfl⟩, _, _, ⟨hc, rfl, rfl⟩, _, _, ⟨hcl, rfl, rfl⟩, _, _,
        ⟨by decide, rfl, rfl⟩, _, _, ⟨by decide, rfl, rfl⟩, _, _, ⟨by decide, rfl, rfl⟩, _, _,
        ⟨by decide, rfl, rfl⟩, _, _, ⟨by decide, rfl, rfl⟩, (itens, soma), r3, hitens, _, _,
        ⟨by decide, hfp, rfl⟩, rfl⟩

/-- Witness of the amended C17: the terminal generated at the clock reading `instante`,
and the one generated from the same draws at `instanteDepois`. -/
theorem relogio_so_nas_datas_witness :
    gerarPDV config instante 0 (sequencia [])
      = some (pdvExemplo, ⟨fun n => ([] : List Nat).getD n 0, 7⟩) ∧
    pdvExemplo.DatFimVigencia = pdvExemplo.DatInicioVigencia.AddDate 5 0 0 ∧
    ∃ p r1, gerarPDV config instanteDepois 0 (sequencia []) = some (p, r1) ∧
      p.CodPDV = pdvExemplo.CodPDV ∧ p.CodLoja = pdvExemplo.CodLoja ∧
      p.NumRegistro = pdvExemplo.NumRegistro :=
  ⟨gerarPDV_exemplo,
    ((relogio_so_nas_datas config [produtoExemplo] instante instanteDepois 0 (sequencia [])).1
      _ _ gerarPDV_exemplo).2.1,
    _, _,
    ((relogio_so_nas_datas config [produtoExemplo] instante instanteDepois 0 (sequencia [])).1
      _ _ gerarPDV_exemplo).2.2, rfl, rfl, rfl⟩

/-- C18, as stated, fails for the product generated when every draw is 0: its sale
price is 6.00, the float64 product `6.00 * 0.7` is just below 4.2 and the promotion price
stored is 4.19, while `round2 (0.7 * 6.00)` is 4.20. -/
theorem promocao_um_centavo_contraexemplo :
    gerarProduto config 0 (sequencia [])
      = some (produtoDocExemplo, ⟨fun n => ([] : List Nat).getD n 0, 11⟩) ∧
    produtoDocExemplo.VlrVenda = 6 ∧
    produtoDocExemplo.VlrPromocao = some (419 / 100) ∧
    round2 (7 / 10 * produtoDocExemplo.VlrVenda) = 420 / 100 ∧
    produtoDocExemplo.VlrPromocao ≠ some (round2 (7 / 10 * produtoDocExemplo.VlrVenda)) := by
  have hr : round2 (7 / 10 * produtoDocExemplo.VlrVenda) = 420 / 100 := by
    norm_num [produtoDocExemplo, round2, truncar]
  refine ⟨gerarProduto_exemplo, rfl, rfl, hr, ?_⟩
  rw [hr]
  norm_num [produtoDocExemplo]

/-- C18, amended: for every generated product the cost is at least 5.00 and the sale
price at least 6.00.  A product put on promotion has as promotion price the truncation to
cents of the float64 product of its sale price by 0.7 (`duasCasas`), which is strictly
positive (at least 4.19) and strictly below its sale price, reads back with it, and is
`round2 (0.7 * sale price)` on exact rationals or one cent below it; a product not on
promotion reads back with promotion price 0.  So the test `VlrPromocao > 0` of the invoice
stage holds of the product read back exactly when the product was put on promotion. -/
theorem promocao_do_produto (cfg : Config) (i : Nat) (r r1 : Rand) (d : ProdutoDoc)
    (h : gerarProduto cfg i r = some (d, r1)) :
    5 ≤ d.VlrCusto ∧ 6 ≤ d.VlrVenda ∧
    (∀ v, d.VlrPromocao = some v →
      v = duasCasas (fmul d.VlrVenda (7 / 10)) ∧ 419 / 100 ≤ v ∧ 0 < v ∧ v < d.VlrVenda ∧
      (decodificar d).VlrPromocao = v ∧ d.CodPromocao.isSome = true ∧
      (v = round2 (7 / 10 * d.VlrVenda) ∨ v = round2 (7 / 10 * d.VlrVenda) - 1 / 100)) ∧
    (d.VlrPromocao = none → (decodificar d).VlrPromocao = 0 ∧ d.CodPromocao = none) ∧
    (0 < (decodificar d).VlrPromocao ↔ d.VlrPromocao.isSome = true) := by
  obtain ⟨-, -, -, hpromo⟩ := gerarProduto_spec cfg i r r1 d h
  obtain ⟨hcusto, hvenda, hlim⟩ := gerarProduto_limites cfg i r r1 d h
  obtain ⟨-, hv200⟩ := gerarProduto_teto cfg i r r1 d h
  obtain ⟨-, hv, -⟩ := gerarProduto_precos cfg i r r1 d h
  refine ⟨hcusto, hvenda, ?_, ?_, ?_⟩
  · intro w hw
    obtain ⟨h1, h2, h3⟩ := hlim w hw
    refine ⟨h1, h2, by linarith, h3, ?_, ?_, ?_⟩
    · simp [decodificar, hw]
    · rcases hpromo with ⟨-, hn⟩ | ⟨⟨c, -, hcod⟩, -⟩
      · rw [hn] at hw
        exact absurd hw (by simp)
      · simp [hcod]
    · obtain ⟨k, hk⟩ := duasCasas_centavos
        (fmul d.VlrCusto (fadd (12 / 10) (fmul (unidade (r.src (r.pos + 7))) (8 / 10))))
      rw [h1]
      exact promocao_perto d.VlrVenda k (hv.trans hk) (by linarith) hv200
  · intro hn
    rcases hpromo with ⟨hcn, -⟩ | ⟨-, hs⟩
    · exact ⟨by simp [decodificar, hn], hcn⟩
    · rw [hs] at hn
      exact absurd hn (by simp)
  · cases hd : d.VlrPromocao with
    | none => simp [decodificar, hd]
    | some w =>
      obtain ⟨-, h2, -⟩ := hlim w hd
      simp only [decodificar, hd, Option.getD_some, Option.isSome_some, iff_true]
      linarith

/-- Witness of the amended C18: the product generated when every draw is 0 is on
promotion, at sale price 6.00 and promotion price 4.19. -/
theorem promocao_do_produto_witness :
    gerarProduto config 0 (sequencia [])
      = some (produtoDocExemplo, ⟨fun n => ([] : List Nat).getD n 0, 11⟩) ∧
    produtoDocExemplo.VlrPromocao = some (419 / 100) ∧
    (419 / 100 : ℚ) = duasCasas (fmul produtoDocExemplo.VlrVenda (7 / 10)) ∧
    (0 : ℚ) < 419 / 100 ∧ (419 / 100 : ℚ) < produtoDocExemplo.VlrVenda ∧
    (decodificar produtoDocExemplo).VlrPromocao = 419 / 100 :=
  ⟨gerarProduto_exemplo, rfl,
    ((promocao_do_produto config 0 _ _ produtoDocExemplo gerarProduto_exemplo).2.2.1
      (419 / 100) rfl).1,
    ((promocao_do_produto config 0 _ _ produtoDocExemplo gerarProduto_exemplo).2.2.1
      (419 / 100) rfl).2.2.1,
    ((promocao_do_produto config 0 _ _ produtoDocExemplo gerarProduto_exemplo).2.2.1
      (419 / 100) rfl).2.2.2.1,
    ((promocao_do_produto config 0 _ _ produtoDocExemplo gerarProduto_exemplo).2.2.1
      (419 / 100) rfl).2.2.2.2.1⟩

end DataGenerator
